import Mathlib

/-! DreamFrame: metaphor parser, scene composer, EEG drowsiness detector,
metaphor generator and server handlers.

A shallow embedding of `public/js/dream-visuals.js`,
`public/js/eeg-simulation.js`, `public/js/metaphor-generator.js`, `server.js`
and the video request of `public/js/app.js`.

Conventions of the embedding

* A JavaScript string is a Lean `String` (its list of characters).
* A JavaScript object is the ordered list of its own enumerable properties.
* A JavaScript number is a rational; every literal of the source is an exact
  decimal, and arithmetic is exact.  `Math.random()` and `Math.sin` are
  parameters.
* `Date.now()` and timer delays are natural numbers of milliseconds.
-/

namespace DreamFrame

/-! ## JavaScript values -/

/-- A JavaScript value as far as the keyword table needs one: a string or a number. -/
inductive JSValue where
  | str (s : String)
  | num (q : ℚ)
  deriving DecidableEq, Repr

/-- An object: its own enumerable properties, in insertion order. -/
abbrev JSObject := List (String × JSValue)

/-- Visual elements are plain objects `{ word, ...attributes }`. -/
abbrev Element := JSObject

/-- Property read `obj[key]`; `none` stands for `undefined`. -/
def JSObject.get (o : JSObject) (key : String) : Option JSValue :=
  (o.find? (fun p => p.1 == key)).map Prod.snd

/-! ## String primitives used by the parser -/

/-- The characters matched by `\s` in a JavaScript regular expression. -/
def isWhiteSpace (c : Char) : Bool :=
  let n := c.toNat
  (0x09 ≤ n && n ≤ 0x0D) || n == 0x20 || n == 0xA0 || n == 0x1680 ||
  (0x2000 ≤ n && n ≤ 0x200A) || n == 0x2028 || n == 0x2029 || n == 0x202F ||
  n == 0x205F || n == 0x3000 || n == 0xFEFF

/-- Lower-casing of one character.  `A`..`Z` go to `a`..`z` and the Kelvin sign
U+212A goes to `k`; these are the only characters whose lower case is an ASCII
letter.  Other characters are kept: their Unicode lower case is never ASCII and
never white space, so it cannot create or destroy a match with the (ASCII)
property names the parser looks up. -/
def lowerChar (c : Char) : Char :=
  if 65 ≤ c.toNat ∧ c.toNat ≤ 90 then Char.ofNat (c.toNat + 32)
  else if c.toNat = 0x212A then 'k'
  else c

/-- The method `String.prototype.toLowerCase`. -/
def toLowerCase (s : String) : String := ⟨s.data.map lowerChar⟩

/-- Scanner behind `split(/\s+/)`: `cur` is the token being read (reversed) and
`inSep` tells whether the previous character belonged to a separator run. -/
def splitAux (cur : List Char) (inSep : Bool) : List Char → List String
  | [] => [⟨cur.reverse⟩]
  | c :: cs =>
    if isWhiteSpace c then
      if inSep then splitAux [] true cs
      else ⟨cur.reverse⟩ :: splitAux [] true cs
    else splitAux (c :: cur) false cs

/-- The call `s.split(/\s+/)`: the pieces between maximal runs of white space.
Leading or trailing white space yields an empty first or last piece, and the
empty string yields the single empty piece. -/
def splitWhitespace (s : String) : List String := splitAux [] false s.data

/-! ## The keyword table of `parseMetaphor` -/

/-- The object literal `keywords` of `parseMetaphor`: 44 own properties. -/
def keywords : List (String × JSObject) :=
  [ -- Light and energy
    ("light", [("type", .str "light"), ("intensity", .num 0.8), ("color", .num 0xffffff)]),
    ("sunlight", [("type", .str "light"), ("intensity", .num 1.0), ("color", .num 0xffd700)]),
    ("moonlight", [("type", .str "light"), ("intensity", .num 0.4), ("color", .num 0xc0c0ff)]),
    ("starlight", [("type", .str "light"), ("intensity", .num 0.6), ("color", .num 0xffffff)]),
    ("glow", [("type", .str "glow"), ("intensity", .num 0.6), ("color", .num 0x64b5f6)]),
    ("radiant", [("type", .str "glow"), ("intensity", .num 0.8), ("color", .num 0xffaa00)]),
    ("luminous", [("type", .str "glow"), ("intensity", .num 0.7), ("color", .num 0x00ffff)]),
    ("glowing", [("type", .str "glow"), ("intensity", .num 0.7), ("color", .num 0x00ff88)]),
    -- Nature elements
    ("leaves", [("type", .str "organic"), ("shape", .str "leaf"), ("count", .num 20), ("color", .num 0x32cd32)]),
    ("flowers", [("type", .str "organic"), ("shape", .str "flower"), ("count", .num 15), ("color", .num 0xff69b4)]),
    ("trees", [("type", .str "organic"), ("shape", .str "tree"), ("count", .num 5), ("color", .num 0x8b4513)]),
    ("forest", [("type", .str "organic"), ("shape", .str "tree"), ("count", .num 10), ("color", .num 0x228b22)]),
    ("ocean", [("type", .str "fluid"), ("movement", .str "wave"), ("color", .num 0x006994)]),
    ("water", [("type", .str "fluid"), ("movement", .str "flow"), ("color", .num 0x4169e1)]),
    ("waves", [("type", .str "fluid"), ("movement", .str "wave"), ("color", .num 0x00bfff)]),
    ("clouds", [("type", .str "soft"), ("movement", .str "drift"), ("color", .num 0xf0f8ff)]),
    ("butterfly", [("type", .str "organic"), ("shape", .str "wing"), ("color", .num 0xff6347)]),
    ("wings", [("type", .str "organic"), ("shape", .str "wing"), ("color", .num 0xffa500)]),
    ("mountain", [("type", .str "geometric"), ("shape", .str "peak"), ("color", .num 0x696969)]),
    ("peaks", [("type", .str "geometric"), ("shape", .str "peak"), ("color", .num 0x708090)]),
    -- Abstract concepts
    ("painting", [("type", .str "artistic"), ("effect", .str "brush"), ("color", .num 0xff4500)]),
    ("dancing", [("type", .str "motion"), ("pattern", .str "dance"), ("color", .num 0xff1493)]),
    ("floating", [("type", .str "motion"), ("pattern", .str "float"), ("color", .num 0x87ceeb)]),
    ("flowing", [("type", .str "motion"), ("pattern", .str "flow"), ("color", .num 0x20b2aa)]),
    ("weaving", [("type", .str "artistic"), ("effect", .str "weave"), ("color", .num 0xdaa520)]),
    ("crystalline", [("type", .str "geometric"), ("shape", .str "crystal"), ("color", .num 0x00ffff)]),
    ("crystal", [("type", .str "geometric"), ("shape", .str "crystal"), ("color", .num 0x00ced1)]),
    ("ethereal", [("type", .str "atmospheric"), ("opacity", .num 0.3), ("color", .num 0xe6e6fa)]),
    ("dreaming", [("type", .str "atmospheric"), ("opacity", .num 0.4), ("color", .num 0x9370db)]),
    ("dreams", [("type", .str "atmospheric"), ("opacity", .num 0.4), ("color", .num 0x8a2be2)]),
    -- Colors
    ("golden", [("type", .str "color"), ("value", .num 0xffd700)]),
    ("silver", [("type", .str "color"), ("value", .num 0xc0c0c0)]),
    ("blue", [("type", .str "color"), ("value", .num 0x4169e1)]),
    ("purple", [("type", .str "color"), ("value", .num 0x9370db)]),
    ("green", [("type", .str "color"), ("value", .num 0x32cd32)]),
    ("red", [("type", .str "color"), ("value", .num 0xff0000)]),
    ("orange", [("type", .str "color"), ("value", .num 0xffa500)]),
    ("pink", [("type", .str "color"), ("value", .num 0xffc0cb)]),
    ("white", [("type", .str "color"), ("value", .num 0xffffff)]),
    -- Specific topics
    ("photosynthesis", [("type", .str "organic"), ("shape", .str "leaf"), ("color", .num 0x32cd32)]),
    ("music", [("type", .str "motion"), ("pattern", .str "wave"), ("color", .num 0x9370db)]),
    ("fire", [("type", .str "light"), ("intensity", .num 1.0), ("color", .num 0xff4500)]),
    ("ice", [("type", .str "geometric"), ("shape", .str "crystal"), ("color", .num 0x87ceeb)]),
    ("rainbow", [("type", .str "light"), ("intensity", .num 0.8), ("color", .num 0xff69b4)]) ]

/-- Own-property lookup in the table. -/
def ownKeyword (word : String) : Option JSObject :=
  (keywords.find? (fun p => p.1 == word)).map Prod.snd

/-- Whether `word` is one of the table's own keys. -/
def isKeyword (word : String) : Bool := (ownKeyword word).isSome

/-- The property names every plain object inherits from `Object.prototype`. -/
def objectPrototypeNames : List String :=
  ["constructor", "__proto__", "hasOwnProperty", "isPrototypeOf",
   "propertyIsEnumerable", "toLocaleString", "toString", "valueOf",
   "__defineGetter__", "__defineSetter__", "__lookupGetter__", "__lookupSetter__"]

/-- The expression `keywords[word]` as the parser uses it.  `keywords` is an
object literal, so the read goes through the prototype chain: an own key gives
its attribute object, an inherited name gives a function (or, for `__proto__`,
`Object.prototype` itself), and anything else gives `undefined`.  The result is
`some attrs` when the value is truthy, where `attrs` is what `...keywords[word]`
spreads: the attribute object for an own key and nothing for an inherited
value, which has no own enumerable property. -/
def keywordsGet (word : String) : Option JSObject :=
  match ownKeyword word with
  | some attrs => some attrs
  | none => if objectPrototypeNames.contains word then some [] else none

/-- The fallback element `{ type: 'default', word: 'dream' }`. -/
def defaultElement : Element := [("type", .str "default"), ("word", .str "dream")]

/-- The words of a metaphor: `metaphor.toLowerCase().split(/\s+/)`. -/
def metaphorWords (metaphor : String) : List String :=
  splitWhitespace (toLowerCase metaphor)

/-- The `forEach` loop of `parseMetaphor`: each word with a truthy
`keywords[word]` pushes `{ word, ...keywords[word] }`. -/
def matchedElements (words : List String) : List Element :=
  words.filterMap (fun word =>
    match keywordsGet word with
    | some attrs => some (("word", JSValue.str word) :: attrs)
    | none => none)

/-- The method `DreamVisuals.parseMetaphor`. -/
def parseMetaphor (metaphor : String) : List Element :=
  let elements := matchedElements (metaphorWords metaphor)
  if elements.length > 0 then elements else [defaultElement]

/-! ## Truthiness and the `||` default -/

/-- JavaScript truthiness of a property read: `undefined`, `0` and the empty string
are falsy. -/
def truthy : Option JSValue → Bool
  | none => false
  | some (.str s) => s != ""
  | some (.num q) => q != 0

/-- The expression `v || d` for a numeric default `d`. -/
def orDefault (v : Option JSValue) (d : ℚ) : JSValue :=
  match v with
  | some x => if truthy (some x) then x else .num d
  | none => .num d

/-! ## Scene objects

Vertex buffers of meshes are not part of the model, so the random jitter of
organic shapes and the height field of fluid shapes leave no trace in it; the
random radius and height of `getRandomPosition` are likewise left out and a
mesh records the index that fixes its angle on the ring. -/

/-- Geometry constructors of three.js used by the factory, with their arguments. -/
inductive Geometry where
  | cone (radius height : ℚ) (radialSegments : Nat)
  | plane (width height : ℚ) (widthSegments heightSegments : Nat)
  | sphere (radius : ℚ) (widthSegments heightSegments : Nat)
  | octahedron (radius : ℚ)
  | icosahedron (radius : ℚ) (detail : Nat)
  | torus (radius tube : ℚ) (radialSegments tubularSegments : Nat)
  deriving DecidableEq, Repr

/-- The two material classes the factory instantiates. -/
inductive MaterialKind where
  | phong
  | basic
  deriving DecidableEq, Repr

/-- Material parameters as passed to the three.js constructor. -/
structure Material where
  kind : MaterialKind
  color : JSValue
  transparent : Bool
  opacity : Option ℚ := none
  shininess : Option ℚ := none
  doubleSide : Bool := false
  emissive : Option JSValue := none
  emissiveIntensity : Option ℚ := none
  wireframe : Option Bool := none
  deriving DecidableEq, Repr

/-- A `THREE.PointLight(color, intensity, distance)` child. -/
structure PointLight where
  color : JSValue
  intensity : JSValue
  distance : ℚ
  deriving DecidableEq, Repr

/-- What a factory method returns: a mesh before it is placed in the scene. -/
structure MeshSpec where
  geometry : Geometry
  material : Material
  light : Option PointLight := none
  deriving DecidableEq, Repr

/-- A generated mesh.  `id` is the identity of the JavaScript object, `slot` the
index given to `getRandomPosition`, `element` and `creationTime` the `userData`,
`scale` the uniform scale written by `setScalar`. -/
structure Mesh where
  id : Nat
  geometry : Geometry
  material : Material
  light : Option PointLight
  slot : Nat
  element : Element
  creationTime : Nat
  scale : ℚ
  deriving DecidableEq, Repr

/-- The method `createOrganicShape`. -/
def createOrganicShape (element : Element) : MeshSpec :=
  if element.get "shape" = some (.str "wing") then
    { geometry := .cone 2 4 8,
      material := { kind := .phong, color := orDefault (element.get "color") 0xffa500,
                    transparent := true, opacity := some 0.8, shininess := some 100 } }
  else if element.get "shape" = some (.str "leaf") then
    { geometry := .plane 3 5 1 1,
      material := { kind := .phong, color := orDefault (element.get "color") 0x32cd32,
                    transparent := true, opacity := some 0.7, doubleSide := true } }
  else
    { geometry := .sphere 2.5 16 12,
      material := { kind := .phong, color := orDefault (element.get "color") 0x32cd32,
                    transparent := true, opacity := some 0.8, shininess := some 50 } }

/-- The method `createGeometricShape`. -/
def createGeometricShape (element : Element) : MeshSpec :=
  let geometry : Geometry :=
    if element.get "shape" = some (.str "crystal") then .octahedron 3
    else if element.get "shape" = some (.str "peak") then .cone 2 6 8
    else .icosahedron 2.5 1
  { geometry := geometry,
    material := { kind := .phong, color := orDefault (element.get "color") 0x64b5f6,
                  transparent := true, opacity := some 0.8, shininess := some 100,
                  wireframe := some false } }

/-- The method `createFluidShape`. -/
def createFluidShape (element : Element) : MeshSpec :=
  { geometry := .plane 3 3 10 10,
    material := { kind := .phong, color := orDefault (element.get "color") 0x42a5f5,
                  transparent := true, opacity := some 0.6, doubleSide := true } }

/-- The method `createLightSource`. -/
def createLightSource (element : Element) : MeshSpec :=
  { geometry := .sphere 0.5 16 16,
    material := { kind := .basic, color := orDefault (element.get "color") 0xffffff,
                  transparent := true, opacity := some 0.8 },
    light := some { color := orDefault (element.get "color") 0xffffff,
                    intensity := orDefault (element.get "intensity") 0.5,
                    distance := 20 } }

/-- The method `createGlowingObject`. -/
def createGlowingObject (element : Element) : MeshSpec :=
  { geometry := .icosahedron 1 1,
    material := { kind := .phong, color := orDefault (element.get "color") 0x64b5f6,
                  transparent := true, opacity := some 0.7,
                  emissive := some (orDefault (element.get "color") 0x64b5f6),
                  emissiveIntensity := some 0.2 } }

/-- The method `createDefaultDreamObject`. -/
def createDefaultDreamObject : MeshSpec :=
  { geometry := .torus 4 1.5 16 32,
    material := { kind := .basic, color := .num 0x64b5f6, transparent := false,
                  wireframe := some false } }

/-- The `switch (element.type)` of `createElementVisual`. -/
def meshForElement (element : Element) : MeshSpec :=
  match element.get "type" with
  | some (.str "organic") => createOrganicShape element
  | some (.str "geometric") => createGeometricShape element
  | some (.str "fluid") => createFluidShape element
  | some (.str "light") => createLightSource element
  | some (.str "glow") => createGlowingObject element
  | _ => createDefaultDreamObject

/-! ## The particle field

Buffer entries are floating-point numbers computed from `Math.random()`,
trigonometry and the HSL conversion of three.js.  An entry is recorded by the
statement that last wrote it instead of by its numeric value. -/

/-- One entry of a `Float32Array` of the particle field. -/
inductive Sample where
  /-- The initial content of a freshly allocated typed array. -/
  | zero
  /-- Written by the loop of `createParticleSystem` for particle `i`, component `k`. -/
  | initial (i k : Nat)
  /-- Written by `updateParticleColors`: channel `k` of a jittered copy of `dominant`. -/
  | tinted (dominant : JSValue) (k : Nat)
  /-- Result of the in-place `+=` of the render loop on a previous entry. -/
  | drifted (previous : Sample)
  deriving DecidableEq, Repr

/-- The `THREE.Points` object: its identity and its two buffer attributes. -/
structure Particles where
  id : Nat
  positions : List Sample
  colors : List Sample
  deriving DecidableEq, Repr

/-- The constant `particleCount` of `createParticleSystem`. -/
def particleCount : Nat := 1000

/-- Indexed store `array[i] = v` on a typed array; out-of-range stores are ignored. -/
def store (array : List Sample) (i : Nat) (v : Sample) : List Sample := array.set i v

/-- The buffers filled by the `for` loop of `createParticleSystem`. -/
def initialBuffers : List Sample × List Sample :=
  (List.range particleCount).foldl
    (fun (buffers : List Sample × List Sample) i =>
      let i3 := i * 3
      let positions := store (store (store buffers.1 i3 (.initial i 0))
        (i3 + 1) (.initial i 1)) (i3 + 2) (.initial i 2)
      let colors := store (store (store buffers.2 i3 (.initial i 3))
        (i3 + 1) (.initial i 4)) (i3 + 2) (.initial i 5)
      (positions, colors))
    (List.replicate (particleCount * 3) Sample.zero, List.replicate (particleCount * 3) Sample.zero)

/-- The colour `updateParticleColors` jitters around: the first element's
`color` when it is truthy, the default blue otherwise. -/
def dominantColor (elements : List Element) : JSValue :=
  match elements with
  | e :: _ =>
    match e.get "color" with
    | some c => if truthy (some c) then c else .num 0x64b5f6
    | none => .num 0x64b5f6
  | [] => .num 0x64b5f6

/-- The loop `for (let i = 0; i < colors.length; i += 3)` of `updateParticleColors`. -/
def recolor (dominant : JSValue) (colors : List Sample) : List Sample :=
  (List.range ((colors.length + 2) / 3)).foldl
    (fun colors j =>
      let i := j * 3
      store (store (store colors i (.tinted dominant 0)) (i + 1) (.tinted dominant 1))
        (i + 2) (.tinted dominant 2))
    colors

/-- The particle loop of `animate`: `positions[i + 1] += ...` for `i = 0, 3, 6, ...`. -/
def driftPositions (positions : List Sample) : List Sample :=
  (List.range ((positions.length + 2) / 3)).foldl
    (fun positions j =>
      let i := j * 3
      match positions.get? (i + 1) with
      | some old => store positions (i + 1) (.drifted old)
      | none => positions)
    positions

/-! ## Composer state and event loop -/

/-- Children of the scene graph. -/
inductive SceneNode where
  | ambientLight
  | directionalLight
  | pointLight1
  | pointLight2
  | mesh (id : Nat)
  | points (id : Nat)
  deriving DecidableEq, Repr

/-- A pending `setTimeout` callback of `generateVisualsFromMetaphor`: the arrow
function calling `createElementVisual(element, index)`, due at time `due`. -/
structure Timer where
  due : Nat
  element : Element
  index : Nat
  deriving DecidableEq, Repr

/-- The two closures handed to `requestAnimationFrame`. -/
inductive FrameCallback where
  /-- The closure `render` of `startRenderLoop`. -/
  | render
  /-- The closure `animate` of `animateEntrance` for the mesh `meshId`. -/
  | entrance (meshId : Nat)
  deriving DecidableEq, Repr

/-- A successfully constructed `DreamVisuals` together with the part of the
browser it talks to: the clock, the timer queue, the animation-frame queue and
the heap of meshes it has allocated (`dreamObjects` holds references into it). -/
structure DreamVisuals where
  scene : List SceneNode
  dreamObjects : List Nat
  particles : Option Particles
  currentMetaphor : Option String
  animationId : Option Nat
  testCube : Option SceneNode
  visibilityIndicator : Option SceneNode
  clock : Nat
  timers : List Timer
  frames : List (Nat × FrameCallback)
  nextHandle : Nat
  heap : List Mesh
  /-- Number of `THREE.Points` objects ever constructed by this instance. -/
  particleSystemsCreated : Nat
  /-- Number of calls of `renderer.dispose()`. -/
  rendererDisposals : Nat
  deriving Repr

/-- The browser call `requestAnimationFrame(cb)`: queues `cb` and returns a fresh
non-zero handle. -/
def requestAnimationFrame (cb : FrameCallback) (s : DreamVisuals) : Nat × DreamVisuals :=
  (s.nextHandle, { s with frames := s.frames ++ [(s.nextHandle, cb)], nextHandle := s.nextHandle + 1 })

/-- The browser call `cancelAnimationFrame(id)`. -/
def cancelAnimationFrame (id : Nat) (s : DreamVisuals) : DreamVisuals :=
  { s with frames := s.frames.filter (fun f => f.1 != id) }

/-- The browser call `setTimeout(() => createElementVisual(element, index), delay)`. -/
def setTimeout (element : Element) (index delay : Nat) (s : DreamVisuals) : DreamVisuals :=
  { s with timers := s.timers ++ [{ due := s.clock + delay, element := element, index := index }] }

/-- The state right after the constructor has run to its end at clock time `now`:
four lights in the scene, empty object list, no particle field, and the render
loop started, whose first synchronous `render()` has requested frame 1. -/
def DreamVisuals.construct (now : Nat) : DreamVisuals :=
  { scene := [.ambientLight, .directionalLight, .pointLight1, .pointLight2],
    dreamObjects := [],
    particles := none,
    currentMetaphor := none,
    animationId := some 1,
    testCube := none,
    visibilityIndicator := none,
    clock := now,
    timers := [],
    frames := [(1, .render)],
    nextHandle := 2,
    heap := [],
    particleSystemsCreated := 0,
    rendererDisposals := 0 }

/-- Write `mesh.scale.setScalar(v)` for the mesh with identity `id`. -/
def setScale (id : Nat) (v : ℚ) (s : DreamVisuals) : DreamVisuals :=
  { s with heap := s.heap.map (fun m => if m.id = id then { m with scale := v } else m) }

/-- Read `mesh.scale.x` for the mesh with identity `id`. -/
def scaleOf (id : Nat) (s : DreamVisuals) : ℚ :=
  match s.heap.find? (fun m => m.id == id) with
  | some m => m.scale
  | none => 1

/-- The function `THREE.MathUtils.lerp(x, y, t)`. -/
def lerp (x y t : ℚ) : ℚ := (1 - t) * x + t * y

/-- The closure `animate` of `animateEntrance`: one interpolation step, and a
new frame request while the scale is further than 0.01 from the target. -/
def entranceStep (id : Nat) (s : DreamVisuals) : DreamVisuals :=
  let targetScale : ℚ := 1
  let currentScale := scaleOf id s
  let newScale := lerp currentScale targetScale 0.05
  let s := setScale id newScale s
  if |newScale - targetScale| > 0.01 then (requestAnimationFrame (.entrance id) s).2 else s

/-- The method `animateEntrance`. -/
def animateEntrance (id : Nat) (s : DreamVisuals) : DreamVisuals :=
  let startScale : ℚ := 0.1
  entranceStep id (setScale id startScale s)

/-- The method `createElementVisual`.  Every factory returns an object, so the
guard `if (mesh)` always holds. -/
def createElementVisual (element : Element) (index : Nat) (s : DreamVisuals) : DreamVisuals :=
  let spec := meshForElement element
  let mesh : Mesh :=
    { id := s.heap.length, geometry := spec.geometry, material := spec.material,
      light := spec.light, slot := index, element := element,
      creationTime := s.clock, scale := 1 }
  let s := { s with heap := s.heap ++ [mesh],
                    scene := s.scene ++ [.mesh mesh.id],
                    dreamObjects := s.dreamObjects ++ [mesh.id] }
  animateEntrance mesh.id s

/-- The method `createParticleSystem`. -/
def createParticleSystem (s : DreamVisuals) : DreamVisuals :=
  let points : Particles :=
    { id := s.particleSystemsCreated, positions := initialBuffers.1, colors := initialBuffers.2 }
  { s with particles := some points,
           scene := s.scene ++ [.points points.id],
           particleSystemsCreated := s.particleSystemsCreated + 1 }

/-- The method `updateParticleColors`. -/
def updateParticleColors (elements : List Element) (s : DreamVisuals) : DreamVisuals :=
  match s.particles with
  | none => s
  | some p => { s with particles := some { p with colors := recolor (dominantColor elements) p.colors } }

/-- The method `clearDreamObjects`: every listed object leaves the scene, then
the list is replaced by an empty one. -/
def clearDreamObjects (s : DreamVisuals) : DreamVisuals :=
  { s with scene := s.dreamObjects.foldl (fun scene id => scene.erase (.mesh id)) s.scene,
           dreamObjects := [] }

/-- The method `clearTestObjects`. -/
def clearTestObjects (s : DreamVisuals) : DreamVisuals :=
  let s := match s.testCube with
    | some node => { s with scene := s.scene.erase node, testCube := none }
    | none => s
  match s.visibilityIndicator with
  | some node => { s with scene := s.scene.erase node, visibilityIndicator := none }
  | none => s

/-- The loop `elements.forEach((element, index) => setTimeout(..., index * 500))`. -/
def scheduleCreations (elements : List Element) (s : DreamVisuals) : DreamVisuals :=
  elements.enum.foldl (fun s ie => setTimeout ie.2 ie.1 (ie.1 * 500) s) s

/-- The block `if (!this.particles) { this.createParticleSystem(); }`. -/
def ensureParticleSystem (s : DreamVisuals) : DreamVisuals :=
  if s.particles.isNone then createParticleSystem s else s

/-- The method `generateVisualsFromMetaphor`. -/
def generateVisualsFromMetaphor (metaphor : String) (s : DreamVisuals) : DreamVisuals :=
  let s := clearDreamObjects s
  let s := { s with currentMetaphor := some metaphor }
  let elements := parseMetaphor metaphor
  let s := scheduleCreations elements s
  let s := ensureParticleSystem s
  let s := clearTestObjects s
  updateParticleColors elements s

/-- The method `stopRenderLoop`.  The guard `if (this.animationId)` is a
truthiness test, so a handle `0` would count as absent. -/
def stopRenderLoop (s : DreamVisuals) : DreamVisuals :=
  match s.animationId with
  | some id => if id ≠ 0 then { cancelAnimationFrame id s with animationId := none } else s
  | none => s

/-- The block `if (this.particles) { ... }` of `dispose`: the field leaves the
scene and its geometry and material are released; `this.particles` keeps its
reference. -/
def disposeParticles (s : DreamVisuals) : DreamVisuals :=
  match s.particles with
  | some p => { s with scene := s.scene.erase (.points p.id) }
  | none => s

/-- The method `dispose`. -/
def dispose (s : DreamVisuals) : DreamVisuals :=
  let s := stopRenderLoop s
  let s := clearDreamObjects s
  let s := disposeParticles s
  { s with rendererDisposals := s.rendererDisposals + 1 }

/-- The body of the `forEach` of `animate` for the object `id` at position
`index` of the list: objects of type `glow` or `light` get the pulsing scale
`pulse index`, the value of `1 + Math.sin(time * 2 + index) * 0.1`. -/
def animateObject (pulse : Nat → ℚ) (s : DreamVisuals) (index id : Nat) : DreamVisuals :=
  match s.heap.find? (fun m => m.id == id) with
  | some m =>
    if m.element.get "type" = some (.str "glow") ∨ m.element.get "type" = some (.str "light")
    then setScale id (pulse index) s else s
  | none => s

/-- The method `animate`, restricted to the modelled state: the pulsing scale of
the objects and the vertical drift of every particle. -/
def animate (pulse : Nat → ℚ) (s : DreamVisuals) : DreamVisuals :=
  let s := s.dreamObjects.enum.foldl (fun s io => animateObject pulse s io.1 io.2) s
  match s.particles with
  | some p => { s with particles := some { p with positions := driftPositions p.positions } }
  | none => s

/-- Run one queued animation-frame callback. -/
def runFrameCallback (pulse : Nat → ℚ) (cb : FrameCallback) (s : DreamVisuals) : DreamVisuals :=
  match cb with
  | .render =>
    let r := requestAnimationFrame .render s
    animate pulse { r.2 with animationId := some r.1 }
  | .entrance id => entranceStep id s

/-- One animation frame of the browser: the callbacks queued so far run in
order; requests they make wait for the next frame. -/
def animationFrame (pulse : Nat → ℚ) (s : DreamVisuals) : DreamVisuals :=
  s.frames.foldl (fun s f => runFrameCallback pulse f.2 s) { s with frames := [] }

/-- A timer fires at its due time (or now, if that is later): the callback calls
`createElementVisual(element, index)`. -/
def fireTimer (s : DreamVisuals) (t : Timer) : DreamVisuals :=
  createElementVisual t.element t.index { s with clock := max s.clock t.due }

/-- Let `dt` milliseconds pass: the timers due by then fire in order of due
time (insertion order among equal times).  A creation callback never sets a
timer, so the timers due are known beforehand. -/
def elapse (dt : Nat) (s : DreamVisuals) : DreamVisuals :=
  let target := s.clock + dt
  let due := (s.timers.filter (fun t => t.due ≤ target)).insertionSort (fun a b => a.due ≤ b.due)
  let s := { s with timers := s.timers.filter (fun t => ¬ t.due ≤ target) }
  let s := due.foldl fireTimer s
  { s with clock := target }

/-- Let time pass until no timer is pending. -/
def runTimers (s : DreamVisuals) : DreamVisuals :=
  elapse ((s.timers.map (fun t => t.due - s.clock)).foldl max 0) s

/-- What can happen to a composer. -/
inductive Action where
  /-- A call `generateVisualsFromMetaphor(metaphor)`. -/
  | generate (metaphor : String)
  /-- The passing of `dt` milliseconds, with the timers due firing. -/
  | elapse (dt : Nat)
  /-- An animation frame; `pulse index` is the pulsing scale the render loop
  computes for the object at position `index` in this frame. -/
  | frame (pulse : Nat → ℚ)
  /-- A call `dispose()`. -/
  | dispose

/-- Effect of one action. -/
def step (s : DreamVisuals) : Action → DreamVisuals
  | .generate metaphor => generateVisualsFromMetaphor metaphor s
  | .elapse dt => elapse dt s
  | .frame pulse => animationFrame pulse s
  | .dispose => dispose s

/-- Effect of a sequence of actions, first action first. -/
def run (actions : List Action) (s : DreamVisuals) : DreamVisuals := actions.foldl step s

/-- Whether a sequence of actions contains a call of `generateVisualsFromMetaphor`. -/
def hasGenerate (actions : List Action) : Bool :=
  actions.any (fun a => match a with
    | .generate _ => true
    | _ => false)

/-- Number of particle fields (`THREE.Points`) attached to the scene. -/
def particleFieldsInScene (s : DreamVisuals) : Nat :=
  (s.scene.filter (fun n => match n with
    | .points _ => true
    | _ => false)).length

/-- How many particle fields were ever constructed, and the sizes of the position
and colour buffers of the current one, if any. -/
def particleSummary (s : DreamVisuals) : Nat × Option (Nat × Nat) :=
  (s.particleSystemsCreated, s.particles.map (fun p => (p.positions.length, p.colors.length)))

/-- The step from `s` to `s'` neither constructs a particle field nor resizes a
buffer nor attaches a field to the scene. -/
def ParticlesKept (s s' : DreamVisuals) : Prop :=
  particleSummary s' = particleSummary s ∧ particleFieldsInScene s' ≤ particleFieldsInScene s

/-- Invariant of the composer: a particle field was constructed exactly when the
field `particles` is set, then only once and with buffers of 3000 entries; and
the scene holds no more fields than were constructed. -/
def ParticleInvariant (s : DreamVisuals) : Prop :=
  particleSummary s = (if s.particles.isSome then (1, some (3000, 3000)) else (0, none)) ∧
  particleFieldsInScene s ≤ s.particleSystemsCreated

/-! ## The EEG simulator (`eeg-simulation.js`)

Registered callbacks are opaque functions of the page; they are represented by
their identities and assumed not to call back into the simulator.  A call of
`checkDrowsiness` is taken to run within one reading `now` of `Date.now()`. -/

/-- The fields of an `EEGSimulator`. -/
structure EEGSimulator where
  isActive : Bool
  alphaWave : ℚ
  thetaWave : ℚ
  drowsinessThreshold : ℚ
  drowsinessStartTime : Option Nat
  drowsinessCallbacks : List Nat
  statusCallbacks : List Nat
  baseFrequency : ℚ
  noiseLevel : ℚ
  simulationInterval : Option Nat
  deriving DecidableEq, Repr

/-- The constructor of `EEGSimulator`. -/
def EEGSimulator.construct : EEGSimulator :=
  { isActive := false,
    alphaWave := 0,
    thetaWave := 0,
    drowsinessThreshold := 0.7,
    drowsinessStartTime := none,
    drowsinessCallbacks := [],
    statusCallbacks := [],
    baseFrequency := 0.1,
    noiseLevel := 0.2,
    simulationInterval := none }

/-- The methods through which the simulator talks to its listeners. -/
inductive Effect where
  /-- A call `this.updateStatus(status, message)`. -/
  | updateStatus (status message : String)
  /-- A call `this.onDrowsyDetected()`. -/
  | onDrowsyDetected
  deriving DecidableEq, Repr

/-- One invocation of a registered callback. -/
inductive Call where
  | drowsiness (listener : Nat)
  | status (listener : Nat) (status message : String)
  deriving DecidableEq, Repr

/-- The bodies of `onDrowsyDetected` and `updateStatus`: each registered
callback of the kind is invoked once, in registration order. -/
def deliver (s : EEGSimulator) : Effect → List Call
  | .onDrowsyDetected => s.drowsinessCallbacks.map Call.drowsiness
  | .updateStatus status message => s.statusCallbacks.map (fun l => Call.status l status message)

/-- The method `onDrowsinessDetected(callback)`. -/
def onDrowsinessDetected (callback : Nat) (s : EEGSimulator) : EEGSimulator :=
  { s with drowsinessCallbacks := s.drowsinessCallbacks ++ [callback] }

/-- The method `onStatusChange(callback)`. -/
def onStatusChange (callback : Nat) (s : EEGSimulator) : EEGSimulator :=
  { s with statusCallbacks := s.statusCallbacks ++ [callback] }

/-- Truthiness of `this.drowsinessStartTime`: `null` and the number `0` are falsy. -/
def startTimeSet : Option Nat → Bool
  | none => false
  | some t => t != 0

/-- The method `checkDrowsiness`, with `now` the value of `Date.now()`. -/
def checkDrowsiness (now : Nat) (s : EEGSimulator) : EEGSimulator × List Effect :=
  let combinedSignal := (s.alphaWave + s.thetaWave) / 2
  if combinedSignal > s.drowsinessThreshold then
    if !startTimeSet s.drowsinessStartTime then
      ({ s with drowsinessStartTime := some now }, [.updateStatus "drowsy" "Drowsiness detected"])
    else
      let drowsinessTime : Int := (now : Int) - ((s.drowsinessStartTime.getD 0 : Nat) : Int)
      if drowsinessTime > 30000 then
        ({ s with drowsinessStartTime := some now }, [.onDrowsyDetected])
      else (s, [])
  else
    if startTimeSet s.drowsinessStartTime then
      ({ s with drowsinessStartTime := none },
       [.updateStatus "active" "EEG Active - Monitoring brainwaves"])
    else (s, [])

/-- The method `simulateState`. -/
def simulateState (state : String) (s : EEGSimulator) : EEGSimulator :=
  if state = "alert" then { s with alphaWave := 0.8, thetaWave := 0.2 }
  else if state = "relaxed" then { s with alphaWave := 0.6, thetaWave := 0.4 }
  else if state = "drowsy" then { s with alphaWave := 0.3, thetaWave := 0.9 }
  else if state = "deep_relaxation" then { s with alphaWave := 0.2, thetaWave := 0.8 }
  else s

/-- One tick of the detector: the signals have the values `alpha` and `theta`
when `checkDrowsiness` runs at clock time `now`. -/
structure Tick where
  now : Nat
  alpha : ℚ
  theta : ℚ
  deriving DecidableEq, Repr

/-- The check of one tick. -/
def checkAt (s : EEGSimulator) (t : Tick) : EEGSimulator × List Effect :=
  checkDrowsiness t.now { s with alphaWave := t.alpha, thetaWave := t.theta }

/-- A sequence of ticks; the log pairs each tick's clock time with its effects. -/
def runTicks : EEGSimulator → List Tick → EEGSimulator × List (Nat × List Effect)
  | s, [] => (s, [])
  | s, t :: ts =>
    let r := checkAt s t
    let rest := runTicks r.1 ts
    (rest.1, (t.now, r.2) :: rest.2)

/-- The clock times at which `onDrowsyDetected` was called. -/
def notificationTimes (log : List (Nat × List Effect)) : List Nat :=
  (log.filter (fun e => e.2.contains Effect.onDrowsyDetected)).map Prod.fst

/-- The `count` ticks of a 100 ms interval timer starting at time `start`, with
the signals held at `alpha` and `theta`. -/
def intervalTicks (alpha theta : ℚ) (start : Nat) : Nat → List Tick
  | 0 => []
  | count + 1 => { now := start, alpha := alpha, theta := theta } ::
      intervalTicks alpha theta (start + 100) count

/-! ## Random table picks

`Math.random()` is a parameter `r`, a rational in `[0, 1)`; products and floors
are exact. -/

/-- The expression `arr[Math.floor(r * arr.length)]` inside a template literal:
an index outside the array reads `undefined`, which prints as "undefined". -/
def pick (arr : List String) (r : ℚ) : String :=
  let i : Int := Rat.floor (r * (arr.length : ℚ))
  if 0 ≤ i then arr.getD i.toNat "undefined" else "undefined"

/-! ## The client-side metaphor generator (`metaphor-generator.js`)

The cache is a JavaScript `Map`: its entries in insertion order, keys distinct. -/

/-- The fields of a `MetaphorGenerator`. -/
structure MetaphorGenerator where
  isGenerating : Bool
  cache : List (String × String)
  maxCacheSize : Nat
  deriving DecidableEq, Repr

/-- The constructor of `MetaphorGenerator`. -/
def MetaphorGenerator.construct : MetaphorGenerator :=
  { isGenerating := false, cache := [], maxCacheSize := 50 }

/-- The call `map.has(key)`. -/
def mapHas (map : List (String × String)) (key : String) : Bool :=
  map.any (fun e => e.1 == key)

/-- The call `map.get(key)`; `none` stands for `undefined`. -/
def mapGet (map : List (String × String)) (key : String) : Option String :=
  (map.find? (fun e => e.1 == key)).map Prod.snd

/-- The call `map.delete(key)`. -/
def mapDelete (map : List (String × String)) (key : String) : List (String × String) :=
  map.filter (fun e => e.1 != key)

/-- The call `map.set(key, value)`: an existing key keeps its place and gets
the new value, a new key goes to the end. -/
def mapSet (map : List (String × String)) (key value : String) : List (String × String) :=
  if mapHas map key then map.map (fun e => if e.1 == key then (key, value) else e)
  else map ++ [(key, value)]

/-- The method `addToCache`. -/
def addToCache (topic metaphor : String) (s : MetaphorGenerator) : MetaphorGenerator :=
  let cache :=
    if s.cache.length ≥ s.maxCacheSize then
      match s.cache.head? with
      | some first => mapDelete s.cache first.1
      | none => s.cache
    else s.cache
  { s with cache := mapSet cache topic metaphor }

/-- The method `clearCache`. -/
def clearCache (s : MetaphorGenerator) : MetaphorGenerator := { s with cache := [] }

/-- The method `getCacheSize`. -/
def getCacheSize (s : MetaphorGenerator) : Nat := s.cache.length

/-- The array `dreamElements` of `generateClientSideMetaphor`. -/
def MetaphorGenerator.dreamElements : List String :=
  ["floating through clouds of", "dancing with shadows of", "swimming in oceans of",
   "flying through forests of", "painting with light from", "weaving dreams with threads of",
   "sculpting reality from", "breathing life into whispers of", "walking through gardens of",
   "sailing on rivers of"]

/-- The array `visualElements` of `generateClientSideMetaphor`. -/
def MetaphorGenerator.visualElements : List String :=
  ["golden starlight", "silver moonbeams", "crystalline dewdrops", "ethereal mist",
   "luminous particles", "flowing energy", "shimmering essence", "radiant fragments",
   "glowing embers", "prismatic reflections"]

/-- The array `endings` of `generateClientSideMetaphor`. -/
def MetaphorGenerator.endings : List String :=
  ["where time becomes liquid poetry", "transforming into living symphony",
   "weaving tapestries of consciousness", "painting emotions across the void",
   "where thoughts bloom into reality", "creating bridges between worlds",
   "where silence speaks in colors", "dancing between dream and awakening"]

/-- The three values of `Math.random()` that `generateClientSideMetaphor` draws. -/
structure Draws where
  first : ℚ
  second : ℚ
  third : ℚ
  deriving DecidableEq, Repr

/-- The string built by `generateClientSideMetaphor`. -/
def clientSideMetaphor (topic : String) (r : Draws) : String :=
  let dreamElement := pick MetaphorGenerator.dreamElements r.first
  let visualElement := pick MetaphorGenerator.visualElements r.second
  let ending := pick MetaphorGenerator.endings r.third
  dreamElement ++ " " ++ topic ++ ", where " ++ visualElement ++ " " ++ ending ++ "."

/-- The method `generateClientSideMetaphor`: the string, also put in the cache. -/
def generateClientSideMetaphor (topic : String) (r : Draws) (s : MetaphorGenerator) :
    String × MetaphorGenerator :=
  let metaphor := clientSideMetaphor topic r
  (metaphor, addToCache topic metaphor s)

/-- What the awaited part of `generateMetaphor` can do: `fetch` rejects, the
response is not `ok`, `response.json()` rejects, or the body carries `metaphor`. -/
inductive FetchOutcome where
  | networkFailure
  | httpError (status : Nat)
  | invalidBody
  | success (metaphor : String)
  deriving DecidableEq, Repr

/-- How the synchronous first part of `generateMetaphor` ends. -/
inductive Started where
  /-- The promise rejects with `new Error(message)`. -/
  | rejected (message : String)
  /-- The promise resolves with the cached metaphor. -/
  | cached (metaphor : Option String)
  /-- The request has been sent and the call waits for it. -/
  | pending
  deriving DecidableEq, Repr

/-- The method `generateMetaphor` up to its first `await`. -/
def generateMetaphorStart (topic : String) (s : MetaphorGenerator) : Started × MetaphorGenerator :=
  if s.isGenerating then (.rejected "Already generating a metaphor", s)
  else if mapHas s.cache topic then (.cached (mapGet s.cache topic), s)
  else (.pending, { s with isGenerating := true })

/-- The method `generateMetaphor` from the settling of `fetch` to its end, run
in the state `s` the generator has by then: the `try` body or the `catch`
block, and the `finally` block. -/
def generateMetaphorFinish (topic : String) (outcome : FetchOutcome) (r : Draws)
    (s : MetaphorGenerator) : String × MetaphorGenerator :=
  let result : String × MetaphorGenerator :=
    match outcome with
    | .success metaphor => (metaphor, addToCache topic metaphor s)
    | _ => generateClientSideMetaphor topic r s
  (result.1, { result.2 with isGenerating := false })

/-- A call of `generateMetaphor` with nothing else running while it waits. -/
def generateMetaphor (topic : String) (outcome : FetchOutcome) (r : Draws)
    (s : MetaphorGenerator) : Except String (Option String) × MetaphorGenerator :=
  match generateMetaphorStart topic s with
  | (.rejected message, s) => (.error message, s)
  | (.cached metaphor, s) => (.ok metaphor, s)
  | (.pending, s) =>
    let result := generateMetaphorFinish topic outcome r s
    (.ok (some result.1), result.2)

/-! ## The server (`server.js`)

A provider call is taken by its outcome: it throws, or it returns a value.
Only string topics and metaphors are modelled. -/

/-- Values of the JSON bodies the server sends. -/
inductive JsonValue where
  | undefined
  | null
  | bool (b : Bool)
  | str (s : String)
  | num (q : ℚ)
  deriving DecidableEq, Repr

/-- A plain object of the server: its properties in insertion order. -/
abbrev JsonObject := List (String × JsonValue)

/-- Property assignment in an object literal or a spread: an existing key keeps
its place and gets the new value, a new key goes to the end. -/
def JsonObject.set (o : JsonObject) (key : String) (value : JsonValue) : JsonObject :=
  if o.any (fun p => p.1 == key) then o.map (fun p => if p.1 == key then (key, value) else p)
  else o ++ [(key, value)]

/-- Property read; a missing property reads `undefined`. -/
def JsonObject.get (o : JsonObject) (key : String) : JsonValue :=
  ((o.find? (fun p => p.1 == key)).map Prod.snd).getD .undefined

/-- Truthiness of a JSON value. -/
def JsonValue.truthy : JsonValue → Bool
  | .undefined => false
  | .null => false
  | .bool b => b
  | .str s => s != ""
  | .num q => q != 0

/-- What the handler sends: the status code and the body as `JSON.stringify`
writes it, that is without the properties whose value is `undefined`. -/
structure Response where
  status : Nat
  body : JsonObject
  deriving DecidableEq, Repr

/-- The calls `res.json(body)` and `res.status(code).json(body)`. -/
def respond (status : Nat) (body : JsonObject) : Response :=
  { status := status, body := body.filter (fun p => p.2 != JsonValue.undefined) }

/-- The parsed request body, as far as the handlers read it. -/
structure RequestBody where
  topic : Option String
  metaphor : Option String
  deriving DecidableEq, Repr

/-- Falsiness `!x` of an optional string: absent or empty. -/
def isBlank : Option String → Bool
  | none => true
  | some s => s == ""

/-- The array `dreamElements` of `generateRuleBasedMetaphor`. -/
def Server.dreamElements : List String :=
  ["floating through clouds of", "dancing with shadows of", "swimming in oceans of",
   "flying through forests of", "painting with light from", "weaving dreams with threads of",
   "sculpting reality from", "breathing life into whispers of"]

/-- The array `visualElements` of `generateRuleBasedMetaphor`. -/
def Server.visualElements : List String :=
  ["golden starlight", "silver moonbeams", "crystalline dewdrops", "ethereal mist",
   "luminous particles", "flowing energy", "shimmering essence", "radiant fragments"]

/-- The function `generateRuleBasedMetaphor`, with its two random draws. -/
def generateRuleBasedMetaphor (topic : String) (r1 r2 : ℚ) : String :=
  let dreamElement := pick Server.dreamElements r1
  let visualElement := pick Server.visualElements r2
  dreamElement ++ " " ++ topic ++ ", where " ++ visualElement ++
    " transforms into living poetry of the subconscious mind."

/-- The text providers in the order the handler tries them. -/
inductive TextProvider where
  | huggingFace
  | cohere
  | openAI
  deriving DecidableEq, Repr

/-- One text provider as the handler sees it: whether its API key is set, and
what the awaited call does, throwing an error or returning a string. -/
structure TextService where
  configured : Bool
  outcome : Except String String
  deriving Repr

/-- The environment of a `/metaphor` request. -/
structure TextEnv where
  huggingFace : TextService
  cohere : TextService
  openAI : TextService
  deriving Repr

/-- The running state of the `/metaphor` handler: the variable `metaphor`
(`none` for `null`) and the provider calls made so far. -/
structure TextProgress where
  metaphor : Option String
  calls : List TextProvider
  deriving DecidableEq, Repr

/-- One block `if (KEY && !metaphor) { try { metaphor = await ...; } catch { } }`. -/
def tryTextProvider (name : TextProvider) (service : TextService) (p : TextProgress) :
    TextProgress :=
  if service.configured && isBlank p.metaphor then
    match service.outcome with
    | .ok text => { metaphor := some text, calls := p.calls ++ [name] }
    | .error _ => { p with calls := p.calls ++ [name] }
  else p

/-- The handler of `POST /metaphor`: the response and the provider calls made. -/
def postMetaphor (env : TextEnv) (body : RequestBody) (r1 r2 : ℚ) :
    Response × List TextProvider :=
  if isBlank body.topic then
    (respond 400 [("error", .str "Topic is required")], [])
  else
    let topic := body.topic.getD ""
    let p : TextProgress := { metaphor := none, calls := [] }
    let p := tryTextProvider .huggingFace env.huggingFace p
    let p := tryTextProvider .cohere env.cohere p
    let p := tryTextProvider .openAI env.openAI p
    let metaphor :=
      if isBlank p.metaphor then generateRuleBasedMetaphor topic r1 r2
      else p.metaphor.getD ""
    (respond 200 [("metaphor", .str metaphor), ("topic", .str topic)], p.calls)

/-- The video providers in the order the handler tries them. -/
inductive VideoProvider where
  | runway
  | pika
  | stableVideo
  deriving DecidableEq, Repr

/-- What the remote API of a video provider does: the request fails (the function
throws), or it answers with the two fields the function reads (for Runway
`video_url` and `task_id`, for Pika `result_url` and `id`, for Stable Video the
object URL of the blob and nothing else). -/
abbrev VideoApi := Except String (JsonValue × JsonValue)

/-- The function `generateRunwayVideo`. -/
def generateRunwayVideo (api : VideoApi) : Except String JsonObject :=
  api.map (fun data =>
    [("status", .str "success"), ("videoUrl", data.1), ("taskId", data.2),
     ("provider", .str "runway")])

/-- The function `generatePikaVideo`. -/
def generatePikaVideo (api : VideoApi) : Except String JsonObject :=
  api.map (fun data =>
    [("status", .str "success"), ("videoUrl", data.1), ("taskId", data.2),
     ("provider", .str "pika")])

/-- The function `generateStableVideo`. -/
def generateStableVideo (api : VideoApi) : Except String JsonObject :=
  api.map (fun data =>
    [("status", .str "success"), ("videoUrl", data.1), ("provider", .str "stable-video"),
     ("format", .str "mp4")])

/-- One video provider as the handler sees it. -/
structure VideoService where
  configured : Bool
  api : VideoApi
  deriving Repr

/-- The environment of a `/generate-video` request; Stable Video is switched on
by the Hugging Face key. -/
structure VideoEnv where
  runway : VideoService
  pika : VideoService
  huggingFace : VideoService
  deriving Repr

/-- The running state of the `/generate-video` handler: the variable
`videoResult` (`none` for `null`) and the provider calls made so far. -/
structure VideoProgress where
  videoResult : Option JsonObject
  calls : List VideoProvider
  deriving DecidableEq, Repr

/-- One block `if (KEY && !videoResult) { try { videoResult = await ...; } catch { } }`. -/
def tryVideoProvider (name : VideoProvider) (configured : Bool)
    (result : Except String JsonObject) (p : VideoProgress) : VideoProgress :=
  if configured && p.videoResult.isNone then
    match result with
    | .ok video => { videoResult := some video, calls := p.calls ++ [name] }
    | .error _ => { p with calls := p.calls ++ [name] }
  else p

/-- The prompt `metaphor || <default built from topic>`. -/
def videoPrompt (topic : String) (metaphor : Option String) : String :=
  if isBlank metaphor then
    "Dreamy, ethereal visualization of " ++ topic ++
      ", floating particles, soft lighting, cinematic, 4K"
  else metaphor.getD ""

/-- The object literal `{ ...videoResult, topic, prompt: videoPrompt }`. -/
def videoBody (videoResult : JsonObject) (topic prompt : String) : JsonObject :=
  JsonObject.set
    (JsonObject.set (videoResult.foldl (fun o p => JsonObject.set o p.1 p.2) ([] : JsonObject))
      "topic" (.str topic))
    "prompt" (.str prompt)

/-- The handler of `POST /generate-video`: the response and the provider calls made. -/
def postGenerateVideo (env : VideoEnv) (body : RequestBody) : Response × List VideoProvider :=
  if isBlank body.topic then
    (respond 400 [("error", .str "Topic is required")], [])
  else
    let topic := body.topic.getD ""
    let prompt := videoPrompt topic body.metaphor
    let p : VideoProgress := { videoResult := none, calls := [] }
    let p := tryVideoProvider .runway env.runway.configured (generateRunwayVideo env.runway.api) p
    let p := tryVideoProvider .pika env.pika.configured (generatePikaVideo env.pika.api) p
    let p := tryVideoProvider .stableVideo env.huggingFace.configured
      (generateStableVideo env.huggingFace.api) p
    let videoResult : JsonObject :=
      match p.videoResult with
      | some video => video
      | none =>
        [("status", .str "fallback"),
         ("message", .str "AI video generation not available, using 3D visualization"),
         ("videoUrl", .null), ("prompt", .str prompt)]
    (respond 200 (videoBody videoResult topic prompt), p.calls)

/-! ## Further notions about the composer -/

/-- The geometry classes of three.js the factory uses. -/
inductive GeometryFamily where
  | cone
  | plane
  | sphere
  | octahedron
  | icosahedron
  | torus
  deriving DecidableEq, Repr

/-- The class of a geometry. -/
def Geometry.family : Geometry → GeometryFamily
  | .cone _ _ _ => .cone
  | .plane _ _ _ _ => .plane
  | .sphere _ _ _ => .sphere
  | .octahedron _ => .octahedron
  | .icosahedron _ _ => .icosahedron
  | .torus _ _ _ _ => .torus

/-- The factory table of the specification, read as a function of the pair
(type, shape): organic gives cone for `wing`, plane for `leaf`, sphere
otherwise; geometric gives octahedron for `crystal`, cone for `peak`,
icosahedron otherwise; fluid plane; light sphere; glow icosahedron; any other
type, or none, torus. -/
def tableGeometry (type shape : Option JSValue) : GeometryFamily :=
  if type = some (.str "organic") then
    if shape = some (.str "wing") then .cone
    else if shape = some (.str "leaf") then .plane
    else .sphere
  else if type = some (.str "geometric") then
    if shape = some (.str "crystal") then .octahedron
    else if shape = some (.str "peak") then .cone
    else .icosahedron
  else if type = some (.str "fluid") then .plane
  else if type = some (.str "light") then .sphere
  else if type = some (.str "glow") then .icosahedron
  else .torus

/-- The method `getRandomPosition`, over the real numbers: `r1` and `r2` are its
two draws of `Math.random()`, the result is the vector `(x, y, z)`. -/
noncomputable def getRandomPosition (index : ℕ) (r1 r2 : ℝ) : ℝ × ℝ × ℝ :=
  let angle := ((index : ℝ) / 5) * Real.pi * 2
  let radius := 3 + r1 * 5
  let height := (r2 - 0.5) * 4
  (Real.cos angle * radius, height, Real.sin angle * radius)

/-- The identities of the generated meshes attached to the scene, in order. -/
def sceneMeshes (scene : List SceneNode) : List Nat :=
  scene.filterMap (fun n => match n with
    | .mesh id => some id
    | _ => none)

/-- The operations that add or remove generated objects, with the passing of
time and animation frames between them. -/
inductive Operation where
  /-- A direct call `createElementVisual(element, index)`. -/
  | createElementVisual (element : Element) (index : Nat)
  /-- A direct call `clearDreamObjects()`. -/
  | clearDreamObjects
  /-- A call `generateVisualsFromMetaphor(metaphor)`. -/
  | generateVisualsFromMetaphor (metaphor : String)
  /-- A call `dispose()`. -/
  | dispose
  /-- The passing of `dt` milliseconds, with the timers due firing. -/
  | elapse (dt : Nat)
  /-- An animation frame. -/
  | frame (pulse : Nat → ℚ)

/-- Effect of one operation. -/
def operate (s : DreamVisuals) : Operation → DreamVisuals
  | .createElementVisual element index => createElementVisual element index s
  | .clearDreamObjects => clearDreamObjects s
  | .generateVisualsFromMetaphor metaphor => generateVisualsFromMetaphor metaphor s
  | .dispose => dispose s
  | .elapse dt => elapse dt s
  | .frame pulse => animationFrame pulse s

/-- Effect of a sequence of operations, first operation first. -/
def operateAll (operations : List Operation) (s : DreamVisuals) : DreamVisuals :=
  operations.foldl operate s

/-- The operations leave the scene and the object list as they are. -/
def SceneKept (s s' : DreamVisuals) : Prop :=
  s'.scene = s.scene ∧ s'.dreamObjects = s.dreamObjects ∧ s'.testCube = s.testCube ∧
  s'.visibilityIndicator = s.visibilityIndicator

/-- Invariant of the composer: the generated meshes in the scene are the listed
objects, and no test object is registered. -/
def SceneInvariant (s : DreamVisuals) : Prop :=
  sceneMeshes s.scene = s.dreamObjects ∧ s.testCube = none ∧ s.visibilityIndicator = none

/-- The entrance scale after `n` runs of the closure `animate`, started from 0.1. -/
def entranceScale (n : Nat) : ℚ := (fun scale => lerp scale 1 0.05)^[n] 0.1

/-- The string of a provider that is configured and returns a non-empty string
without throwing; `none` for any other provider. -/
def TextService.usable (service : TextService) : Option String :=
  if service.configured then
    match service.outcome with
    | .ok text => if text ≠ "" then some text else none
    | .error _ => none
  else none

/-- The first provider of the list that is configured and returns a non-empty
string without throwing, with that string: the provider the specification says
wins. -/
def firstUsable : List (TextProvider × TextService) → Option (TextProvider × String)
  | [] => none
  | (name, service) :: rest =>
    match service.usable with
    | some text => some (name, text)
    | none => firstUsable rest

/-- Position of a text provider in the order Hugging Face, Cohere, OpenAI. -/
def TextProvider.rank : TextProvider → Nat
  | .huggingFace => 0
  | .cohere => 1
  | .openAI => 2

/-- The providers of a request in the order of the specification. -/
def TextEnv.services (env : TextEnv) : List (TextProvider × TextService) :=
  [(.huggingFace, env.huggingFace), (.cohere, env.cohere), (.openAI, env.openAI)]

/-- A value `Math.random()` can return: a number in `[0, 1)`. -/
def IsDraw (r : ℚ) : Prop := 0 ≤ r ∧ r < 1

/-- The material of a recipe apart from its colours: class, transparency,
opacity, shininess, sidedness, emissive intensity and wireframe flag. -/
def Material.family (m : Material) :
    MaterialKind × Bool × Option ℚ × Option ℚ × Bool × Option ℚ × Option Bool :=
  (m.kind, m.transparent, m.opacity, m.shininess, m.doubleSide, m.emissiveIntensity, m.wireframe)

/-! ## The EEG simulator: signal generation and lifecycle

`Math.sin` is a parameter `sin`; the values of `Math.random()` are parameters;
sums and products are exact. -/

/-- The method `generateSignals`, with `now` the value of `Date.now()` and `r1`,
`r2` the two values of `Math.random()`, in the order they are drawn. -/
def generateSignals (sin : ℚ → ℚ) (now : Nat) (r1 r2 : ℚ) (s : EEGSimulator) : EEGSimulator :=
  let time : ℚ := (now : ℚ) / 1000
  let alphaBase := sin (time * s.baseFrequency * 10) * 0.5 + 0.5
  let alphaNoise := (r1 - 0.5) * s.noiseLevel
  let alphaWave := max 0 (min 1 (alphaBase + alphaNoise))
  let thetaBase := sin (time * s.baseFrequency * 6) * 0.5 + 0.5
  let thetaNoise := (r2 - 0.5) * s.noiseLevel
  let thetaWave := max 0 (min 1 (thetaBase + thetaNoise))
  let tirednessLevel := sin (time * s.baseFrequency * 0.5) * 0.3 + 0.7
  let thetaWave := thetaWave * tirednessLevel
  let alphaWave := alphaWave * (2 - tirednessLevel)
  { s with alphaWave := max 0 (min 1 alphaWave), thetaWave := max 0 (min 1 thetaWave) }

/-- Truthiness of `this.simulationInterval`: `null` and the number `0` are falsy. -/
def handleSet : Option Nat → Bool
  | none => false
  | some h => h != 0

/-- The method `start`, with `handle` the value `setInterval` returns. -/
def start (handle : Nat) (s : EEGSimulator) : EEGSimulator × List Effect :=
  if s.isActive then (s, [])
  else
    ({ s with isActive := true, simulationInterval := some handle },
     [.updateStatus "active" "EEG Active - Monitoring brainwaves"])

/-- The method `stop`. -/
def stop (s : EEGSimulator) : EEGSimulator × List Effect :=
  if !s.isActive then (s, [])
  else
    ({ s with
        isActive := false,
        drowsinessStartTime := none,
        simulationInterval :=
          if handleSet s.simulationInterval then none else s.simulationInterval },
     [.updateStatus "inactive" "EEG Inactive"])

/-- The callback `start` hands to `setInterval`; both methods read the clock
within the same millisecond `now`. -/
def intervalCallback (sin : ℚ → ℚ) (now : Nat) (r1 r2 : ℚ) (s : EEGSimulator) :
    EEGSimulator × List Effect :=
  checkDrowsiness now (generateSignals sin now r1 r2 s)

/-- What can happen to a simulator in the page. -/
inductive SimulatorEvent where
  /-- A call of `start()`; the user agent hands out the timer handle `n + 1`
  (handles are greater than zero). -/
  | start (n : Nat)
  /-- A call of `stop()`. -/
  | stop
  /-- The interval timer fires at clock time `now`, with the two noise draws. -/
  | tick (now : Nat) (r1 r2 : ℚ)
  /-- A call of `simulateState(state)`. -/
  | simulateState (state : String)
  /-- A call of `onDrowsinessDetected(callback)`. -/
  | onDrowsinessDetected (callback : Nat)
  /-- A call of `onStatusChange(callback)`. -/
  | onStatusChange (callback : Nat)
  deriving DecidableEq, Repr

/-- The state after one event.  The timer fires only while an interval is
scheduled, that is between `setInterval` and `clearInterval`. -/
def occur (sin : ℚ → ℚ) (s : EEGSimulator) : SimulatorEvent → EEGSimulator
  | .start n => (start (n + 1) s).1
  | .stop => (stop s).1
  | .tick now r1 r2 =>
    if s.simulationInterval.isSome then (intervalCallback sin now r1 r2 s).1 else s
  | .simulateState state => simulateState state s
  | .onDrowsinessDetected callback => onDrowsinessDetected callback s
  | .onStatusChange callback => onStatusChange callback s

/-- The state after a sequence of events. -/
def occurAll (sin : ℚ → ℚ) (events : List SimulatorEvent) (s : EEGSimulator) : EEGSimulator :=
  events.foldl (occur sin) s

/-- Both signals lie in `[0, 1]`. -/
def SignalsBounded (s : EEGSimulator) : Prop :=
  (0 ≤ s.alphaWave ∧ s.alphaWave ≤ 1) ∧ (0 ≤ s.thetaWave ∧ s.thetaWave ≤ 1)

/-- What the lifecycle methods maintain: the threshold is 0.7, a scheduled
interval has a non-zero handle, and an inactive simulator has neither an
interval nor an episode. -/
def LifecycleInvariant (s : EEGSimulator) : Prop :=
  s.drowsinessThreshold = 0.7 ∧
  (∀ h, s.simulationInterval = some h → h ≠ 0) ∧
  (s.isActive = false → s.simulationInterval = none ∧ s.drowsinessStartTime = none)

/-- An attribute that, when present, is a number in `[0, 1]`. -/
def unitOrAbsent : Option JSValue → Bool
  | none => true
  | some (.num q) => decide (0 ≤ q ∧ q ≤ 1)
  | some (.str _) => false

/-! ## The metaphor generator: validation, batches and the cache discipline -/

/-- An argument of `validateTopic`: a string, or a value of any other type. -/
inductive TopicArgument where
  | string (s : String)
  | notString
  deriving DecidableEq, Repr

/-- The property `length` of a string: its number of UTF-16 code units. -/
def jsLength (s : String) : Nat :=
  (s.data.map (fun c => if c.toNat ≥ 0x10000 then 2 else 1)).sum

/-- The method `trim` of a string: white space and line terminators are removed
from both ends. -/
def trim (s : String) : String :=
  ⟨((s.data.dropWhile isWhiteSpace).reverse.dropWhile isWhiteSpace).reverse⟩

/-- The call `replace(/[<>]/g, '')`. -/
def removeAngleBrackets (s : String) : String :=
  ⟨s.data.filter (fun c => c != '<' && c != '>')⟩

/-- The method `validateTopic`: it throws an error with a message, or returns a
string. -/
def validateTopic : TopicArgument → Except String String
  | .notString => .error "Topic must be a non-empty string"
  | .string topic =>
    if topic = "" then .error "Topic must be a non-empty string"
    else if jsLength topic > 50 then .error "Topic must be 50 characters or less"
    else .ok (removeAngleBrackets (trim topic))

/-- What the environment does in one iteration of `generateMultiple`: how the
request of `generateMetaphor` ends, the draws of the fallback inside
`generateMetaphor`, and the draws of the fallback in the `catch` block. -/
structure Round where
  outcome : FetchOutcome
  draws : Draws
  catchDraws : Draws
  deriving DecidableEq, Repr

/-- The topic of iteration `i` of `generateMultiple`. -/
def variedTopic (topic : String) (i : Nat) : String :=
  if i = 0 then topic else topic ++ " essence"

/-- One iteration of the loop of `generateMultiple`; a metaphor that is
`undefined` is `none`. -/
def generateMultipleStep (topic : String) (env : Nat → Round)
    (acc : List (Option String) × MetaphorGenerator) (i : Nat) :
    List (Option String) × MetaphorGenerator :=
  match generateMetaphor (variedTopic topic i) (env i).outcome (env i).draws acc.2 with
  | (.ok metaphor, s) => (acc.1 ++ [metaphor], s)
  | (.error _, s) =>
    let fallback := generateClientSideMetaphor topic (env i).catchDraws s
    (acc.1 ++ [some fallback.1], fallback.2)

/-- The method `generateMultiple`, with nothing else running while it waits. -/
def generateMultiple (topic : String) (count : Nat) (env : Nat → Round)
    (s : MetaphorGenerator) : List (Option String) × MetaphorGenerator :=
  (List.range count).foldl (generateMultipleStep topic env) ([], s)

/-- A call that writes the cache. -/
inductive CacheCall where
  | addToCache (topic metaphor : String)
  | clearCache
  | generateMetaphor (topic : String) (outcome : FetchOutcome) (draws : Draws)
  | generateClientSideMetaphor (topic : String) (draws : Draws)
  deriving DecidableEq, Repr

/-- The generator after one call. -/
def applyCall (s : MetaphorGenerator) : CacheCall → MetaphorGenerator
  | .addToCache topic metaphor => addToCache topic metaphor s
  | .clearCache => clearCache s
  | .generateMetaphor topic outcome draws => (generateMetaphor topic outcome draws s).2
  | .generateClientSideMetaphor topic draws => (generateClientSideMetaphor topic draws s).2

/-- The generator after a sequence of calls. -/
def applyCalls (calls : List CacheCall) (s : MetaphorGenerator) : MetaphorGenerator :=
  calls.foldl applyCall s

/-! ### A least-recently-used cache, for comparison

The entries are kept in order of last use, least recent first. -/

/-- A use of `key`: its entry becomes the most recent one. -/
def lruUse (cache : List (String × String)) (key : String) : List (String × String) :=
  match mapGet cache key with
  | some value => mapDelete cache key ++ [(key, value)]
  | none => cache

/-- Insertion into a least-recently-used cache of the given capacity: a new key
evicts the least recently used entry when the cache is full. -/
def lruAdd (capacity : Nat) (cache : List (String × String)) (key value : String) :
    List (String × String) :=
  let kept := mapDelete cache key
  (if kept.length ≥ capacity then kept.tail else kept) ++ [(key, value)]

/-- The cache holding the `n` topics "topic 0", "topic 1", ... in this order of
insertion, each with the metaphor "metaphor". -/
def filledCache (n : Nat) : List (String × String) :=
  (List.range n).map (fun i => ("topic " ++ toString i, "metaphor"))

/-! ## The video request of the page (`app.js`) -/

/-- The `catch` block of the `/generate-video` handler: what it sends when the
handler itself fails. -/
def videoHandlerFailure : Response :=
  respond 500
    [("error", .str "Video generation failed"), ("fallback", .bool true),
     ("message", .str "Using 3D visualization instead")]

/-- How `generateDreamVideo` ends once the body `data` has been parsed. -/
inductive VideoDisplay where
  /-- The call `this.displayVideo(data.videoUrl)`. -/
  | displayVideo (videoUrl : JsonValue)
  /-- The error thrown with `data.error || 'Failed to generate video'`, which
  the `catch` block reports. -/
  | failed (message : JsonValue)
  deriving DecidableEq, Repr

/-- The branch `if (data.success && data.videoUrl) ... else throw ...` of
`generateDreamVideo`. -/
def generateDreamVideoBranch (data : JsonObject) : VideoDisplay :=
  if (data.get "success").truthy && (data.get "videoUrl").truthy then
    .displayVideo (data.get "videoUrl")
  else
    .failed (if (data.get "error").truthy then data.get "error"
      else .str "Failed to generate video")

/-- The property names of an object. -/
def JsonObject.keys (o : JsonObject) : List String := o.map Prod.fst

/-! Theorems. -/

/-! ## Parser: helper facts -/

theorem toNat_ofNat_add32 (n : Nat) (h1 : 65 ≤ n) (h2 : n ≤ 90) :
    (Char.ofNat (n + 32)).toNat = n + 32 := by
  interval_cases n <;> rfl

theorem lowerChar_idem (c : Char) : lowerChar (lowerChar c) = lowerChar c := by
  unfold lowerChar
  by_cases h : 65 ≤ c.toNat ∧ c.toNat ≤ 90
  · have hn := toNat_ofNat_add32 c.toNat h.1 h.2
    simp only [h, and_self, if_true, hn]
    have h3 : ¬ (65 ≤ c.toNat + 32 ∧ c.toNat + 32 ≤ 90) := by omega
    have h4 : ¬ (c.toNat + 32 = 0x212A) := by omega
    simp only [h3, h4, if_false]
  · by_cases hk : c.toNat = 0x212A
    · simp only [h, hk, if_false, if_true]
      decide
    · simp only [h, hk, if_false]

theorem toLowerCase_idem (s : String) : toLowerCase (toLowerCase s) = toLowerCase s := by
  simp [toLowerCase, List.map_map, Function.comp_def, lowerChar_idem]

theorem keywords_length : keywords.length = 44 := by decide

theorem parseMetaphor_ne_nil (metaphor : String) : parseMetaphor metaphor ≠ [] := by
  unfold parseMetaphor
  simp only
  split
  · intro h
    rename_i hlen
    rw [h] at hlen
    simp at hlen
  · simp

theorem matchedElements_eq_nil (words : List String)
    (h : ∀ w ∈ words, keywordsGet w = none) : matchedElements words = [] := by
  unfold matchedElements
  rw [List.filterMap_eq_nil_iff]
  intro w hw
  simp [h w hw]

/-- When `keywords[word]` is falsy for every word of the metaphor, the parser
returns the single default element. -/
theorem parseMetaphor_eq_default (metaphor : String)
    (h : ∀ w ∈ metaphorWords metaphor, keywordsGet w = none) :
    parseMetaphor metaphor = [defaultElement] := by
  unfold parseMetaphor
  simp [matchedElements_eq_nil _ h]

theorem keywordsGet_of_not_inherited (w : String)
    (h : objectPrototypeNames.contains w = false) : keywordsGet w = ownKeyword w := by
  unfold keywordsGet
  cases hk : ownKeyword w
  · simp only [h, Bool.false_eq_true, if_false]
  · rfl

/-- On words none of which names an inherited property, the loop yields one
element per occurrence of a table key, in order, each made of the word and the
key's attributes. -/
theorem matchedElements_of_not_inherited (words : List String)
    (h : ∀ w ∈ words, objectPrototypeNames.contains w = false) :
    matchedElements words =
      (words.filter isKeyword).map
        (fun w => ("word", JSValue.str w) :: (ownKeyword w).getD []) := by
  induction words with
  | nil => rfl
  | cons w ws ih =>
    have hw := keywordsGet_of_not_inherited w (h w (List.mem_cons_self _ _))
    have ih' := ih (fun x hx => h x (List.mem_cons_of_mem _ hx))
    unfold matchedElements at ih' ⊢
    rw [List.filterMap_cons, hw]
    cases hk : ownKeyword w with
    | none => simp [isKeyword, hk, ih']
    | some attrs => simp [isKeyword, hk, ih']

/-- Every element the loop yields is a word of the input with a truthy lookup. -/
theorem mem_matchedElements (words : List String) (e : Element)
    (he : e ∈ matchedElements words) :
    ∃ w attrs, w ∈ words ∧ keywordsGet w = some attrs ∧ e = ("word", JSValue.str w) :: attrs := by
  unfold matchedElements at he
  rw [List.mem_filterMap] at he
  obtain ⟨w, hw, hres⟩ := he
  cases hk : keywordsGet w with
  | none => simp [hk] at hres
  | some attrs =>
    simp [hk] at hres
    exact ⟨w, attrs, hw, hk, hres.symm⟩

/-- Of the inherited property names only `constructor` and `__proto__` are
unchanged by lower-casing, so only they can be met as a word of a metaphor. -/
theorem inherited_lowercase_names :
    objectPrototypeNames.filter (fun n => toLowerCase n == n) = ["constructor", "__proto__"] := by
  decide

/-! ## Parser: claims C1 to C5 -/

/-- Claim C1, evaluated on the code.  The parser never returns the empty list.
But for the input "the constructor", none of whose words is a key of the
keyword table, the result is not the default element: the read
`keywords["constructor"]` finds the inherited `Object.prototype.constructor`,
which is truthy, and the loop pushes the attribute-less element
`{ word: 'constructor' }`. -/
theorem parseMetaphor_nonempty_inherited_not_default :
    (∀ metaphor : String, parseMetaphor metaphor ≠ []) ∧
    (∀ w ∈ metaphorWords "the constructor", isKeyword w = false) ∧
    parseMetaphor "the constructor" = [[("word", JSValue.str "constructor")]] ∧
    parseMetaphor "the constructor" ≠ [defaultElement] := by
  refine ⟨parseMetaphor_ne_nil, ?_, ?_, ?_⟩ <;> decide

/-- Claim C2, evaluated on the code.  The input "fire constructor" has exactly
one keyword token, `fire`, yet the parser returns two elements, with words
`fire` and `constructor`: the second comes from the inherited property of the
table object and carries no attribute.  On "fire fire" the parser does return
two elements of type `light`. -/
theorem parseMetaphor_words_include_inherited :
    (metaphorWords "fire constructor").filter isKeyword = ["fire"] ∧
    (parseMetaphor "fire constructor").map (fun e => e.get "word") =
      [some (JSValue.str "fire"), some (JSValue.str "constructor")] ∧
    (parseMetaphor "fire constructor").map (fun e => e.get "type") =
      [some (JSValue.str "light"), none] ∧
    (parseMetaphor "fire fire").map (fun e => e.get "type") =
      [some (JSValue.str "light"), some (JSValue.str "light")] := by
  refine ⟨?_, ?_, ?_, ?_⟩ <;> decide

/-- Claim C3.  Parsing is case-insensitive: a metaphor and its lower-cased form
parse to the same element list; in particular "Ocean WAVES" and "ocean waves"
do. -/
theorem parseMetaphor_case_insensitive :
    (∀ metaphor : String, parseMetaphor metaphor = parseMetaphor (toLowerCase metaphor)) ∧
    parseMetaphor "Ocean WAVES" = parseMetaphor "ocean waves" := by
  have h : ∀ metaphor : String,
      parseMetaphor metaphor = parseMetaphor (toLowerCase metaphor) := by
    intro metaphor
    unfold parseMetaphor metaphorWords
    rw [toLowerCase_idem]
  refine ⟨h, ?_⟩
  have h2 : toLowerCase "Ocean WAVES" = "ocean waves" := by decide
  rw [h "Ocean WAVES", h2]

/-- Claim C4, evaluated on the code.  Tokens with punctuation or inflection and
the token `tostring` produce no element, but the token `constructor`, which is
not one of the 44 keys, does produce one: `parseMetaphor("constructor")` is
`[{ word: 'constructor' }]`, an element that is not the default fallback and
whose word is not a key of the table. -/
theorem parseMetaphor_constructor_element :
    keywords.length = 44 ∧
    parseMetaphor "ocean, oceans tostring" = [defaultElement] ∧
    isKeyword "constructor" = false ∧
    parseMetaphor "constructor" = [[("word", JSValue.str "constructor")]] ∧
    [("word", JSValue.str "constructor")] ≠ defaultElement := by
  refine ⟨?_, ?_, ?_, ?_, ?_⟩ <;> decide

/-- Claim C5.  The metaphor "ocean" parses to exactly one element, with exactly
the properties `word: 'ocean'`, `type: 'fluid'`, `movement: 'wave'` and
`color: 0x006994`. -/
theorem parseMetaphor_ocean :
    parseMetaphor "ocean" =
      [[("word", JSValue.str "ocean"), ("type", JSValue.str "fluid"),
        ("movement", JSValue.str "wave"), ("color", JSValue.num 0x006994)]] := by
  decide

/-! ## Composer: helper facts -/

theorem foldl_invariant {α β : Type} (P : β → Prop) (f : β → α → β)
    (h : ∀ b a, P b → P (f b a)) (l : List α) (b : β) (hb : P b) : P (l.foldl f b) := by
  induction l generalizing b with
  | nil => exact hb
  | cons a l ih => exact ih (f b a) (h b a hb)

theorem entranceStep_fields (id : Nat) (s : DreamVisuals) :
    (entranceStep id s).dreamObjects = s.dreamObjects ∧
    (entranceStep id s).timers = s.timers ∧
    (entranceStep id s).clock = s.clock ∧
    (entranceStep id s).scene = s.scene ∧
    (entranceStep id s).particles = s.particles ∧
    (entranceStep id s).particleSystemsCreated = s.particleSystemsCreated ∧
    (entranceStep id s).heap.length = s.heap.length := by
  unfold entranceStep
  simp only
  split <;> simp [requestAnimationFrame, setScale]

theorem createElementVisual_fields (element : Element) (index : Nat) (s : DreamVisuals) :
    (createElementVisual element index s).dreamObjects = s.dreamObjects ++ [s.heap.length] ∧
    (createElementVisual element index s).timers = s.timers ∧
    (createElementVisual element index s).clock = s.clock ∧
    (createElementVisual element index s).scene = s.scene ++ [SceneNode.mesh s.heap.length] ∧
    (createElementVisual element index s).particles = s.particles ∧
    (createElementVisual element index s).particleSystemsCreated = s.particleSystemsCreated ∧
    (createElementVisual element index s).heap.length = s.heap.length + 1 := by
  unfold createElementVisual animateEntrance
  simp only
  refine ⟨?_, ?_, ?_, ?_, ?_, ?_, ?_⟩
  · rw [(entranceStep_fields _ _).1]; simp [setScale]
  · rw [(entranceStep_fields _ _).2.1]; simp [setScale]
  · rw [(entranceStep_fields _ _).2.2.1]; simp [setScale]
  · rw [(entranceStep_fields _ _).2.2.2.1]; simp [setScale]
  · rw [(entranceStep_fields _ _).2.2.2.2.1]; simp [setScale]
  · rw [(entranceStep_fields _ _).2.2.2.2.2.1]; simp [setScale]
  · rw [(entranceStep_fields _ _).2.2.2.2.2.2]; simp [setScale]

theorem scheduleLoop_fields (l : List (Nat × Element)) (s : DreamVisuals) :
    (l.foldl (fun s ie => setTimeout ie.2 ie.1 (ie.1 * 500) s) s).timers =
      s.timers ++ l.map (fun ie =>
        ({ due := s.clock + ie.1 * 500, element := ie.2, index := ie.1 } : Timer)) ∧
    (l.foldl (fun s ie => setTimeout ie.2 ie.1 (ie.1 * 500) s) s).dreamObjects = s.dreamObjects ∧
    (l.foldl (fun s ie => setTimeout ie.2 ie.1 (ie.1 * 500) s) s).clock = s.clock ∧
    (l.foldl (fun s ie => setTimeout ie.2 ie.1 (ie.1 * 500) s) s).scene = s.scene ∧
    (l.foldl (fun s ie => setTimeout ie.2 ie.1 (ie.1 * 500) s) s).particles = s.particles ∧
    (l.foldl (fun s ie => setTimeout ie.2 ie.1 (ie.1 * 500) s) s).particleSystemsCreated =
      s.particleSystemsCreated ∧
    (l.foldl (fun s ie => setTimeout ie.2 ie.1 (ie.1 * 500) s) s).testCube = s.testCube ∧
    (l.foldl (fun s ie => setTimeout ie.2 ie.1 (ie.1 * 500) s) s).visibilityIndicator =
      s.visibilityIndicator := by
  induction l generalizing s with
  | nil => simp
  | cons a l ih =>
    simp only [List.foldl_cons, List.map_cons]
    obtain ⟨h1, h2, h3, h4, h5, h6, h7, h8⟩ := ih (setTimeout a.2 a.1 (a.1 * 500) s)
    refine ⟨?_, ?_, ?_, ?_, ?_, ?_, ?_, ?_⟩
    · rw [h1]; simp [setTimeout]
    · rw [h2]; rfl
    · rw [h3]; rfl
    · rw [h4]; rfl
    · rw [h5]; rfl
    · rw [h6]; rfl
    · rw [h7]; rfl
    · rw [h8]; rfl

theorem clearTestObjects_fields (s : DreamVisuals) :
    (clearTestObjects s).timers = s.timers ∧
    (clearTestObjects s).dreamObjects = s.dreamObjects ∧
    (clearTestObjects s).clock = s.clock ∧
    (clearTestObjects s).particles = s.particles ∧
    (clearTestObjects s).particleSystemsCreated = s.particleSystemsCreated := by
  unfold clearTestObjects
  cases h1 : s.testCube <;> cases h2 : s.visibilityIndicator <;> simp [h1, h2]

theorem updateParticleColors_fields (elements : List Element) (s : DreamVisuals) :
    (updateParticleColors elements s).timers = s.timers ∧
    (updateParticleColors elements s).dreamObjects = s.dreamObjects ∧
    (updateParticleColors elements s).clock = s.clock ∧
    (updateParticleColors elements s).scene = s.scene ∧
    (updateParticleColors elements s).particleSystemsCreated = s.particleSystemsCreated := by
  unfold updateParticleColors
  cases h : s.particles <;> simp

/-- What a call of `generateVisualsFromMetaphor` does to the object list, the
timer queue and the clock. -/
theorem generateVisualsFromMetaphor_fields (metaphor : String) (s : DreamVisuals) :
    (generateVisualsFromMetaphor metaphor s).dreamObjects = [] ∧
    (generateVisualsFromMetaphor metaphor s).timers =
      s.timers ++ (parseMetaphor metaphor).enum.map (fun ie =>
        ({ due := s.clock + ie.1 * 500, element := ie.2, index := ie.1 } : Timer)) ∧
    (generateVisualsFromMetaphor metaphor s).clock = s.clock := by
  unfold generateVisualsFromMetaphor
  simp only
  have hloop := scheduleLoop_fields (parseMetaphor metaphor).enum
    { clearDreamObjects s with currentMetaphor := some metaphor }
  obtain ⟨h1, h2, h3, -⟩ := hloop
  refine ⟨?_, ?_, ?_⟩
  · rw [(updateParticleColors_fields _ _).2.1, (clearTestObjects_fields _).2.1]
    unfold ensureParticleSystem scheduleCreations
    split
    · simp only [createParticleSystem]; rw [h2]; rfl
    · rw [h2]; rfl
  · rw [(updateParticleColors_fields _ _).1, (clearTestObjects_fields _).1]
    unfold ensureParticleSystem scheduleCreations
    split
    · simp only [createParticleSystem]; rw [h1]; rfl
    · rw [h1]; rfl
  · rw [(updateParticleColors_fields _ _).2.2.1, (clearTestObjects_fields _).2.2.1]
    unfold ensureParticleSystem scheduleCreations
    split
    · simp only [createParticleSystem]; rw [h3]; rfl
    · rw [h3]; rfl

theorem fireLoop_fields (l : List Timer) (s : DreamVisuals) :
    (l.foldl fireTimer s).dreamObjects.length = s.dreamObjects.length + l.length ∧
    (l.foldl fireTimer s).timers = s.timers := by
  induction l generalizing s with
  | nil => simp
  | cons t l ih =>
    simp only [List.foldl_cons, List.length_cons]
    obtain ⟨h1, h2⟩ := ih (fireTimer s t)
    refine ⟨?_, ?_⟩
    · rw [h1]; unfold fireTimer; rw [(createElementVisual_fields _ _ _).1]; simp; omega
    · rw [h2]; unfold fireTimer; rw [(createElementVisual_fields _ _ _).2.1]

/-- What letting `dt` milliseconds pass does to the object list, the timer queue
and the clock: every timer due by then has added one object. -/
theorem elapse_fields (dt : Nat) (s : DreamVisuals) :
    (elapse dt s).dreamObjects.length =
      s.dreamObjects.length + (s.timers.filter (fun t => t.due ≤ s.clock + dt)).length ∧
    (elapse dt s).timers = s.timers.filter (fun t => ¬ t.due ≤ s.clock + dt) ∧
    (elapse dt s).clock = s.clock + dt := by
  unfold elapse
  refine ⟨?_, ?_, ?_⟩
  · simp only
    rw [(fireLoop_fields _ _).1, List.length_insertionSort]
  · simp only
    rw [(fireLoop_fields _ _).2]
  · rfl

theorem le_foldl_max (l : List Nat) (a : Nat) :
    a ≤ l.foldl max a ∧ ∀ x ∈ l, x ≤ l.foldl max a := by
  induction l generalizing a with
  | nil => simp
  | cons b l ih =>
    simp only [List.foldl_cons, List.mem_cons]
    obtain ⟨h1, h2⟩ := ih (max a b)
    refine ⟨le_trans (le_max_left a b) h1, ?_⟩
    intro x hx
    rcases hx with rfl | hx
    · exact le_trans (le_max_right a x) h1
    · exact h2 x hx

/-- Once all pending timers have fired, each has added one object and none is left. -/
theorem runTimers_fields (s : DreamVisuals) :
    (runTimers s).dreamObjects.length = s.dreamObjects.length + s.timers.length ∧
    (runTimers s).timers = [] := by
  unfold runTimers
  have hall : ∀ t ∈ s.timers,
      t.due ≤ s.clock + (s.timers.map (fun t => t.due - s.clock)).foldl max 0 := by
    intro t ht
    have := (le_foldl_max (s.timers.map (fun t => t.due - s.clock)) 0).2 (t.due - s.clock)
      (List.mem_map_of_mem _ ht)
    omega
  obtain ⟨h1, h2, -⟩ := elapse_fields ((s.timers.map (fun t => t.due - s.clock)).foldl max 0) s
  refine ⟨?_, ?_⟩
  · rw [h1]
    congr 2
    rw [List.filter_eq_self]
    intro t ht
    simpa using hall t ht
  · rw [h2, List.filter_eq_nil_iff]
    intro t ht
    simpa using hall t ht

/-- Object count after two generations `delay` ms apart, once every timer has
fired: the elements of the second metaphor plus those elements of the first
whose creation had not yet fired when the second call cleared the list. -/
theorem regenerate_object_count (now delay : Nat) (first second : String) :
    (runTimers (generateVisualsFromMetaphor second
      (elapse delay (generateVisualsFromMetaphor first (DreamVisuals.construct now))))
      ).dreamObjects.length =
      (parseMetaphor second).length +
        ((parseMetaphor first).enum.filter (fun ie => decide (delay < ie.1 * 500))).length := by
  obtain ⟨-, ht1, hc1⟩ := generateVisualsFromMetaphor_fields first (DreamVisuals.construct now)
  obtain ⟨-, ht2, hc2⟩ :=
    elapse_fields delay (generateVisualsFromMetaphor first (DreamVisuals.construct now))
  obtain ⟨hd3, ht3, -⟩ := generateVisualsFromMetaphor_fields second
    (elapse delay (generateVisualsFromMetaphor first (DreamVisuals.construct now)))
  have hfirst : ((([] : List Timer) ++ (parseMetaphor first).enum.map (fun ie =>
        ({ due := now + ie.1 * 500, element := ie.2, index := ie.1 } : Timer))).filter
        (fun t => ¬ t.due ≤ now + delay)).length =
      ((parseMetaphor first).enum.filter (fun ie => decide (delay < ie.1 * 500))).length := by
    rw [List.nil_append, List.filter_map, List.length_map]
    congr 1
    apply List.filter_congr
    intro ie _
    by_cases h : delay < ie.1 * 500
    · have h2 : ¬ (now + ie.1 * 500 ≤ now + delay) := by omega
      simp [h, h2]
    · have h2 : now + ie.1 * 500 ≤ now + delay := by omega
      simp [h, h2]
  rw [(runTimers_fields _).1, hd3, ht3, ht2, ht1, hc1]
  simp only [DreamVisuals.construct] at hfirst ⊢
  rw [List.length_append, hfirst, List.length_map, List.enum_length]
  simp only [List.length_nil]
  omega

/-- Claim C6, evaluated on the code.  The metaphor "ocean waves" (two elements)
is generated twice, the second call 100 ms after the first.  When the second
call clears the list, the first call's timer for `waves` (due after 500 ms) is
still pending; it is never cancelled, fires later and adds its object to the
new generation.  After all timers have fired the list holds three objects, not
the two elements of the second metaphor.  The same happens for "fire" after
"ocean waves": two objects for one element. -/
theorem regenerate_keeps_pending_creations :
    (parseMetaphor "ocean waves").length = 2 ∧
    (runTimers (generateVisualsFromMetaphor "ocean waves"
      (elapse 100 (generateVisualsFromMetaphor "ocean waves" (DreamVisuals.construct 1000))))
      ).dreamObjects.length = 3 ∧
    (parseMetaphor "fire").length = 1 ∧
    (runTimers (generateVisualsFromMetaphor "fire"
      (elapse 100 (generateVisualsFromMetaphor "ocean waves" (DreamVisuals.construct 1000))))
      ).dreamObjects.length = 2 := by
  refine ⟨?_, ?_, ?_, ?_⟩ <;> decide!

/-! ## Composer: the particle field -/

theorem store_length (array : List Sample) (i : Nat) (v : Sample) :
    (store array i v).length = array.length := by
  simp [store]

theorem initialBuffers_length :
    initialBuffers.1.length = 3000 ∧ initialBuffers.2.length = 3000 := by
  unfold initialBuffers
  apply foldl_invariant (fun b : List Sample × List Sample => b.1.length = 3000 ∧ b.2.length = 3000)
  · intro b i hb
    simp only [store_length]
    exact hb
  · exact ⟨by rw [List.length_replicate]; rfl, by rw [List.length_replicate]; rfl⟩

theorem recolor_length (dominant : JSValue) (colors : List Sample) :
    (recolor dominant colors).length = colors.length := by
  unfold recolor
  apply foldl_invariant (fun c : List Sample => c.length = colors.length)
  · intro b j hb
    simp only [store_length]
    exact hb
  · rfl

theorem driftPositions_length (positions : List Sample) :
    (driftPositions positions).length = positions.length := by
  unfold driftPositions
  apply foldl_invariant (fun c : List Sample => c.length = positions.length)
  · intro b j hb
    simp only
    split
    · simp only [store_length]; exact hb
    · exact hb
  · rfl

theorem ParticlesKept.refl (s : DreamVisuals) : ParticlesKept s s := ⟨rfl, le_refl _⟩

theorem ParticlesKept.trans {a b c : DreamVisuals} (h1 : ParticlesKept a b)
    (h2 : ParticlesKept b c) : ParticlesKept a c :=
  ⟨h2.1.trans h1.1, le_trans h2.2 h1.2⟩

theorem ParticlesKept.of_eq {s s' : DreamVisuals} (h1 : s'.scene = s.scene)
    (h2 : s'.particles = s.particles)
    (h3 : s'.particleSystemsCreated = s.particleSystemsCreated) : ParticlesKept s s' := by
  unfold ParticlesKept particleSummary particleFieldsInScene
  rw [h1, h2, h3]
  exact ⟨rfl, le_refl _⟩

theorem particleFields_erase_le (scene : List SceneNode) (node : SceneNode)
    (p : SceneNode → Bool) :
    ((scene.erase node).filter p).length ≤ (scene.filter p).length :=
  ((List.erase_sublist node scene).filter p).length_le

theorem ParticlesKept.of_erase (s : DreamVisuals) (node : SceneNode) (s' : DreamVisuals)
    (h1 : s'.scene = s.scene.erase node) (h2 : s'.particles = s.particles)
    (h3 : s'.particleSystemsCreated = s.particleSystemsCreated) : ParticlesKept s s' := by
  unfold ParticlesKept particleSummary particleFieldsInScene
  rw [h1, h2, h3]
  exact ⟨rfl, particleFields_erase_le _ _ _⟩

theorem createElementVisual_kept (element : Element) (index : Nat) (s : DreamVisuals) :
    ParticlesKept s (createElementVisual element index s) := by
  obtain ⟨-, -, -, h4, h5, h6, -⟩ := createElementVisual_fields element index s
  unfold ParticlesKept particleSummary particleFieldsInScene
  rw [h4, h5, h6]
  simp

theorem clearDreamObjects_kept (s : DreamVisuals) : ParticlesKept s (clearDreamObjects s) := by
  unfold clearDreamObjects
  have h : ∀ (l : List Nat) (scene : List SceneNode) (p : SceneNode → Bool),
      ((l.foldl (fun scene id => scene.erase (SceneNode.mesh id)) scene).filter p).length ≤
        (scene.filter p).length := by
    intro l
    induction l with
    | nil => intro scene p; simp
    | cons a l ih =>
      intro scene p
      simp only [List.foldl_cons]
      exact le_trans (ih _ p) (particleFields_erase_le _ _ _)
  exact ⟨rfl, h _ _ _⟩

theorem clearTestObjects_kept (s : DreamVisuals) : ParticlesKept s (clearTestObjects s) := by
  unfold clearTestObjects
  cases h1 : s.testCube with
  | none =>
    cases h2 : s.visibilityIndicator with
    | none => simp only [h2]; exact ParticlesKept.refl s
    | some n => simp only [h2]; exact ParticlesKept.of_erase s n _ rfl rfl rfl
  | some m =>
    simp only
    cases h2 : s.visibilityIndicator with
    | none =>
      simp only [h2]
      exact ParticlesKept.of_erase s m _ rfl rfl rfl
    | some n =>
      simp only [h2]
      exact ParticlesKept.trans
        (ParticlesKept.of_erase s m { s with scene := s.scene.erase m, testCube := none }
          rfl rfl rfl)
        (ParticlesKept.of_erase _ n _ rfl rfl rfl)

theorem updateParticleColors_kept (elements : List Element) (s : DreamVisuals) :
    ParticlesKept s (updateParticleColors elements s) := by
  unfold updateParticleColors
  cases h : s.particles with
  | none => simp only; exact ParticlesKept.refl s
  | some p =>
    simp only
    unfold ParticlesKept particleSummary particleFieldsInScene
    simp [h, recolor_length]

theorem scheduleCreations_kept (elements : List Element) (s : DreamVisuals) :
    ParticlesKept s (scheduleCreations elements s) := by
  obtain ⟨-, -, -, h4, h5, h6, -⟩ := scheduleLoop_fields elements.enum s
  exact ParticlesKept.of_eq h4 h5 h6

theorem ParticlesKept.congr_left {s s' t : DreamVisuals} (h1 : s'.scene = s.scene)
    (h2 : s'.particles = s.particles)
    (h3 : s'.particleSystemsCreated = s.particleSystemsCreated)
    (h : ParticlesKept s' t) : ParticlesKept s t :=
  ParticlesKept.trans (ParticlesKept.of_eq h1 h2 h3) h

theorem ParticlesKept.congr_right {s t t' : DreamVisuals} (h : ParticlesKept s t)
    (h1 : t'.scene = t.scene) (h2 : t'.particles = t.particles)
    (h3 : t'.particleSystemsCreated = t.particleSystemsCreated) : ParticlesKept s t' :=
  ParticlesKept.trans h (ParticlesKept.of_eq h1 h2 h3)

theorem fireTimer_kept (s : DreamVisuals) (t : Timer) : ParticlesKept s (fireTimer s t) := by
  have h := createElementVisual_kept t.element t.index { s with clock := max s.clock t.due }
  exact ParticlesKept.congr_left rfl rfl rfl h

theorem fireLoop_kept (l : List Timer) (s : DreamVisuals) :
    ParticlesKept s (l.foldl fireTimer s) := by
  apply foldl_invariant (fun s' => ParticlesKept s s')
  · intro b t hb
    exact ParticlesKept.trans hb (fireTimer_kept b t)
  · exact ParticlesKept.refl s

theorem elapse_kept (dt : Nat) (s : DreamVisuals) : ParticlesKept s (elapse dt s) := by
  have h := fireLoop_kept
    ((s.timers.filter (fun t => t.due ≤ s.clock + dt)).insertionSort (fun a b => a.due ≤ b.due))
    { s with timers := s.timers.filter (fun t => ¬ t.due ≤ s.clock + dt) }
  exact ParticlesKept.congr_right (ParticlesKept.congr_left rfl rfl rfl h) rfl rfl rfl

theorem entranceStep_kept (id : Nat) (s : DreamVisuals) : ParticlesKept s (entranceStep id s) := by
  obtain ⟨-, -, -, h4, h5, h6, -⟩ := entranceStep_fields id s
  exact ParticlesKept.of_eq h4 h5 h6

theorem animateObject_kept (pulse : Nat → ℚ) (s : DreamVisuals) (index id : Nat) :
    ParticlesKept s (animateObject pulse s index id) := by
  unfold animateObject
  split
  · split
    · exact ParticlesKept.of_eq rfl rfl rfl
    · exact ParticlesKept.refl s
  · exact ParticlesKept.refl s

theorem animate_kept (pulse : Nat → ℚ) (s : DreamVisuals) : ParticlesKept s (animate pulse s) := by
  have hloop : ParticlesKept s
      (s.dreamObjects.enum.foldl (fun s io => animateObject pulse s io.1 io.2) s) := by
    apply foldl_invariant (fun s' => ParticlesKept s s')
    · intro b io hb
      exact ParticlesKept.trans hb (animateObject_kept _ _ _ _)
    · exact ParticlesKept.refl s
  unfold animate
  simp only
  split
  · rename_i p hp
    refine ParticlesKept.trans hloop ?_
    unfold ParticlesKept particleSummary particleFieldsInScene
    simp only [hp, Option.map_some', driftPositions_length, le_refl, and_self]
  · exact hloop

theorem runFrameCallback_kept (pulse : Nat → ℚ) (cb : FrameCallback) (s : DreamVisuals) :
    ParticlesKept s (runFrameCallback pulse cb s) := by
  cases cb with
  | render =>
    have h := animate_kept pulse
      { (requestAnimationFrame .render s).2 with
        animationId := some (requestAnimationFrame .render s).1 }
    exact ParticlesKept.congr_left rfl rfl rfl h
  | entrance id => exact entranceStep_kept id s

theorem animationFrame_kept (pulse : Nat → ℚ) (s : DreamVisuals) :
    ParticlesKept s (animationFrame pulse s) := by
  have h : ∀ (l : List (Nat × FrameCallback)) (s0 : DreamVisuals),
      ParticlesKept s0 (l.foldl (fun s f => runFrameCallback pulse f.2 s) s0) := by
    intro l s0
    apply foldl_invariant (fun s' => ParticlesKept s0 s')
    · intro b f hb
      exact ParticlesKept.trans hb (runFrameCallback_kept pulse f.2 b)
    · exact ParticlesKept.refl s0
  exact ParticlesKept.congr_left rfl rfl rfl (h s.frames { s with frames := [] })

theorem stopRenderLoop_kept (s : DreamVisuals) : ParticlesKept s (stopRenderLoop s) := by
  unfold stopRenderLoop
  split
  · split
    · exact ParticlesKept.of_eq rfl rfl rfl
    · exact ParticlesKept.refl s
  · exact ParticlesKept.refl s

theorem disposeParticles_kept (s : DreamVisuals) : ParticlesKept s (disposeParticles s) := by
  unfold disposeParticles
  split
  · rename_i p hp
    exact ParticlesKept.of_erase s (SceneNode.points p.id) _ rfl rfl rfl
  · exact ParticlesKept.refl s

theorem dispose_kept (s : DreamVisuals) : ParticlesKept s (dispose s) := by
  have h := ParticlesKept.trans (ParticlesKept.trans (stopRenderLoop_kept s)
    (clearDreamObjects_kept (stopRenderLoop s)))
    (disposeParticles_kept (clearDreamObjects (stopRenderLoop s)))
  exact ParticlesKept.congr_right h rfl rfl rfl

theorem ParticlesKept.isSome_eq {s s' : DreamVisuals} (h : ParticlesKept s s') :
    s'.particles.isSome = s.particles.isSome := by
  have h2 := congrArg (fun x : Nat × Option (Nat × Nat) => x.2.isSome) h.1
  simpa [particleSummary] using h2

theorem ParticlesKept.created_eq {s s' : DreamVisuals} (h : ParticlesKept s s') :
    s'.particleSystemsCreated = s.particleSystemsCreated := by
  have h2 := congrArg (fun x : Nat × Option (Nat × Nat) => x.1) h.1
  simpa [particleSummary] using h2

theorem ParticlesKept.invariant {s s' : DreamVisuals} (h : ParticlesKept s s')
    (hs : ParticleInvariant s) : ParticleInvariant s' := by
  refine ⟨?_, ?_⟩
  · rw [h.1, h.isSome_eq]; exact hs.1
  · rw [h.created_eq]; exact le_trans h.2 hs.2

theorem construct_invariant (now : Nat) : ParticleInvariant (DreamVisuals.construct now) := by
  refine ⟨rfl, ?_⟩
  simp [particleFieldsInScene, DreamVisuals.construct]

theorem ensureParticleSystem_invariant (s : DreamVisuals) (hs : ParticleInvariant s) :
    ParticleInvariant (ensureParticleSystem s) ∧
    (ensureParticleSystem s).particles.isSome = true := by
  unfold ensureParticleSystem
  cases hp : s.particles with
  | none =>
    have hc : s.particleSystemsCreated = 0 := by
      have h2 := congrArg (fun x : Nat × Option (Nat × Nat) => x.1) hs.1
      simpa [particleSummary, hp] using h2
    have hn : particleFieldsInScene s = 0 := by
      have := hs.2
      omega
    simp only [Option.isNone_none, if_true]
    refine ⟨⟨?_, ?_⟩, rfl⟩
    · simp [particleSummary, createParticleSystem, hc, initialBuffers_length]
    · unfold particleFieldsInScene at hn ⊢
      simp only [createParticleSystem, List.filter_append, List.length_append, hn, hc]
      simp
  | some p =>
    simp only [Option.isNone_some, Bool.false_eq_true, if_false]
    exact ⟨hs, by rw [hp]; rfl⟩

/-- Every call of `generateVisualsFromMetaphor` preserves the invariant and
leaves the field `particles` set. -/
theorem generateVisualsFromMetaphor_invariant (metaphor : String) (s : DreamVisuals)
    (hs : ParticleInvariant s) :
    ParticleInvariant (generateVisualsFromMetaphor metaphor s) ∧
    (generateVisualsFromMetaphor metaphor s).particles.isSome = true := by
  unfold generateVisualsFromMetaphor
  simp only
  have h1 : ParticlesKept s { clearDreamObjects s with currentMetaphor := some metaphor } :=
    ParticlesKept.congr_right (clearDreamObjects_kept s) rfl rfl rfl
  have h2 := scheduleCreations_kept (parseMetaphor metaphor)
    { clearDreamObjects s with currentMetaphor := some metaphor }
  have h3 := ensureParticleSystem_invariant _ ((h1.trans h2).invariant hs)
  have h4 := clearTestObjects_kept (ensureParticleSystem (scheduleCreations (parseMetaphor metaphor)
    { clearDreamObjects s with currentMetaphor := some metaphor }))
  have h5 := updateParticleColors_kept (parseMetaphor metaphor)
    (clearTestObjects (ensureParticleSystem (scheduleCreations (parseMetaphor metaphor)
    { clearDreamObjects s with currentMetaphor := some metaphor })))
  refine ⟨(h4.trans h5).invariant h3.1, ?_⟩
  rw [(h4.trans h5).isSome_eq]
  exact h3.2

theorem updateParticleColors_particles (elements : List Element) (s : DreamVisuals) :
    (updateParticleColors elements s).particles =
      s.particles.map (fun p => { p with colors := recolor (dominantColor elements) p.colors }) := by
  unfold updateParticleColors
  cases h : s.particles <;> simp [h]

/-- The particle field after a call of `generateVisualsFromMetaphor`: an existing
field keeps its identity and its position buffer and gets its colour buffer
rewritten; only when there was none is a field constructed. -/
theorem generateVisualsFromMetaphor_particles (metaphor : String) (s : DreamVisuals) :
    (generateVisualsFromMetaphor metaphor s).particles =
      some (match s.particles with
        | some p =>
          { p with colors := recolor (dominantColor (parseMetaphor metaphor)) p.colors }
        | none =>
          { id := s.particleSystemsCreated, positions := initialBuffers.1,
            colors := recolor (dominantColor (parseMetaphor metaphor)) initialBuffers.2 }) ∧
    (generateVisualsFromMetaphor metaphor s).particleSystemsCreated =
      s.particleSystemsCreated + (if s.particles.isNone then 1 else 0) := by
  unfold generateVisualsFromMetaphor
  simp only
  obtain ⟨-, -, -, -, e5, e6, -⟩ := scheduleLoop_fields (parseMetaphor metaphor).enum
    { clearDreamObjects s with currentMetaphor := some metaphor }
  have e5' : (scheduleCreations (parseMetaphor metaphor)
      { clearDreamObjects s with currentMetaphor := some metaphor }).particles = s.particles := e5
  have e6' : (scheduleCreations (parseMetaphor metaphor)
      { clearDreamObjects s with currentMetaphor := some metaphor }).particleSystemsCreated =
      s.particleSystemsCreated := e6
  rw [updateParticleColors_particles, (updateParticleColors_fields _ _).2.2.2.2,
    (clearTestObjects_fields _).2.2.2.1, (clearTestObjects_fields _).2.2.2.2]
  unfold ensureParticleSystem
  rw [e5']
  cases hp : s.particles with
  | none =>
    simp only [Option.isNone_none, if_true, createParticleSystem, Option.map_some', e6',
      and_self]
  | some p =>
    simp only [Option.isNone_some, Bool.false_eq_true, if_false, e5', hp, Option.map_some', e6',
      add_zero, and_self]

theorem step_invariant (s : DreamVisuals) (a : Action) (hs : ParticleInvariant s) :
    ParticleInvariant (step s a) ∧
    (step s a).particles.isSome = (s.particles.isSome || hasGenerate [a]) := by
  cases a with
  | generate metaphor =>
    have h := generateVisualsFromMetaphor_invariant metaphor s hs
    refine ⟨h.1, ?_⟩
    simp only [step, h.2, hasGenerate, List.any_cons, List.any_nil, Bool.or_false, Bool.or_true]
  | elapse dt =>
    refine ⟨(elapse_kept dt s).invariant hs, ?_⟩
    simp only [step, (elapse_kept dt s).isSome_eq, hasGenerate, List.any_cons, List.any_nil,
      Bool.or_false]
  | frame pulse =>
    refine ⟨(animationFrame_kept pulse s).invariant hs, ?_⟩
    simp only [step, (animationFrame_kept pulse s).isSome_eq, hasGenerate, List.any_cons,
      List.any_nil, Bool.or_false]
  | dispose =>
    refine ⟨(dispose_kept s).invariant hs, ?_⟩
    simp only [step, (dispose_kept s).isSome_eq, hasGenerate, List.any_cons, List.any_nil,
      Bool.or_false]

theorem run_invariant (actions : List Action) (s : DreamVisuals) (hs : ParticleInvariant s) :
    ParticleInvariant (run actions s) ∧
    (run actions s).particles.isSome = (s.particles.isSome || hasGenerate actions) := by
  induction actions generalizing s with
  | nil => exact ⟨hs, by simp [run, hasGenerate]⟩
  | cons a actions ih =>
    obtain ⟨h1, h2⟩ := step_invariant s a hs
    obtain ⟨h3, h4⟩ := ih (step s a) h1
    refine ⟨h3, ?_⟩
    have h5 : run (a :: actions) s = run actions (step s a) := rfl
    rw [h5, h4, h2]
    simp only [hasGenerate, List.any_cons, List.any_nil, Bool.or_false, Bool.or_assoc]

/-- Claim C7.  In every state reached from a constructed composer by calls of
`generateVisualsFromMetaphor` (interleaved at will with elapsed time, animation
frames and disposal), exactly one particle field has been constructed if some
call was made and none otherwise, its position and colour buffers have 3000
entries each, and at most one field is attached to the scene.  A further call
leaves the number of constructed fields at one, and when a field exists it
keeps its identity and positions and only its colour buffer is rewritten. -/
theorem particle_field_created_once (now : Nat) (actions : List Action) :
    particleSummary (run actions (DreamVisuals.construct now)) =
      (if hasGenerate actions then (1, some (particleCount * 3, particleCount * 3))
       else (0, none)) ∧
    particleFieldsInScene (run actions (DreamVisuals.construct now)) ≤ 1 ∧
    ∀ metaphor : String,
      (generateVisualsFromMetaphor metaphor
        (run actions (DreamVisuals.construct now))).particleSystemsCreated = 1 ∧
      (generateVisualsFromMetaphor metaphor (run actions (DreamVisuals.construct now))).particles =
        some (match (run actions (DreamVisuals.construct now)).particles with
          | some p =>
            { p with colors := recolor (dominantColor (parseMetaphor metaphor)) p.colors }
          | none =>
            { id := 0, positions := initialBuffers.1,
              colors := recolor (dominantColor (parseMetaphor metaphor)) initialBuffers.2 }) := by
  obtain ⟨hinv, hsome⟩ := run_invariant actions _ (construct_invariant now)
  have hsome' : (run actions (DreamVisuals.construct now)).particles.isSome =
      hasGenerate actions := by
    rw [hsome]; rfl
  have hsum := hinv.1
  rw [hsome'] at hsum
  have hcreated : (run actions (DreamVisuals.construct now)).particleSystemsCreated =
      if hasGenerate actions then 1 else 0 := by
    have h2 := congrArg (fun x : Nat × Option (Nat × Nat) => x.1) hsum
    simp only [particleSummary] at h2
    rw [h2]
    split <;> rfl
  refine ⟨hsum, ?_, ?_⟩
  · have := hinv.2
    rw [hcreated] at this
    split at this <;> omega
  · intro metaphor
    obtain ⟨hp, hc⟩ := generateVisualsFromMetaphor_particles metaphor
      (run actions (DreamVisuals.construct now))
    refine ⟨?_, ?_⟩
    · have hnone : (run actions (DreamVisuals.construct now)).particles.isNone =
          !hasGenerate actions := by
        rw [← hsome']
        cases (run actions (DreamVisuals.construct now)).particles <;> rfl
      rw [hc, hcreated, hnone]
      cases hasGenerate actions <;> rfl
    · rw [hp]
      cases hq : (run actions (DreamVisuals.construct now)).particles with
      | some p => rfl
      | none =>
        have hg : hasGenerate actions = false := by
          rw [← hsome', hq]; rfl
        rw [hg] at hcreated
        simp only [Bool.false_eq_true, if_false] at hcreated
        simp only [hcreated]

/-- The method `dispose` never touches the timer queue, and of the animation-frame
queue it removes at most the request whose handle is in `animationId`. -/
theorem dispose_fields (s : DreamVisuals) :
    (dispose s).timers = s.timers ∧
    (dispose s).dreamObjects = [] ∧
    (dispose s).frames =
      (match s.animationId with
        | some id => if id ≠ 0 then s.frames.filter (fun f => f.1 != id) else s.frames
        | none => s.frames) := by
  unfold dispose disposeParticles clearDreamObjects stopRenderLoop cancelAnimationFrame
  cases h : s.animationId with
  | none => cases hp : s.particles <;> simp [hp]
  | some id =>
    by_cases hid : id = 0
    · cases hp : s.particles <;> simp [hid, hp]
    · cases hp : s.particles <;> simp [hid, hp]

/-- Claim C8, evaluated on the code.  After `generateVisualsFromMetaphor("ocean
waves")`, `dispose()` is called twice.  The render loop is stopped
(`animationId` is null and no frame is queued), but the two creation timers
are still pending: 500 ms later both have fired, `dreamObjects` holds two
objects and two entrance animations have requested frames.  Likewise an
entrance animation that was running when `dispose()` was called keeps its
frame request. -/
theorem dispose_leaves_creation_timers :
    (dispose (dispose (generateVisualsFromMetaphor "ocean waves"
      (DreamVisuals.construct 1000)))).animationId = none ∧
    (dispose (dispose (generateVisualsFromMetaphor "ocean waves"
      (DreamVisuals.construct 1000)))).frames = [] ∧
    (dispose (dispose (generateVisualsFromMetaphor "ocean waves"
      (DreamVisuals.construct 1000)))).dreamObjects = [] ∧
    (dispose (dispose (generateVisualsFromMetaphor "ocean waves"
      (DreamVisuals.construct 1000)))).timers.length = 2 ∧
    (elapse 500 (dispose (dispose (generateVisualsFromMetaphor "ocean waves"
      (DreamVisuals.construct 1000))))).dreamObjects.length = 2 ∧
    (elapse 500 (dispose (dispose (generateVisualsFromMetaphor "ocean waves"
      (DreamVisuals.construct 1000))))).frames =
      [(2, FrameCallback.entrance 0), (3, FrameCallback.entrance 1)] ∧
    (dispose (elapse 0 (generateVisualsFromMetaphor "ocean waves"
      (DreamVisuals.construct 1000)))).frames = [(2, FrameCallback.entrance 0)] := by
  refine ⟨?_, ?_, ?_, ?_, ?_, ?_, ?_⟩ <;> decide!

/-! ## Drowsiness detector: helper facts -/

theorem checkAt_threshold (s : EEGSimulator) (t : Tick) :
    (checkAt s t).1.drowsinessThreshold = s.drowsinessThreshold := by
  unfold checkAt checkDrowsiness
  simp only
  split
  · split
    · rfl
    · split <;> rfl
  · split <;> rfl

theorem runTicks_threshold (ts : List Tick) (s : EEGSimulator) :
    (runTicks s ts).1.drowsinessThreshold = s.drowsinessThreshold := by
  induction ts generalizing s with
  | nil => rfl
  | cons t ts ih =>
    simp only [runTicks]
    rw [ih, checkAt_threshold]

/-- A tick over the threshold with no episode in progress records the start and
emits the `drowsy` status. -/
theorem checkAt_first (s : EEGSimulator) (t : Tick)
    (hd : (t.alpha + t.theta) / 2 > s.drowsinessThreshold)
    (hs : startTimeSet s.drowsinessStartTime = false) :
    (checkAt s t).1.drowsinessStartTime = some t.now ∧
    (checkAt s t).2 = [Effect.updateStatus "drowsy" "Drowsiness detected"] := by
  unfold checkAt checkDrowsiness
  simp only [hd, if_true, hs, Bool.not_false, and_self]

/-- A tick over the threshold during an episode started at `r` notifies exactly
when more than 30000 ms have elapsed, and then restarts the episode clock. -/
theorem checkAt_episode (s : EEGSimulator) (t : Tick) (r : Nat)
    (hd : (t.alpha + t.theta) / 2 > s.drowsinessThreshold)
    (hs : s.drowsinessStartTime = some r) (hr : 0 < r) :
    (checkAt s t).1.drowsinessStartTime =
      some (if (t.now : Int) - (r : Int) > 30000 then t.now else r) ∧
    (checkAt s t).2 =
      (if (t.now : Int) - (r : Int) > 30000 then [Effect.onDrowsyDetected] else []) := by
  have hset : startTimeSet (some r) = true := by
    simp [startTimeSet]; omega
  unfold checkAt checkDrowsiness
  simp only [hd, if_true, hs, hset, Bool.not_true, Bool.false_eq_true, if_false, Option.getD_some]
  split <;> simp only [and_self]

/-- A tick at or under the threshold with no episode in progress changes
neither the episode clock nor anything a listener sees. -/
theorem checkAt_awake (s : EEGSimulator) (t : Tick)
    (hd : ¬ (t.alpha + t.theta) / 2 > s.drowsinessThreshold)
    (hs : s.drowsinessStartTime = none) :
    (checkAt s t).1.drowsinessStartTime = none ∧ (checkAt s t).2 = [] := by
  unfold checkAt checkDrowsiness
  simp only [hd, if_false, hs, startTimeSet, Bool.false_eq_true, and_self]

theorem runTicks_append (xs ys : List Tick) (s : EEGSimulator) :
    (runTicks s (xs ++ ys)).1 = (runTicks (runTicks s xs).1 ys).1 ∧
    (runTicks s (xs ++ ys)).2 = (runTicks s xs).2 ++ (runTicks (runTicks s xs).1 ys).2 := by
  induction xs generalizing s with
  | nil => exact ⟨rfl, rfl⟩
  | cons x xs ih =>
    obtain ⟨h1, h2⟩ := ih (checkAt s x).1
    have e : runTicks s (x :: xs ++ ys) =
        ((runTicks (checkAt s x).1 (xs ++ ys)).1,
         (x.now, (checkAt s x).2) :: (runTicks (checkAt s x).1 (xs ++ ys)).2) := rfl
    have e' : runTicks s (x :: xs) =
        ((runTicks (checkAt s x).1 xs).1,
         (x.now, (checkAt s x).2) :: (runTicks (checkAt s x).1 xs).2) := rfl
    rw [e, e']
    simp only [h1, h2, List.cons_append, and_self]

theorem notificationTimes_append (xs ys : List (Nat × List Effect)) :
    notificationTimes (xs ++ ys) = notificationTimes xs ++ notificationTimes ys := by
  simp [notificationTimes]

/-- While no tick is more than 30000 ms after the episode start, nothing is
notified and the episode clock stays. -/
theorem runTicks_quiet (ts : List Tick) (s : EEGSimulator) (r : Nat)
    (hs : s.drowsinessStartTime = some r) (hr : 0 < r)
    (hd : ∀ t ∈ ts, (t.alpha + t.theta) / 2 > s.drowsinessThreshold ∧ t.now ≤ r + 30000) :
    (runTicks s ts).1.drowsinessStartTime = some r ∧
    notificationTimes (runTicks s ts).2 = [] := by
  induction ts generalizing s with
  | nil => exact ⟨hs, rfl⟩
  | cons t ts ih =>
    obtain ⟨hdt, hle⟩ := hd t (List.mem_cons_self _ _)
    obtain ⟨h1, h2⟩ := checkAt_episode s t r hdt hs hr
    have hno : ¬ ((t.now : Int) - (r : Int) > 30000) := by omega
    simp only [hno, if_false] at h1 h2
    have hd' : ∀ t' ∈ ts, (t'.alpha + t'.theta) / 2 > (checkAt s t).1.drowsinessThreshold ∧
        t'.now ≤ r + 30000 := by
      intro t' ht'
      rw [checkAt_threshold]
      exact hd t' (List.mem_cons_of_mem _ ht')
    obtain ⟨h3, h4⟩ := ih (checkAt s t).1 h1 hd'
    simp only [runTicks]
    refine ⟨h3, ?_⟩
    simp only [notificationTimes, List.filter_cons, h2, List.contains_nil, Bool.false_eq_true,
      if_false]
    exact h4

/-- No tick over the threshold and no episode in progress: nothing happens. -/
theorem runTicks_awake (ts : List Tick) (s : EEGSimulator)
    (hs : s.drowsinessStartTime = none)
    (hd : ∀ t ∈ ts, ¬ (t.alpha + t.theta) / 2 > s.drowsinessThreshold) :
    (runTicks s ts).1.drowsinessStartTime = none ∧
    ∀ e ∈ (runTicks s ts).2, e.2 = [] := by
  induction ts generalizing s with
  | nil => exact ⟨hs, by simp [runTicks]⟩
  | cons t ts ih =>
    obtain ⟨h1, h2⟩ := checkAt_awake s t (hd t (List.mem_cons_self _ _)) hs
    have hd' : ∀ t' ∈ ts, ¬ (t'.alpha + t'.theta) / 2 > (checkAt s t).1.drowsinessThreshold := by
      intro t' ht'
      rw [checkAt_threshold]
      exact hd t' (List.mem_cons_of_mem _ ht')
    obtain ⟨h3, h4⟩ := ih (checkAt s t).1 h1 hd'
    simp only [runTicks]
    refine ⟨h3, ?_⟩
    intro e he
    rcases List.mem_cons.mp he with rfl | he
    · exact h2
    · exact h4 e he

theorem notificationTimes_cons (n : Nat) (effects : List Effect) (log : List (Nat × List Effect)) :
    notificationTimes ((n, effects) :: log) =
      if effects.contains Effect.onDrowsyDetected then n :: notificationTimes log
      else notificationTimes log := by
  unfold notificationTimes
  rw [List.filter_cons]
  split <;> rfl

theorem runTicks_cons (s : EEGSimulator) (t : Tick) (ts : List Tick) :
    runTicks s (t :: ts) =
      ((runTicks (checkAt s t).1 ts).1, (t.now, (checkAt s t).2) :: (runTicks (checkAt s t).1 ts).2) :=
  rfl

/-- During an episode every state has a non-zero episode start. -/
theorem runTicks_in_episode (ts : List Tick) (s : EEGSimulator) (r : Nat)
    (hs : s.drowsinessStartTime = some r) (hr : 0 < r)
    (hd : ∀ t ∈ ts, (t.alpha + t.theta) / 2 > s.drowsinessThreshold) :
    ∃ r', (runTicks s ts).1.drowsinessStartTime = some r' ∧ 0 < r' := by
  induction ts generalizing s r with
  | nil => exact ⟨r, hs, hr⟩
  | cons t ts ih =>
    obtain ⟨h1, -⟩ := checkAt_episode s t r (hd t (List.mem_cons_self _ _)) hs hr
    have hd' : ∀ t' ∈ ts, (t'.alpha + t'.theta) / 2 > (checkAt s t).1.drowsinessThreshold := by
      intro t' ht'
      rw [checkAt_threshold]
      exact hd t' (List.mem_cons_of_mem _ ht')
    rw [runTicks_cons]
    refine ih (checkAt s t).1 _ h1 ?_ hd'
    split <;> omega

/-- During an episode started at `r`, every notification comes more than
30000 ms after `r` and more than 30000 ms after the previous one. -/
theorem runTicks_gaps (ts : List Tick) (s : EEGSimulator) (r : Nat)
    (hs : s.drowsinessStartTime = some r) (hr : 0 < r)
    (hd : ∀ t ∈ ts, (t.alpha + t.theta) / 2 > s.drowsinessThreshold) :
    (∀ n ∈ notificationTimes (runTicks s ts).2, r + 30000 < n) ∧
    (notificationTimes (runTicks s ts).2).Pairwise (fun a b => a + 30000 < b) := by
  induction ts generalizing s r with
  | nil => simp [runTicks, notificationTimes]
  | cons t ts ih =>
    obtain ⟨h1, h2⟩ := checkAt_episode s t r (hd t (List.mem_cons_self _ _)) hs hr
    have hd' : ∀ t' ∈ ts, (t'.alpha + t'.theta) / 2 > (checkAt s t).1.drowsinessThreshold := by
      intro t' ht'
      rw [checkAt_threshold]
      exact hd t' (List.mem_cons_of_mem _ ht')
    rw [runTicks_cons, notificationTimes_cons, h2]
    by_cases hfire : (t.now : Int) - (r : Int) > 30000
    · simp only [hfire, if_true] at h1 ⊢
      obtain ⟨h3, h4⟩ := ih (checkAt s t).1 t.now h1 (by omega) hd'
      have hc : [Effect.onDrowsyDetected].contains Effect.onDrowsyDetected = true := by decide
      simp only [hc, if_true]
      refine ⟨?_, List.Pairwise.cons h3 h4⟩
      intro n hn
      rcases List.mem_cons.mp hn with rfl | hn
      · omega
      · have := h3 n hn
        omega
    · simp only [hfire, if_false] at h1 ⊢
      have hc : ([] : List Effect).contains Effect.onDrowsyDetected = false := rfl
      simp only [hc, Bool.false_eq_true, if_false]
      exact ih (checkAt s t).1 r h1 hr hd'

/-! ## Drowsiness detector: claims C9 and C10 -/

/-- Claim C10.  Take ticks of `checkDrowsiness` whose combined signal exceeds the
threshold at every tick, starting with no episode in progress at a non-zero
clock reading.  The first tick records its time as the episode start and emits
the `drowsy` status.  Every later tick, run in the state the ticks before it
produced, finds a recorded start `r`, calls `onDrowsyDetected` exactly when its
time exceeds `r` by more than 30000 ms, and then records its own time as the
new start (otherwise `r` stays).  Hence every notification comes more than
30000 ms after the first tick and more than 30000 ms after the one before. -/
theorem drowsiness_episode (s : EEGSimulator) (first : Tick) (later : List Tick)
    (hstart : s.drowsinessStartTime = none) (hpos : 0 < first.now)
    (hdrowsy : ∀ t ∈ first :: later, (t.alpha + t.theta) / 2 > s.drowsinessThreshold) :
    ((checkAt s first).1.drowsinessStartTime = some first.now ∧
      (checkAt s first).2 = [Effect.updateStatus "drowsy" "Drowsiness detected"]) ∧
    (∀ (before : List Tick) (t : Tick) (after : List Tick), later = before ++ t :: after →
      ∃ r, (runTicks s (first :: before)).1.drowsinessStartTime = some r ∧
        (checkAt (runTicks s (first :: before)).1 t).2 =
          (if (t.now : Int) - (r : Int) > 30000 then [Effect.onDrowsyDetected] else []) ∧
        (checkAt (runTicks s (first :: before)).1 t).1.drowsinessStartTime =
          some (if (t.now : Int) - (r : Int) > 30000 then t.now else r)) ∧
    (∀ n ∈ notificationTimes (runTicks s (first :: later)).2, first.now + 30000 < n) ∧
    (notificationTimes (runTicks s (first :: later)).2).Pairwise (fun a b => a + 30000 < b) := by
  have hfirst := checkAt_first s first (hdrowsy first (List.mem_cons_self _ _))
    (by rw [hstart]; rfl)
  have hthr : ∀ ts : List Tick, (∀ t ∈ ts, t ∈ first :: later) →
      ∀ t ∈ ts, (t.alpha + t.theta) / 2 > (checkAt s first).1.drowsinessThreshold := by
    intro ts hsub t ht
    rw [checkAt_threshold]
    exact hdrowsy t (hsub t ht)
  refine ⟨hfirst, ?_, ?_⟩
  · intro before t after hsplit
    have hsub : ∀ t' ∈ before, t' ∈ first :: later := by
      intro t' ht'
      rw [hsplit]
      exact List.mem_cons_of_mem _ (List.mem_append_left _ ht')
    obtain ⟨r, hr1, hr2⟩ := runTicks_in_episode before (checkAt s first).1 first.now hfirst.1 hpos
      (hthr before hsub)
    have hstate : (runTicks s (first :: before)).1 = (runTicks (checkAt s first).1 before).1 := rfl
    have ht : (t.alpha + t.theta) / 2 >
        (runTicks s (first :: before)).1.drowsinessThreshold := by
      rw [hstate, runTicks_threshold, checkAt_threshold]
      apply hdrowsy
      rw [hsplit]
      exact List.mem_cons_of_mem _ (List.mem_append_right _ (List.mem_cons_self _ _))
    rw [hstate] at ht ⊢
    obtain ⟨h1, h2⟩ := checkAt_episode _ t r ht hr1 hr2
    exact ⟨r, hr1, h2, h1⟩
  · have hlog : (runTicks s (first :: later)).2 =
        (first.now, (checkAt s first).2) :: (runTicks (checkAt s first).1 later).2 := rfl
    rw [hlog, notificationTimes_cons, hfirst.2]
    have hc : [Effect.updateStatus "drowsy" "Drowsiness detected"].contains
        Effect.onDrowsyDetected = false := by decide
    simp only [hc, Bool.false_eq_true, if_false]
    exact runTicks_gaps later (checkAt s first).1 first.now hfirst.1 hpos
      (hthr later (fun t ht => List.mem_cons_of_mem _ ht))

/-- Witness for claim C10: five ticks over the threshold at 1.0 s, 20.0 s,
31.001 s, 40.0 s and 61.002 s notify at 31.001 s and 61.002 s. -/
theorem drowsiness_episode_witness :
    0 < (1000 : Nat) ∧
    notificationTimes (runTicks EEGSimulator.construct
      [⟨1000, 0.9, 0.8⟩, ⟨20000, 0.8, 0.8⟩, ⟨31001, 0.9, 0.9⟩, ⟨40000, 0.7, 0.9⟩,
       ⟨61002, 1, 0.5⟩]).2 = [31001, 61002] ∧
    (notificationTimes (runTicks EEGSimulator.construct
      [⟨1000, 0.9, 0.8⟩, ⟨20000, 0.8, 0.8⟩, ⟨31001, 0.9, 0.9⟩, ⟨40000, 0.7, 0.9⟩,
       ⟨61002, 1, 0.5⟩]).2).Pairwise (fun a b => a + 30000 < b) :=
  ⟨by decide, by decide!,
    (drowsiness_episode EEGSimulator.construct ⟨1000, 0.9, 0.8⟩
      [⟨20000, 0.8, 0.8⟩, ⟨31001, 0.9, 0.9⟩, ⟨40000, 0.7, 0.9⟩, ⟨61002, 1, 0.5⟩]
      rfl (by decide) (by decide!)).2.2.2⟩

theorem intervalTicks_append (alpha theta : ℚ) (start m n : Nat) :
    intervalTicks alpha theta start (m + n) =
      intervalTicks alpha theta start m ++ intervalTicks alpha theta (start + 100 * m) n := by
  induction m generalizing start with
  | zero => simp [intervalTicks]
  | succ m ih =>
    have e : m + 1 + n = (m + n) + 1 := by omega
    rw [e]
    simp only [intervalTicks, List.cons_append]
    rw [ih (start + 100)]
    have e2 : start + 100 + 100 * m = start + 100 * (m + 1) := by omega
    rw [e2]

theorem mem_intervalTicks (alpha theta : ℚ) (count start : Nat) (t : Tick)
    (h : t ∈ intervalTicks alpha theta start count) :
    t.alpha = alpha ∧ t.theta = theta ∧ start ≤ t.now ∧ t.now + 100 ≤ start + 100 * count := by
  induction count generalizing start with
  | zero => simp [intervalTicks] at h
  | succ count ih =>
    simp only [intervalTicks, List.mem_cons] at h
    rcases h with rfl | h
    · exact ⟨rfl, rfl, le_refl _, by simp only; omega⟩
    · obtain ⟨h1, h2, h3, h4⟩ := ih (start + 100) h
      exact ⟨h1, h2, by omega, by omega⟩

/-- One period of a sustained episode: the 301 ticks that follow an episode
start `r` notify once, at the last of them, 30100 ms after `r`. -/
theorem runTicks_period (alpha theta : ℚ) (s : EEGSimulator) (r : Nat)
    (hs : s.drowsinessStartTime = some r) (hr : 0 < r)
    (hd : (alpha + theta) / 2 > s.drowsinessThreshold) :
    (runTicks s (intervalTicks alpha theta (r + 100) 301)).1.drowsinessStartTime =
      some (r + 30100) ∧
    notificationTimes (runTicks s (intervalTicks alpha theta (r + 100) 301)).2 = [r + 30100] := by
  have e0 : r + 100 + 100 * 300 = r + 30100 := by omega
  have happ := intervalTicks_append alpha theta (r + 100) 300 1
  rw [e0] at happ
  have e1 : intervalTicks alpha theta (r + 30100) 1 = [⟨r + 30100, alpha, theta⟩] := rfl
  rw [e1] at happ
  have happ' : intervalTicks alpha theta (r + 100) 301 =
      intervalTicks alpha theta (r + 100) 300 ++ [⟨r + 30100, alpha, theta⟩] := happ
  obtain ⟨ha1, ha2⟩ := runTicks_append (intervalTicks alpha theta (r + 100) 300)
    [⟨r + 30100, alpha, theta⟩] s
  have hquiet := runTicks_quiet (intervalTicks alpha theta (r + 100) 300) s r hs hr (by
    intro t ht
    obtain ⟨h1, h2, h3, h4⟩ := mem_intervalTicks alpha theta 300 (r + 100) t ht
    rw [h1, h2]
    exact ⟨hd, by omega⟩)
  have hd2 : (alpha + theta) / 2 >
      (runTicks s (intervalTicks alpha theta (r + 100) 300)).1.drowsinessThreshold := by
    rw [runTicks_threshold]; exact hd
  obtain ⟨h1, h2⟩ := checkAt_episode
    (runTicks s (intervalTicks alpha theta (r + 100) 300)).1
    ⟨r + 30100, alpha, theta⟩ r hd2 hquiet.1 hr
  have hfire : ((r + 30100 : Nat) : Int) - (r : Int) > 30000 := by omega
  simp only [hfire, if_true] at h1 h2
  have hc : [Effect.onDrowsyDetected].contains Effect.onDrowsyDetected = true := by decide
  have hnil : notificationTimes [] = [] := rfl
  have hrun : ∀ s' : EEGSimulator, runTicks s' [] = (s', []) := fun _ => rfl
  rw [happ', ha1, ha2, notificationTimes_append, hquiet.2, runTicks_cons]
  simp only [hrun, notificationTimes_cons, h2, List.nil_append, hc, if_true, hnil]
  exact ⟨h1, trivial⟩

theorem map_range_succ (f : Nat → Nat) (n : Nat) :
    (List.range (n + 1)).map f = f 0 :: (List.range n).map (fun i => f (i + 1)) := by
  rw [List.range_succ_eq_map, List.map_cons, List.map_map]
  rfl

theorem notification_schedule_succ (r periods : Nat) :
    [r + 30100] ++ (List.range periods).map (fun i => r + 30100 + 30100 * (i + 1)) =
      (List.range (periods + 1)).map (fun i => r + 30100 * (i + 1)) := by
  rw [map_range_succ (fun i => r + 30100 * (i + 1)) periods, List.singleton_append]
  refine List.cons_eq_cons.mpr ⟨?_, ?_⟩
  · show r + 30100 = r + 30100 * (0 + 1)
    omega
  · apply List.map_congr_left
    intro i _
    show r + 30100 + 30100 * (i + 1) = r + 30100 * (i + 1 + 1)
    omega

/-- Any number of periods followed by at most 300 further ticks: one
notification at the end of each full period. -/
theorem runTicks_periods (alpha theta : ℚ) (periods extra : Nat) (hextra : extra ≤ 300)
    (s : EEGSimulator) (r : Nat)
    (hs : s.drowsinessStartTime = some r) (hr : 0 < r)
    (hd : (alpha + theta) / 2 > s.drowsinessThreshold) :
    notificationTimes (runTicks s (intervalTicks alpha theta (r + 100) (301 * periods + extra))).2 =
      (List.range periods).map (fun i => r + 30100 * (i + 1)) := by
  induction periods generalizing s r with
  | zero =>
    simp only [Nat.mul_zero, Nat.zero_add, List.range_zero, List.map_nil]
    exact (runTicks_quiet _ s r hs hr (by
      intro t ht
      obtain ⟨h1, h2, h3, h4⟩ := mem_intervalTicks alpha theta extra (r + 100) t ht
      rw [h1, h2]
      exact ⟨hd, by omega⟩)).2
  | succ periods ih =>
    have e : 301 * (periods + 1) + extra = 301 + (301 * periods + extra) := by omega
    rw [e, intervalTicks_append]
    obtain ⟨-, ha2⟩ := runTicks_append (intervalTicks alpha theta (r + 100) 301)
      (intervalTicks alpha theta (r + 100 + 100 * 301) (301 * periods + extra)) s
    obtain ⟨hp1, hp2⟩ := runTicks_period alpha theta s r hs hr hd
    have hd2 : (alpha + theta) / 2 >
        (runTicks s (intervalTicks alpha theta (r + 100) 301)).1.drowsinessThreshold := by
      rw [runTicks_threshold]; exact hd
    have hih := ih (runTicks s (intervalTicks alpha theta (r + 100) 301)).1 (r + 30100) hp1
      (by omega) hd2
    have e2 : r + 100 + 100 * 301 = r + 30100 + 100 := by omega
    rw [ha2, notificationTimes_append, hp2, e2, hih]
    exact notification_schedule_succ r periods

theorem notificationTimes_of_silent (log : List (Nat × List Effect))
    (h : ∀ e ∈ log, e.2 = []) : notificationTimes log = [] := by
  unfold notificationTimes
  rw [List.map_eq_nil_iff, List.filter_eq_nil_iff]
  intro e he
  rw [h e he]
  decide

/-- The notification schedule of a sustained episode on a 100 ms interval
timer: with the combined signal over the threshold at each of `count` ticks,
the first of them at `t0`, `onDrowsyDetected` runs once every 301 ticks, at
`t0 + 30100`, `t0 + 60200`, and so on. -/
theorem notificationTimes_sustained (s : EEGSimulator) (alpha theta : ℚ) (t0 count : Nat)
    (hstart : s.drowsinessStartTime = none) (hpos : 0 < t0)
    (hd : (alpha + theta) / 2 > s.drowsinessThreshold) :
    notificationTimes (runTicks s (intervalTicks alpha theta t0 count)).2 =
      (List.range ((count - 1) / 301)).map (fun i => t0 + 30100 * (i + 1)) := by
  cases count with
  | zero => rfl
  | succ n =>
    have hticks : intervalTicks alpha theta t0 (n + 1) =
        ⟨t0, alpha, theta⟩ :: intervalTicks alpha theta (t0 + 100) n := rfl
    obtain ⟨h1, h2⟩ := checkAt_first s ⟨t0, alpha, theta⟩ hd (by rw [hstart]; rfl)
    have hd2 : (alpha + theta) / 2 >
        (checkAt s ⟨t0, alpha, theta⟩).1.drowsinessThreshold := by
      rw [checkAt_threshold]; exact hd
    have hper := runTicks_periods alpha theta (n / 301) (n % 301)
      (by have := Nat.mod_lt n (by decide : 301 > 0); omega)
      (checkAt s ⟨t0, alpha, theta⟩).1 t0 h1 hpos hd2
    rw [Nat.div_add_mod] at hper
    have hc : [Effect.updateStatus "drowsy" "Drowsiness detected"].contains
        Effect.onDrowsyDetected = false := by decide
    rw [hticks, runTicks_cons, notificationTimes_cons, h2]
    simp only [hc, Bool.false_eq_true, if_false, Nat.add_sub_cancel]
    exact hper

/-- Claim C9, as the code has it.  With the signals held at values whose mean
exceeds the threshold, and `checkDrowsiness` run every 100 ms from a non-zero
clock time `t0` with no episode in progress, the notifications come at
`t0 + 30100 * k` for `k = 1, 2, ...`: none up to and including the tick at
30.0 s, the first at the tick at 30.1 s, still only that one by the tick at
60.0 s, and the second at the tick at 60.2 s. -/
theorem sustained_drowsiness_schedule (s : EEGSimulator) (alpha theta : ℚ) (t0 : Nat)
    (hstart : s.drowsinessStartTime = none) (hpos : 0 < t0)
    (hd : (alpha + theta) / 2 > s.drowsinessThreshold) :
    (∀ count : Nat, notificationTimes (runTicks s (intervalTicks alpha theta t0 count)).2 =
      (List.range ((count - 1) / 301)).map (fun i => t0 + 30100 * (i + 1))) ∧
    notificationTimes (runTicks s (intervalTicks alpha theta t0 301)).2 = [] ∧
    notificationTimes (runTicks s (intervalTicks alpha theta t0 302)).2 = [t0 + 30100] ∧
    notificationTimes (runTicks s (intervalTicks alpha theta t0 601)).2 = [t0 + 30100] ∧
    notificationTimes (runTicks s (intervalTicks alpha theta t0 603)).2 =
      [t0 + 30100, t0 + 60200] := by
  have h := notificationTimes_sustained s alpha theta t0
  refine ⟨fun count => h count hstart hpos hd, ?_, ?_, ?_, ?_⟩
  · rw [h 301 hstart hpos hd]; rfl
  · rw [h 302 hstart hpos hd]; rfl
  · rw [h 601 hstart hpos hd]; rfl
  · rw [h 603 hstart hpos hd]; rfl

/-- Witness for claim C9: a fresh simulator with both signals at 0.9, ticking
from clock time 1000, notifies at 31100 and at 61200 within 603 ticks. -/
theorem sustained_drowsiness_schedule_witness :
    0 < (1000 : Nat) ∧
    notificationTimes (runTicks EEGSimulator.construct (intervalTicks 0.9 0.9 1000 603)).2 =
      [31100, 61200] :=
  ⟨by decide,
    (sustained_drowsiness_schedule EEGSimulator.construct 0.9 0.9 1000 rfl (by decide)
      (by decide!)).2.2.2.2⟩

/-- Counterexample to claim C9 as stated.  With the signals at the values that
`simulateState('drowsy')` sets, alpha 0.3 and theta 0.9, the combined signal is
0.6, which does not exceed the threshold 0.7: 700 ticks (70 seconds) deliver no
notification at all.  And with signals that do exceed the threshold (0.9 and
0.9), the ticks up to 30.0 s deliver none and the ticks up to 60.0 s deliver
only one, at 30.1 s. -/
theorem drowsy_preset_never_notifies :
    (simulateState "drowsy" EEGSimulator.construct).alphaWave = 0.3 ∧
    (simulateState "drowsy" EEGSimulator.construct).thetaWave = 0.9 ∧
    notificationTimes (runTicks (simulateState "drowsy" EEGSimulator.construct)
      (intervalTicks 0.3 0.9 1000 700)).2 = [] ∧
    notificationTimes (runTicks EEGSimulator.construct (intervalTicks 0.9 0.9 1000 301)).2 = [] ∧
    notificationTimes (runTicks EEGSimulator.construct (intervalTicks 0.9 0.9 1000 601)).2 =
      [31100] := by
  have hd : ((0.9 : ℚ) + 0.9) / 2 > EEGSimulator.construct.drowsinessThreshold := by decide!
  refine ⟨rfl, rfl, ?_, ?_, ?_⟩
  · apply notificationTimes_of_silent
    refine (runTicks_awake _ _ rfl ?_).2
    intro t ht
    obtain ⟨h1, h2, -, -⟩ := mem_intervalTicks 0.3 0.9 700 1000 t ht
    rw [h1, h2]
    decide!
  · rw [notificationTimes_sustained EEGSimulator.construct 0.9 0.9 1000 301 rfl (by decide) hd]
    rfl
  · rw [notificationTimes_sustained EEGSimulator.construct 0.9 0.9 1000 601 rfl (by decide) hd]
    rfl

/-! ## Metaphor generator: claim C11 -/

/-- Claim C11.  While a call is outstanding (`isGenerating` is true) a call of
`generateMetaphor` is rejected with the error "Already generating a metaphor",
whatever the topic and whatever the cache holds, and the generator is left as
it was.  A call made while none is outstanding is not rejected and leaves
`isGenerating` false; and the part of a call that runs once the request has
settled leaves `isGenerating` false for every outcome of the request, in
whatever state the generator is by then. -/
theorem generateMetaphor_rejects_while_generating (s : MetaphorGenerator) (topic : String) :
    (s.isGenerating = true → ∀ (outcome : FetchOutcome) (r : Draws),
      generateMetaphorStart topic s = (Started.rejected "Already generating a metaphor", s) ∧
      generateMetaphor topic outcome r s = (Except.error "Already generating a metaphor", s)) ∧
    (s.isGenerating = false → ∀ (outcome : FetchOutcome) (r : Draws),
      (∃ metaphor, (generateMetaphor topic outcome r s).1 = Except.ok metaphor) ∧
      (generateMetaphor topic outcome r s).2.isGenerating = false) ∧
    (∀ (outcome : FetchOutcome) (r : Draws),
      (generateMetaphorFinish topic outcome r s).2.isGenerating = false) := by
  refine ⟨?_, ?_, ?_⟩
  · intro h outcome r
    simp [generateMetaphor, generateMetaphorStart, h]
  · intro h outcome r
    unfold generateMetaphor generateMetaphorStart
    by_cases hc : mapHas s.cache topic = true
    · simp [h, hc]
    · simp [h, hc, generateMetaphorFinish]
  · intro outcome r
    rfl

/-- Witness for claim C11: a generator that is busy and has "ocean" in its cache
rejects a request for "ocean" and keeps its cache and flag. -/
theorem generateMetaphor_rejects_while_generating_witness :
    generateMetaphor "ocean" (FetchOutcome.success "x") ⟨0, 0, 0⟩
      { isGenerating := true, cache := [("ocean", "waves of light")], maxCacheSize := 50 } =
      (Except.error "Already generating a metaphor",
       { isGenerating := true, cache := [("ocean", "waves of light")], maxCacheSize := 50 }) ∧
    (generateMetaphor "ocean" FetchOutcome.networkFailure ⟨0, 0, 0⟩
      MetaphorGenerator.construct).2.isGenerating = false :=
  ⟨((generateMetaphor_rejects_while_generating
      { isGenerating := true, cache := [("ocean", "waves of light")], maxCacheSize := 50 }
      "ocean").1 rfl (FetchOutcome.success "x") ⟨0, 0, 0⟩).2,
   ((generateMetaphor_rejects_while_generating MetaphorGenerator.construct "ocean").2.1 rfl
      FetchOutcome.networkFailure ⟨0, 0, 0⟩).2⟩

/-! ## Server: claims C12 to C15 -/

theorem respond_strings (status : Nat) (k1 v1 k2 v2 : String) :
    respond status [(k1, JsonValue.str v1), (k2, JsonValue.str v2)] =
      { status := status, body := [(k1, JsonValue.str v1), (k2, JsonValue.str v2)] } := by
  simp [respond]

theorem tryTextProvider_usable (name : TextProvider) (service : TextService) (p : TextProgress)
    (text : String) (h : service.usable = some text) (hp : isBlank p.metaphor = true) :
    tryTextProvider name service p = { metaphor := some text, calls := p.calls ++ [name] } ∧
    isBlank (some text) = false := by
  obtain ⟨c, o⟩ := service
  unfold TextService.usable at h
  cases c with
  | false => simp at h
  | true =>
    cases o with
    | error e => simp at h
    | ok t =>
      by_cases ht : t = ""
      · simp [ht] at h
      · simp [ht] at h
        subst h
        refine ⟨?_, ?_⟩
        · simp [tryTextProvider, hp]
        · simp [isBlank, ht]

theorem tryTextProvider_unusable (name : TextProvider) (service : TextService)
    (p : TextProgress) (h : service.usable = none) (hp : isBlank p.metaphor = true) :
    isBlank (tryTextProvider name service p).metaphor = true ∧
    ((tryTextProvider name service p).calls = p.calls ∨
     (tryTextProvider name service p).calls = p.calls ++ [name]) := by
  obtain ⟨c, o⟩ := service
  unfold TextService.usable at h
  cases c with
  | false => simp [tryTextProvider, hp]
  | true =>
    cases o with
    | error e => simp [tryTextProvider, hp]
    | ok t =>
      by_cases ht : t = ""
      · subst ht
        have hb : isBlank (some "") = true := rfl
        simp [tryTextProvider, hp, hb]
      · simp [ht] at h

theorem tryTextProvider_done (name : TextProvider) (service : TextService) (p : TextProgress)
    (hp : isBlank p.metaphor = false) : tryTextProvider name service p = p := by
  simp [tryTextProvider, hp]

/-- Claim C12.  For a non-empty topic and any three providers, each configured
or not and each throwing or returning a string, `POST /metaphor` answers with
status 200 and the body `{metaphor, topic}`, where `metaphor` is the string of
the first provider in the order Hugging Face, Cohere, OpenAI that is configured
and returns a non-empty string, or the rule-based fallback for the topic if
there is none; the winner is called and no provider after it is. -/
theorem postMetaphor_first_usable (env : TextEnv) (topic : String) (metaphor : Option String)
    (r1 r2 : ℚ) (htopic : topic ≠ "") :
    (postMetaphor env ⟨some topic, metaphor⟩ r1 r2).1 =
      { status := 200,
        body := [("metaphor", JsonValue.str
                    (match firstUsable env.services with
                     | some winner => winner.2
                     | none => generateRuleBasedMetaphor topic r1 r2)),
                 ("topic", JsonValue.str topic)] } ∧
    (∀ winner, firstUsable env.services = some winner →
      winner.1 ∈ (postMetaphor env ⟨some topic, metaphor⟩ r1 r2).2 ∧
      ∀ called ∈ (postMetaphor env ⟨some topic, metaphor⟩ r1 r2).2,
        called.rank ≤ winner.1.rank) := by
  have hb : isBlank (some topic) = false := by simp [isBlank, htopic]
  have h0 : isBlank ({ metaphor := none, calls := [] } : TextProgress).metaphor = true := rfl
  unfold postMetaphor
  simp only [hb, Bool.false_eq_true, if_false, Option.getD_some, respond_strings,
    TextEnv.services, firstUsable]
  cases u1 : env.huggingFace.usable with
  | some t1 =>
    obtain ⟨e1, b1⟩ := tryTextProvider_usable .huggingFace env.huggingFace _ t1 u1 h0
    rw [e1, tryTextProvider_done .cohere env.cohere _ b1,
      tryTextProvider_done .openAI env.openAI _ b1]
    simp [b1, TextProvider.rank]
  | none =>
    obtain ⟨b1, c1⟩ := tryTextProvider_unusable .huggingFace env.huggingFace _ u1 h0
    cases u2 : env.cohere.usable with
    | some t2 =>
      obtain ⟨e2, b2⟩ := tryTextProvider_usable .cohere env.cohere _ t2 u2 b1
      rw [e2, tryTextProvider_done .openAI env.openAI _ b2]
      rcases c1 with c1 | c1 <;> simp [b2, c1, TextProvider.rank]
    | none =>
      obtain ⟨b2, c2⟩ := tryTextProvider_unusable .cohere env.cohere _ u2 b1
      cases u3 : env.openAI.usable with
      | some t3 =>
        obtain ⟨e3, b3⟩ := tryTextProvider_usable .openAI env.openAI _ t3 u3 b2
        rw [e3]
        rcases c1 with c1 | c1 <;> rcases c2 with c2 | c2 <;>
          simp [b3, c1, c2, TextProvider.rank]
      | none =>
        obtain ⟨b3, -⟩ := tryTextProvider_unusable .openAI env.openAI _ u3 b2
        simp [b3]

/-- Witness for claim C12: Hugging Face is not configured, Cohere returns the
empty string and OpenAI returns a metaphor, which is the one sent. -/
theorem postMetaphor_first_usable_witness :
    "ocean" ≠ "" ∧
    (postMetaphor
      { huggingFace := { configured := false, outcome := Except.ok "unused" },
        cohere := { configured := true, outcome := Except.ok "" },
        openAI := { configured := true, outcome := Except.ok "waves of light" } }
      ⟨some "ocean", none⟩ 0 0).1 =
      { status := 200,
        body := [("metaphor", JsonValue.str "waves of light"),
                 ("topic", JsonValue.str "ocean")] } :=
  ⟨by decide,
   (postMetaphor_first_usable
      { huggingFace := { configured := false, outcome := Except.ok "unused" },
        cohere := { configured := true, outcome := Except.ok "" },
        openAI := { configured := true, outcome := Except.ok "waves of light" } }
      "ocean" none 0 0 (by decide)).1⟩

/-- Claim C13.  When the request body has no topic, absent or the empty string,
both `POST /metaphor` and `POST /generate-video` answer with status 400 and the
body `{error: 'Topic is required'}`, and no provider is called. -/
theorem missing_topic_rejected (env : TextEnv) (videoEnv : VideoEnv) (body : RequestBody)
    (r1 r2 : ℚ) (h : body.topic = none ∨ body.topic = some "") :
    postMetaphor env body r1 r2 =
      ({ status := 400, body := [("error", JsonValue.str "Topic is required")] }, []) ∧
    postGenerateVideo videoEnv body =
      ({ status := 400, body := [("error", JsonValue.str "Topic is required")] }, []) := by
  have hb : isBlank body.topic = true := by
    rcases h with h | h <;> rw [h] <;> rfl
  have hr : respond 400 [("error", JsonValue.str "Topic is required")] =
      { status := 400, body := [("error", JsonValue.str "Topic is required")] } := by
    simp [respond]
  unfold postMetaphor postGenerateVideo
  simp only [hb, if_true, hr, and_self]

/-- Witness for claim C13: a body with a metaphor but no topic, with every
provider configured and working. -/
theorem missing_topic_rejected_witness :
    postMetaphor
      { huggingFace := { configured := true, outcome := Except.ok "a" },
        cohere := { configured := true, outcome := Except.ok "b" },
        openAI := { configured := true, outcome := Except.ok "c" } }
      ⟨none, some "a metaphor"⟩ 0 0 =
      ({ status := 400, body := [("error", JsonValue.str "Topic is required")] }, []) ∧
    postGenerateVideo
      { runway := { configured := true, api := Except.ok (JsonValue.str "u", JsonValue.num 1) },
        pika := { configured := true, api := Except.ok (JsonValue.str "v", JsonValue.num 2) },
        huggingFace := { configured := true, api := Except.ok (JsonValue.str "w", JsonValue.null) } }
      ⟨none, some "a metaphor"⟩ =
      ({ status := 400, body := [("error", JsonValue.str "Topic is required")] }, []) :=
  missing_topic_rejected _ _ ⟨none, some "a metaphor"⟩ 0 0 (Or.inl rfl)

/-- For a draw in `[0, 1)` the index `Math.floor(r * length)` is in range. -/
theorem floor_draw_in_range (len : Nat) (r : ℚ) (hlen : 0 < len) (hr : IsDraw r) :
    0 ≤ Rat.floor (r * (len : ℚ)) ∧ Rat.floor (r * (len : ℚ)) < (len : Int) := by
  obtain ⟨h0, h1⟩ := hr
  have hpos : (0 : ℚ) < (len : ℚ) := by exact_mod_cast hlen
  refine ⟨?_, ?_⟩
  · rw [Rat.le_floor]
    simpa using mul_nonneg h0 hpos.le
  · have h : ⌊r * (len : ℚ)⌋ < (len : Int) := by
      rw [Int.floor_lt]
      have := mul_lt_mul_of_pos_right h1 hpos
      simpa using this
    exact h

/-- A pick with a draw in `[0, 1)` from a non-empty array is an entry of it. -/
theorem pick_mem (arr : List String) (r : ℚ) (harr : arr ≠ []) (hr : IsDraw r) :
    pick arr r ∈ arr := by
  have hlen : 0 < arr.length := List.length_pos.mpr harr
  obtain ⟨h0, h1⟩ := floor_draw_in_range arr.length r hlen hr
  unfold pick
  simp only [h0, if_true]
  have hi : (Rat.floor (r * (arr.length : ℚ))).toNat < arr.length := by omega
  rw [List.getD_eq_getElem _ _ hi]
  exact List.getElem_mem _

/-- Claim C14.  For every topic and all draws in `[0, 1)`, the server's fallback
is `<connector> <topic>, where <visual> transforms into living poetry of the
subconscious mind.` with entries of its two 8-entry tables, the client's
fallback is `<connector> <topic>, where <visual> <ending>.` with entries of its
tables of 10, 10 and 8 entries, both contain the topic, and the index
`Math.floor(r * length)` is in range for every non-empty table. -/
theorem fallback_metaphor_well_formed (topic : String) (r1 r2 : ℚ) (r : Draws)
    (h1 : IsDraw r1) (h2 : IsDraw r2)
    (hr : IsDraw r.first ∧ IsDraw r.second ∧ IsDraw r.third) :
    (Server.dreamElements.length = 8 ∧ Server.visualElements.length = 8 ∧
      MetaphorGenerator.dreamElements.length = 10 ∧
      MetaphorGenerator.visualElements.length = 10 ∧ MetaphorGenerator.endings.length = 8) ∧
    (∃ connector ∈ Server.dreamElements, ∃ visual ∈ Server.visualElements,
      generateRuleBasedMetaphor topic r1 r2 =
        connector ++ " " ++ topic ++ ", where " ++ visual ++
          " transforms into living poetry of the subconscious mind.") ∧
    (∃ before after, generateRuleBasedMetaphor topic r1 r2 = before ++ topic ++ after) ∧
    (∃ connector ∈ MetaphorGenerator.dreamElements,
      ∃ visual ∈ MetaphorGenerator.visualElements, ∃ ending ∈ MetaphorGenerator.endings,
      clientSideMetaphor topic r =
        connector ++ " " ++ topic ++ ", where " ++ visual ++ " " ++ ending ++ ".") ∧
    (∃ before after, clientSideMetaphor topic r = before ++ topic ++ after) ∧
    (∀ (s : MetaphorGenerator), (generateClientSideMetaphor topic r s).1 =
      clientSideMetaphor topic r) ∧
    (∀ (len : Nat) (x : ℚ), 0 < len → IsDraw x →
      0 ≤ Rat.floor (x * (len : ℚ)) ∧ Rat.floor (x * (len : ℚ)) < (len : Int)) := by
  refine ⟨by decide, ?_, ?_, ?_, ?_, fun _ => rfl, floor_draw_in_range⟩
  · exact ⟨_, pick_mem _ r1 (by decide) h1, _, pick_mem _ r2 (by decide) h2, rfl⟩
  · refine ⟨pick Server.dreamElements r1 ++ " ", ", where " ++ pick Server.visualElements r2 ++
      " transforms into living poetry of the subconscious mind.", ?_⟩
    simp only [generateRuleBasedMetaphor, String.append_assoc]
  · exact ⟨_, pick_mem _ r.first (by decide) hr.1, _, pick_mem _ r.second (by decide) hr.2.1,
      _, pick_mem _ r.third (by decide) hr.2.2, rfl⟩
  · refine ⟨pick MetaphorGenerator.dreamElements r.first ++ " ",
      ", where " ++ pick MetaphorGenerator.visualElements r.second ++ " " ++
        pick MetaphorGenerator.endings r.third ++ ".", ?_⟩
    simp only [clientSideMetaphor, String.append_assoc]

/-- Witness for claim C14: the topic "ocean" with the draws 0.5 and 0.99 on the
server and 0, 0.95 and 0.7 on the client. -/
theorem fallback_metaphor_well_formed_witness :
    IsDraw 0.5 ∧ IsDraw 0.99 ∧
    generateRuleBasedMetaphor "ocean" 0.5 0.99 =
      "painting with light from ocean, where radiant fragments transforms into living poetry of the subconscious mind." ∧
    clientSideMetaphor "ocean" ⟨0, 0.95, 0.7⟩ =
      "floating through clouds of ocean, where prismatic reflections creating bridges between worlds." ∧
    (∃ before after, generateRuleBasedMetaphor "ocean" 0.5 0.99 = before ++ "ocean" ++ after) :=
  ⟨by unfold IsDraw; norm_num, by unfold IsDraw; norm_num, by decide!, by decide!,
   (fallback_metaphor_well_formed "ocean" 0.5 0.99 ⟨0, 0.95, 0.7⟩
      (by unfold IsDraw; norm_num) (by unfold IsDraw; norm_num)
      (by unfold IsDraw; norm_num)).2.2.1⟩

theorem tryVideoProvider_unavailable (name : VideoProvider) (configured : Bool)
    (result : Except String JsonObject) (p : VideoProgress)
    (h : configured = false ∨ ∃ e, result = Except.error e) :
    (tryVideoProvider name configured result p).videoResult = p.videoResult := by
  unfold tryVideoProvider
  rcases h with h | ⟨e, h⟩
  · simp [h]
  · subst h
    split <;> rfl

theorem videoProvider_throws (api : VideoApi) (h : ∃ e, api = Except.error e) :
    (∃ e, generateRunwayVideo api = Except.error e) ∧
    (∃ e, generatePikaVideo api = Except.error e) ∧
    (∃ e, generateStableVideo api = Except.error e) := by
  obtain ⟨e, rfl⟩ := h
  exact ⟨⟨e, rfl⟩, ⟨e, rfl⟩, ⟨e, rfl⟩⟩

/-- Claim C15.  For a non-empty topic, when each video provider is unconfigured
or throws, `POST /generate-video` answers with status 200 and the body
`{status: 'fallback', message, videoUrl: null, prompt, topic}`, where `topic` is
the topic of the request and `prompt` is the metaphor of the request when it is
non-empty and the default prompt built from the topic otherwise. -/
theorem video_fallback (env : VideoEnv) (topic : String) (metaphor : Option String)
    (htopic : topic ≠ "")
    (h1 : env.runway.configured = false ∨ ∃ e, env.runway.api = Except.error e)
    (h2 : env.pika.configured = false ∨ ∃ e, env.pika.api = Except.error e)
    (h3 : env.huggingFace.configured = false ∨ ∃ e, env.huggingFace.api = Except.error e) :
    (postGenerateVideo env ⟨some topic, metaphor⟩).1 =
      { status := 200,
        body := [("status", JsonValue.str "fallback"),
                 ("message",
                  JsonValue.str "AI video generation not available, using 3D visualization"),
                 ("videoUrl", JsonValue.null),
                 ("prompt", JsonValue.str (videoPrompt topic metaphor)),
                 ("topic", JsonValue.str topic)] } ∧
    videoPrompt topic metaphor =
      (match metaphor with
       | some text =>
         if text ≠ "" then text
         else "Dreamy, ethereal visualization of " ++ topic ++
           ", floating particles, soft lighting, cinematic, 4K"
       | none => "Dreamy, ethereal visualization of " ++ topic ++
           ", floating particles, soft lighting, cinematic, 4K") := by
  have hb : isBlank (some topic) = false := by simp [isBlank, htopic]
  have k1 : env.runway.configured = false ∨
      ∃ e, generateRunwayVideo env.runway.api = Except.error e :=
    h1.imp id (fun h => (videoProvider_throws _ h).1)
  have k2 : env.pika.configured = false ∨
      ∃ e, generatePikaVideo env.pika.api = Except.error e :=
    h2.imp id (fun h => (videoProvider_throws _ h).2.1)
  have k3 : env.huggingFace.configured = false ∨
      ∃ e, generateStableVideo env.huggingFace.api = Except.error e :=
    h3.imp id (fun h => (videoProvider_throws _ h).2.2)
  refine ⟨?_, ?_⟩
  · unfold postGenerateVideo
    simp only [hb, Bool.false_eq_true, if_false, Option.getD_some]
    rw [tryVideoProvider_unavailable _ _ _ _ k3, tryVideoProvider_unavailable _ _ _ _ k2,
      tryVideoProvider_unavailable _ _ _ _ k1]
    simp [videoBody, JsonObject.set, respond]
  · unfold videoPrompt
    cases metaphor with
    | none => rfl
    | some text =>
      by_cases ht : text = ""
      · simp [isBlank, ht]
      · simp [isBlank, ht]

/-- Witness for claim C15: Runway throws, Pika is not configured, Stable Video
throws, and the request carries a metaphor. -/
theorem video_fallback_witness :
    "ocean" ≠ "" ∧
    (postGenerateVideo
      { runway := { configured := true, api := Except.error "Runway ML API error: 500" },
        pika := { configured := false, api := Except.ok (JsonValue.str "v", JsonValue.num 2) },
        huggingFace := { configured := true, api := Except.error "fetch failed" } }
      ⟨some "ocean", some "waves of light"⟩).1 =
      { status := 200,
        body := [("status", JsonValue.str "fallback"),
                 ("message",
                  JsonValue.str "AI video generation not available, using 3D visualization"),
                 ("videoUrl", JsonValue.null),
                 ("prompt", JsonValue.str "waves of light"),
                 ("topic", JsonValue.str "ocean")] } :=
  ⟨by decide,
   (video_fallback
      { runway := { configured := true, api := Except.error "Runway ML API error: 500" },
        pika := { configured := false, api := Except.ok (JsonValue.str "v", JsonValue.num 2) },
        huggingFace := { configured := true, api := Except.error "fetch failed" } }
      "ocean" (some "waves of light") (by decide) (Or.inr ⟨_, rfl⟩) (Or.inl rfl)
      (Or.inr ⟨_, rfl⟩)).1⟩

/-- The status of `POST /generate-video` is 400 without a topic and 200 with one. -/
theorem postGenerateVideo_status (env : VideoEnv) (body : RequestBody) :
    (postGenerateVideo env body).1.status = if isBlank body.topic then 400 else 200 := by
  unfold postGenerateVideo
  split <;> rfl

/-! ## Composer: claims C16 to C20 -/

theorem recolorLoop_spec (dominant : JSValue) (colors : List Sample) (n : Nat) :
    ((List.range n).foldl
      (fun colors j =>
        store (store (store colors (j * 3) (.tinted dominant 0)) (j * 3 + 1) (.tinted dominant 1))
          (j * 3 + 2) (.tinted dominant 2)) colors).length = colors.length ∧
    ∀ i, i < colors.length → i < 3 * n →
      ((List.range n).foldl
        (fun colors j =>
          store (store (store colors (j * 3) (.tinted dominant 0)) (j * 3 + 1)
            (.tinted dominant 1)) (j * 3 + 2) (.tinted dominant 2)) colors)[i]? =
        some (Sample.tinted dominant (i % 3)) := by
  induction n with
  | zero => exact ⟨rfl, fun i _ h => absurd h (by omega)⟩
  | succ n ih =>
    obtain ⟨hl, hget⟩ := ih
    rw [List.range_succ, List.foldl_append]
    simp only [List.foldl_cons, List.foldl_nil]
    simp only [store] at hl hget ⊢
    refine ⟨by simp only [List.length_set]; exact hl, ?_⟩
    intro i hi h3
    by_cases c2 : n * 3 + 2 = i
    · rw [List.getElem?_set, if_pos c2, if_pos (by simp only [List.length_set]; omega)]
      have : i % 3 = 2 := by omega
      rw [this]
    · rw [List.getElem?_set_ne c2]
      by_cases c1 : n * 3 + 1 = i
      · rw [List.getElem?_set, if_pos c1, if_pos (by simp only [List.length_set]; omega)]
        have : i % 3 = 1 := by omega
        rw [this]
      · rw [List.getElem?_set_ne c1]
        by_cases c0 : n * 3 = i
        · rw [List.getElem?_set, if_pos c0, if_pos (by omega)]
          have : i % 3 = 0 := by omega
          rw [this]
        · rw [List.getElem?_set_ne c0]
          exact hget i hi (by omega)

/-- After `recolor` every entry of the colour buffer is a channel of a jittered
copy of the dominant colour. -/
theorem recolor_all_tinted (dominant : JSValue) (colors : List Sample) :
    ∀ x ∈ recolor dominant colors, ∃ k, x = Sample.tinted dominant k := by
  intro x hx
  obtain ⟨i, hi⟩ := List.getElem?_of_mem hx
  have hlen := recolor_length dominant colors
  have hlt : i < colors.length := by
    rw [← hlen]
    by_contra hcon
    rw [List.getElem?_eq_none (by omega)] at hi
    exact absurd hi (by simp)
  have h := (recolorLoop_spec dominant colors ((colors.length + 2) / 3)).2 i hlt (by omega)
  unfold recolor at hi
  rw [h] at hi
  exact ⟨i % 3, (Option.some.inj hi).symm⟩

/-- Counterexample to claim C16 as stated.  The metaphor "golden ocean" parses
to two elements; the second, `ocean`, carries the colour 0x006994, which is not
the default blue, but the first, `golden`, has a `value` and no `color`, so the
dominant colour is the default 0x64b5f6. -/
theorem golden_ocean_dominant_is_default :
    (parseMetaphor "golden ocean").map (fun e => e.get "color") =
      [none, some (JSValue.num 0x006994)] ∧
    JSValue.num 0x006994 ≠ JSValue.num 0x64b5f6 ∧
    dominantColor (parseMetaphor "golden ocean") = JSValue.num 0x64b5f6 := by
  refine ⟨?_, ?_, ?_⟩ <;> decide!

/-- Claim C16, as the code has it.  `updateParticleColors` rewrites every entry
of the colour buffer with a jittered copy of the dominant colour and leaves the
positions alone.  The dominant colour depends on the first element only: it is
that element's `color` when it has a non-zero one, and the default blue
0x64b5f6 when it has none (or when there is no element), whatever colours the
later elements carry. -/
theorem particle_colors_follow_first_element (elements : List Element) (s : DreamVisuals) :
    (∀ p, s.particles = some p →
      ∃ p', (updateParticleColors elements s).particles = some p' ∧
        p'.positions = p.positions ∧ p'.colors.length = p.colors.length ∧
        ∀ x ∈ p'.colors, ∃ k, x = Sample.tinted (dominantColor elements) k) ∧
    (∀ e rest, elements = e :: rest → dominantColor elements = dominantColor [e]) ∧
    (∀ e rest c, elements = e :: rest → e.get "color" = some (JSValue.num c) → c ≠ 0 →
      dominantColor elements = JSValue.num c) ∧
    (∀ e rest, elements = e :: rest → e.get "color" = none →
      dominantColor elements = JSValue.num 0x64b5f6) ∧
    (elements = [] → dominantColor elements = JSValue.num 0x64b5f6) := by
  refine ⟨?_, ?_, ?_, ?_, ?_⟩
  · intro p hp
    refine ⟨{ p with colors := recolor (dominantColor elements) p.colors }, ?_, rfl,
      recolor_length _ _, recolor_all_tinted _ _⟩
    rw [updateParticleColors_particles, hp]
    rfl
  · intro e rest h
    rw [h]
    rfl
  · intro e rest c h hc hne
    rw [h]
    simp [dominantColor, hc, truthy, hne]
  · intro e rest h hc
    rw [h]
    simp [dominantColor, hc]
  · intro h
    rw [h]
    rfl

/-- Witness for claim C16: for "ocean golden" the first element has the colour
0x006994 and that is the dominant colour; for "golden ocean" the first element
has none and the dominant colour is the default. -/
theorem particle_colors_follow_first_element_witness :
    dominantColor (parseMetaphor "ocean golden") = JSValue.num 0x006994 ∧
    dominantColor (parseMetaphor "golden ocean") = JSValue.num 0x64b5f6 :=
  ⟨(particle_colors_follow_first_element (parseMetaphor "ocean golden")
      (DreamVisuals.construct 1)).2.2.1
      [("word", JSValue.str "ocean"), ("type", JSValue.str "fluid"),
       ("movement", JSValue.str "wave"), ("color", JSValue.num 0x006994)]
      [[("word", JSValue.str "golden"), ("type", JSValue.str "color"),
        ("value", JSValue.num 0xffd700)]]
      0x006994 (by decide!) (by decide!) (by norm_num),
   (particle_colors_follow_first_element (parseMetaphor "golden ocean")
      (DreamVisuals.construct 1)).2.2.2.1
      [("word", JSValue.str "golden"), ("type", JSValue.str "color"),
       ("value", JSValue.num 0xffd700)]
      [[("word", JSValue.str "ocean"), ("type", JSValue.str "fluid"),
        ("movement", JSValue.str "wave"), ("color", JSValue.num 0x006994)]]
      (by decide!) (by decide!)⟩

theorem meshForElement_family (element : Element) :
    (meshForElement element).geometry.family =
      tableGeometry (element.get "type") (element.get "shape") := by
  unfold meshForElement tableGeometry
  split
  · rename_i h
    simp only [h, if_true, createOrganicShape]
    by_cases w : JSObject.get element "shape" = some (JSValue.str "wing")
    · simp only [w, if_true]; rfl
    · by_cases l : JSObject.get element "shape" = some (JSValue.str "leaf")
      · simp only [w, l, if_true, if_false]; rfl
      · simp only [w, l, if_false]; rfl
  · rename_i h
    rw [h]
    simp only [createGeometricShape]
    by_cases c : JSObject.get element "shape" = some (JSValue.str "crystal")
    · simp [c, Geometry.family]
    · by_cases k : JSObject.get element "shape" = some (JSValue.str "peak")
      · simp [c, k, Geometry.family]
      · simp [c, k, Geometry.family]
  · rename_i h
    rw [h]
    simp [createFluidShape, Geometry.family]
  · rename_i h
    rw [h]
    simp [createLightSource, Geometry.family]
  · rename_i h
    rw [h]
    simp [createGlowingObject, Geometry.family]
  · rename_i h1 h2 h3 h4 h5
    rw [if_neg (fun h => h1 h), if_neg (fun h => h2 h), if_neg (fun h => h3 h),
      if_neg (fun h => h4 h), if_neg (fun h => h5 h)]
    rfl

theorem meshForElement_default (element : Element)
    (h1 : element.get "type" ≠ some (JSValue.str "organic"))
    (h2 : element.get "type" ≠ some (JSValue.str "geometric"))
    (h3 : element.get "type" ≠ some (JSValue.str "fluid"))
    (h4 : element.get "type" ≠ some (JSValue.str "light"))
    (h5 : element.get "type" ≠ some (JSValue.str "glow")) :
    meshForElement element = createDefaultDreamObject := by
  unfold meshForElement
  split
  · rename_i h; exact absurd h h1
  · rename_i h; exact absurd h h2
  · rename_i h; exact absurd h h3
  · rename_i h; exact absurd h h4
  · rename_i h; exact absurd h h5
  · rfl

/-- The mesh that `createElementVisual` allocates carries the recipe of
`meshForElement` and the `userData` of the call. -/
theorem createElementVisual_mesh (element : Element) (index : Nat) (s : DreamVisuals) :
    ∃ mesh ∈ (createElementVisual element index s).heap,
      mesh.id = s.heap.length ∧ mesh.geometry = (meshForElement element).geometry ∧
      mesh.material = (meshForElement element).material ∧
      mesh.light = (meshForElement element).light ∧
      mesh.element = element ∧ mesh.slot = index := by
  unfold createElementVisual animateEntrance entranceStep
  simp only
  split
  · simp only [requestAnimationFrame, setScale, List.map_map, List.map_append, List.map_cons,
      List.map_nil, List.mem_append, List.mem_singleton]
    refine ⟨_, Or.inr rfl, ?_⟩
    simp
  · simp only [setScale, List.map_map, List.map_append, List.map_cons,
      List.map_nil, List.mem_append, List.mem_singleton]
    refine ⟨_, Or.inr rfl, ?_⟩
    simp

theorem meshForElement_geometry_congr (element other : Element)
    (ht : other.get "type" = element.get "type")
    (hs : other.get "shape" = element.get "shape") :
    (meshForElement other).geometry = (meshForElement element).geometry := by
  unfold meshForElement
  rw [ht]
  split
  · simp only [createOrganicShape, hs]
    split
    · rfl
    · split <;> rfl
  · simp only [createGeometricShape, hs]
  · rfl
  · rfl
  · rfl
  · rfl

/-- Claim C17.  The mesh `createElementVisual` builds for an element has the
geometry class the factory table gives for the element's (type, shape) pair,
and the geometry depends on that pair only.  Fluid elements get the plane
subdivided 10 by 10, light elements the sphere of radius 0.5 with a point-light
child whose intensity is the element's (0.5 if it has none), glow elements the
icosahedron of radius 1; only light elements get a light; and for every other
type, or none, the mesh is the one of `createDefaultDreamObject`, a torus of
colour 0x64b5f6 built without looking at the element. -/
theorem factory_follows_table (element : Element) (index : Nat) (s : DreamVisuals) :
    (∃ mesh ∈ (createElementVisual element index s).heap,
      mesh.id = s.heap.length ∧ mesh.element = element ∧
      mesh.geometry.family = tableGeometry (element.get "type") (element.get "shape") ∧
      mesh.geometry = (meshForElement element).geometry ∧
      mesh.material = (meshForElement element).material ∧
      mesh.light = (meshForElement element).light) ∧
    (∀ other : Element, other.get "type" = element.get "type" →
      other.get "shape" = element.get "shape" →
      (meshForElement other).geometry = (meshForElement element).geometry) ∧
    (element.get "type" = some (JSValue.str "fluid") →
      (meshForElement element).geometry = Geometry.plane 3 3 10 10) ∧
    (element.get "type" = some (JSValue.str "light") →
      (meshForElement element).geometry = Geometry.sphere 0.5 16 16 ∧
      (meshForElement element).light =
        some { color := orDefault (element.get "color") 0xffffff,
               intensity := orDefault (element.get "intensity") 0.5, distance := 20 } ∧
      ∀ q : ℚ, element.get "intensity" = some (JSValue.num q) → q ≠ 0 →
        orDefault (element.get "intensity") 0.5 = JSValue.num q) ∧
    (element.get "type" = some (JSValue.str "glow") →
      (meshForElement element).geometry = Geometry.icosahedron 1 1) ∧
    (element.get "type" ≠ some (JSValue.str "light") → (meshForElement element).light = none) ∧
    (element.get "type" ≠ some (JSValue.str "organic") →
      element.get "type" ≠ some (JSValue.str "geometric") →
      element.get "type" ≠ some (JSValue.str "fluid") →
      element.get "type" ≠ some (JSValue.str "light") →
      element.get "type" ≠ some (JSValue.str "glow") →
      meshForElement element = createDefaultDreamObject) ∧
    createDefaultDreamObject.geometry = Geometry.torus 4 1.5 16 32 ∧
    createDefaultDreamObject.material.color = JSValue.num 0x64b5f6 := by
  refine ⟨?_, ?_, ?_, ?_, ?_, ?_, ?_, rfl, rfl⟩
  · obtain ⟨mesh, hm, h1, h2, h3, h4, h5, -⟩ := createElementVisual_mesh element index s
    exact ⟨mesh, hm, h1, h5, by rw [h2]; exact meshForElement_family element, h2, h3, h4⟩
  · intro other ht hs
    exact meshForElement_geometry_congr element other ht hs
  · intro h
    unfold meshForElement
    rw [h]
    rfl
  · intro h
    refine ⟨?_, ?_, ?_⟩
    · unfold meshForElement
      rw [h]
      rfl
    · unfold meshForElement
      rw [h]
      rfl
    · intro q hq hne
      rw [hq]
      simp [orDefault, truthy, hne]
  · intro h
    unfold meshForElement
    rw [h]
    rfl
  · intro h
    unfold meshForElement
    split
    · unfold createOrganicShape
      split
      · rfl
      · split <;> rfl
    · rfl
    · rfl
    · rename_i h'; exact absurd h' h
    · rfl
    · rfl
  · exact meshForElement_default element

/-- Witness for claim C17: the element of the keyword `fire` gets the small
sphere with a light of intensity 1, the element of `flowers` a sphere, and the
element of `clouds` (type soft) the default torus. -/
theorem factory_follows_table_witness :
    (meshForElement [("word", JSValue.str "fire"), ("type", JSValue.str "light"),
        ("intensity", JSValue.num 1.0), ("color", JSValue.num 0xff4500)]).geometry =
      Geometry.sphere 0.5 16 16 ∧
    meshForElement [("word", JSValue.str "clouds"), ("type", JSValue.str "soft"),
        ("movement", JSValue.str "drift"), ("color", JSValue.num 0xf0f8ff)] =
      createDefaultDreamObject ∧
    (meshForElement [("word", JSValue.str "flowers"), ("type", JSValue.str "organic"),
        ("shape", JSValue.str "flower"), ("count", JSValue.num 15),
        ("color", JSValue.num 0xff69b4)]).geometry.family = GeometryFamily.sphere :=
  ⟨((factory_follows_table [("word", JSValue.str "fire"), ("type", JSValue.str "light"),
        ("intensity", JSValue.num 1.0), ("color", JSValue.num 0xff4500)] 0
      (DreamVisuals.construct 1)).2.2.2.1 (by decide!)).1,
   (factory_follows_table [("word", JSValue.str "clouds"), ("type", JSValue.str "soft"),
        ("movement", JSValue.str "drift"), ("color", JSValue.num 0xf0f8ff)] 0
      (DreamVisuals.construct 1)).2.2.2.2.2.2.1
      (by decide!) (by decide!) (by decide!) (by decide!) (by decide!),
   by decide!⟩

/-- Claim C18.  For every index and draws `r1`, `r2` in `[0, 1)`,
`getRandomPosition` returns the point `(cos a * rho, h, sin a * rho)` with the
angle `a = (index / 5) * 2π` fixed by the index alone, the radius
`rho = 3 + 5 * r1` in `[3, 8]` and the height `h = 4 * (r2 - 0.5)` in `[-2, 2]`;
the horizontal distance of the point from the vertical axis is `rho`. -/
theorem getRandomPosition_on_ring (index : ℕ) (r1 r2 : ℝ)
    (h1 : 0 ≤ r1 ∧ r1 < 1) (h2 : 0 ≤ r2 ∧ r2 < 1) :
    getRandomPosition index r1 r2 =
      (Real.cos (((index : ℝ) / 5) * (2 * Real.pi)) * (3 + 5 * r1), 4 * (r2 - 0.5),
       Real.sin (((index : ℝ) / 5) * (2 * Real.pi)) * (3 + 5 * r1)) ∧
    (3 ≤ 3 + 5 * r1 ∧ 3 + 5 * r1 ≤ 8) ∧
    (-2 ≤ 4 * (r2 - 0.5) ∧ 4 * (r2 - 0.5) ≤ 2) ∧
    Real.sqrt ((getRandomPosition index r1 r2).1 ^ 2 + (getRandomPosition index r1 r2).2.2 ^ 2) =
      3 + 5 * r1 := by
  obtain ⟨h1a, h1b⟩ := h1
  obtain ⟨h2a, h2b⟩ := h2
  refine ⟨?_, ⟨by linarith, by linarith⟩, ⟨by linarith, by linarith⟩, ?_⟩
  · unfold getRandomPosition
    simp only
    have e1 : (index : ℝ) / 5 * Real.pi * 2 = (index : ℝ) / 5 * (2 * Real.pi) := by ring
    have e2 : 3 + r1 * 5 = 3 + 5 * r1 := by ring
    have e3 : (r2 - 0.5) * 4 = 4 * (r2 - 0.5) := by ring
    rw [e1, e2, e3]
  · unfold getRandomPosition
    simp only
    have hsq : (Real.cos ((index : ℝ) / 5 * Real.pi * 2) * (3 + r1 * 5)) ^ 2 +
        (Real.sin ((index : ℝ) / 5 * Real.pi * 2) * (3 + r1 * 5)) ^ 2 = (3 + 5 * r1) ^ 2 := by
      have := Real.cos_sq_add_sin_sq ((index : ℝ) / 5 * Real.pi * 2)
      calc (Real.cos ((index : ℝ) / 5 * Real.pi * 2) * (3 + r1 * 5)) ^ 2 +
            (Real.sin ((index : ℝ) / 5 * Real.pi * 2) * (3 + r1 * 5)) ^ 2
          = (Real.cos ((index : ℝ) / 5 * Real.pi * 2) ^ 2 +
              Real.sin ((index : ℝ) / 5 * Real.pi * 2) ^ 2) * (3 + 5 * r1) ^ 2 := by ring
        _ = (3 + 5 * r1) ^ 2 := by rw [this, one_mul]
    rw [hsq]
    exact Real.sqrt_sq (by linarith)

/-- Witness for claim C18: index 7 with the draws 0.25 and 0.5 lies at distance
4.25 from the axis. -/
theorem getRandomPosition_on_ring_witness :
    ((0 : ℝ) ≤ 0.25 ∧ (0.25 : ℝ) < 1) ∧
    Real.sqrt ((getRandomPosition 7 0.25 0.5).1 ^ 2 + (getRandomPosition 7 0.25 0.5).2.2 ^ 2) =
      3 + 5 * 0.25 :=
  ⟨by norm_num,
   (getRandomPosition_on_ring 7 0.25 0.5 (by norm_num) (by norm_num)).2.2.2⟩

theorem lerp_toward_one (scale : ℚ) : lerp scale 1 0.05 = scale + 0.05 * (1 - scale) := by
  unfold lerp
  ring

theorem entranceScale_succ (n : Nat) :
    entranceScale (n + 1) = lerp (entranceScale n) 1 0.05 := by
  unfold entranceScale
  rw [Function.iterate_succ_apply']

theorem entranceScale_closed (n : Nat) : entranceScale n = 1 - 0.9 * 0.95 ^ n := by
  induction n with
  | zero =>
    unfold entranceScale
    norm_num
  | succ n ih =>
    rw [entranceScale_succ, ih, lerp_toward_one, pow_succ]
    ring

theorem entranceScale_gap (n : Nat) : |entranceScale n - 1| = 0.9 * 0.95 ^ n := by
  rw [entranceScale_closed]
  have h : (0 : ℚ) ≤ 0.9 * 0.95 ^ n := by positivity
  rw [show (1 - 0.9 * 0.95 ^ n - 1 : ℚ) = -(0.9 * 0.95 ^ n) by ring, abs_neg, abs_of_nonneg h]

theorem entranceScale_far_iff (n : Nat) : |entranceScale n - 1| > 0.01 ↔ n < 88 := by
  rw [entranceScale_gap]
  have h0 : (0 : ℚ) ≤ 0.95 := by norm_num
  have h1 : (0.95 : ℚ) ≤ 1 := by norm_num
  constructor
  · intro h
    by_contra hn
    have hle : (0.95 : ℚ) ^ n ≤ 0.95 ^ 88 := pow_le_pow_of_le_one h0 h1 (by omega)
    have h88 : (0.9 : ℚ) * 0.95 ^ 88 ≤ 0.01 := by norm_num
    have : (0.9 : ℚ) * 0.95 ^ n ≤ 0.9 * 0.95 ^ 88 := by
      apply mul_le_mul_of_nonneg_left hle
      norm_num
    linarith
  · intro hn
    have hle : (0.95 : ℚ) ^ 87 ≤ 0.95 ^ n := pow_le_pow_of_le_one h0 h1 (by omega)
    have h87 : (0.9 : ℚ) * 0.95 ^ 87 > 0.01 := by norm_num
    have : (0.9 : ℚ) * 0.95 ^ 87 ≤ 0.9 * 0.95 ^ n := by
      apply mul_le_mul_of_nonneg_left hle
      norm_num
    exact lt_of_lt_of_le h87 this

theorem scaleOf_setScale (id : Nat) (v : ℚ) (s : DreamVisuals)
    (h : ∃ m ∈ s.heap, m.id = id) : scaleOf id (setScale id v s) = v := by
  unfold scaleOf setScale
  simp only
  obtain ⟨m, hm, hid⟩ := h
  generalize s.heap = heap at hm
  induction heap with
  | nil => simp at hm
  | cons a heap ih =>
    by_cases ha : a.id = id
    · simp [List.find?, ha]
    · have hm' : m ∈ heap := by
        rcases List.mem_cons.mp hm with rfl | h'
        · exact absurd hid ha
        · exact h'
      have hb : (a.id == id) = false := by simpa using ha
      simp only [List.map_cons, ha, if_false, List.find?, hb]
      exact ih hm'

theorem setScale_present (id : Nat) (v : ℚ) (s : DreamVisuals)
    (h : ∃ m ∈ s.heap, m.id = id) : ∃ m ∈ (setScale id v s).heap, m.id = id := by
  obtain ⟨m, hm, hid⟩ := h
  unfold setScale
  simp only [List.mem_map]
  by_cases hc : m.id = id
  · exact ⟨{ m with scale := v }, ⟨m, hm, by simp [hc]⟩, hid⟩
  · exact absurd hid hc

/-- One run of the entrance closure on a mesh whose scale is the `n`-th iterate:
the scale becomes the next iterate, and a frame is requested exactly while that
one is further than 0.01 from 1. -/
theorem entranceStep_iterate (id : Nat) (s : DreamVisuals) (n : Nat)
    (h : ∃ m ∈ s.heap, m.id = id) (hs : scaleOf id s = entranceScale n) :
    scaleOf id (entranceStep id s) = entranceScale (n + 1) ∧
    (entranceStep id s).frames =
      (if n + 1 < 88 then s.frames ++ [(s.nextHandle, FrameCallback.entrance id)]
       else s.frames) := by
  have hfar := entranceScale_far_iff (n + 1)
  rw [entranceScale_succ] at hfar
  unfold entranceStep
  simp only [hs]
  by_cases hn : n + 1 < 88
  · have hgt : |lerp (entranceScale n) 1 0.05 - 1| > 0.01 := hfar.mpr hn
    simp only [hgt, if_true, hn]
    refine ⟨?_, ?_⟩
    · have := scaleOf_setScale id (lerp (entranceScale n) 1 0.05) s h
      rw [entranceScale_succ]
      simpa [requestAnimationFrame, scaleOf, setScale] using this
    · simp [requestAnimationFrame, setScale]
  · have hle : ¬ |lerp (entranceScale n) 1 0.05 - 1| > 0.01 := fun hgt => hn (hfar.mp hgt)
    simp only [hle, if_false, hn]
    refine ⟨?_, ?_⟩
    · rw [entranceScale_succ]
      exact scaleOf_setScale id _ s h
    · simp [setScale]

/-- Claim C19.  One step of the entrance animation replaces the scale `s` by
`s + 0.05 * (1 - s)`, which for `s < 1` is larger than `s` and still below 1.
Started from 0.1, the scale after `n` steps is `1 - 0.9 * 0.95 ^ n`; it is
further than 0.01 from 1 exactly for `n < 88`.  On a mesh of the heap,
`animateEntrance` makes the first step at once and requests a frame, and each
later run of the closure makes the next step and requests a frame exactly when
fewer than 88 steps have been made: the 88th step requests none. -/
theorem entrance_animation_settles (id : Nat) (s : DreamVisuals)
    (h : ∃ m ∈ s.heap, m.id = id) :
    (∀ scale : ℚ, scale < 1 →
      lerp scale 1 0.05 = scale + 0.05 * (1 - scale) ∧
      scale < lerp scale 1 0.05 ∧ lerp scale 1 0.05 < 1) ∧
    (∀ n, entranceScale n = 1 - 0.9 * 0.95 ^ n ∧
      entranceScale n < entranceScale (n + 1) ∧ entranceScale n < 1) ∧
    (∀ n, |entranceScale n - 1| > 0.01 ↔ n < 88) ∧
    (scaleOf id (animateEntrance id s) = entranceScale 1 ∧
      (animateEntrance id s).frames =
        s.frames ++ [(s.nextHandle, FrameCallback.entrance id)]) ∧
    (∀ n, scaleOf id s = entranceScale n →
      scaleOf id (entranceStep id s) = entranceScale (n + 1) ∧
      (entranceStep id s).frames =
        (if n + 1 < 88 then s.frames ++ [(s.nextHandle, FrameCallback.entrance id)]
         else s.frames)) := by
  have hstep : ∀ scale : ℚ, scale < 1 →
      lerp scale 1 0.05 = scale + 0.05 * (1 - scale) ∧
      scale < lerp scale 1 0.05 ∧ lerp scale 1 0.05 < 1 := by
    intro scale hlt
    rw [lerp_toward_one]
    refine ⟨rfl, ?_, ?_⟩
    · nlinarith
    · nlinarith
  have hbelow : ∀ n, entranceScale n < 1 := by
    intro n
    rw [entranceScale_closed]
    have : (0 : ℚ) < 0.9 * 0.95 ^ n := by positivity
    linarith
  refine ⟨hstep, ?_, entranceScale_far_iff, ?_, ?_⟩
  · intro n
    refine ⟨entranceScale_closed n, ?_, hbelow n⟩
    rw [entranceScale_succ]
    exact (hstep _ (hbelow n)).2.1
  · have h0 : scaleOf id (setScale id 0.1 s) = entranceScale 0 := by
      rw [scaleOf_setScale id 0.1 s h]
      rfl
    have := entranceStep_iterate id (setScale id 0.1 s) 0 (setScale_present id 0.1 s h) h0
    unfold animateEntrance
    simp only
    refine ⟨this.1, ?_⟩
    rw [this.2]
    rfl
  · intro n hs
    exact entranceStep_iterate id s n h hs

/-- Witness for claim C19: the mesh created for "ocean" still has its entrance
frame queued after 86 animation frames and no longer after 87, when its scale
is the 88th iterate. -/
theorem entrance_animation_settles_witness :
    (((animationFrame (fun _ => 1))^[86]
      (elapse 0 (generateVisualsFromMetaphor "ocean" (DreamVisuals.construct 1000)))).frames.map
        Prod.snd = [FrameCallback.render, FrameCallback.entrance 0]) ∧
    (((animationFrame (fun _ => 1))^[87]
      (elapse 0 (generateVisualsFromMetaphor "ocean" (DreamVisuals.construct 1000)))).frames.map
        Prod.snd = [FrameCallback.render]) ∧
    scaleOf 0 ((animationFrame (fun _ => 1))^[87]
      (elapse 0 (generateVisualsFromMetaphor "ocean" (DreamVisuals.construct 1000)))) =
      entranceScale 88 ∧
    |entranceScale 88 - 1| ≤ 0.01 ∧
    scaleOf 0 (animateEntrance 0
      (elapse 0 (generateVisualsFromMetaphor "ocean" (DreamVisuals.construct 1000)))) =
      entranceScale 1 :=
  ⟨by decide!, by decide!, by decide!, by decide!,
   (entrance_animation_settles 0
      (elapse 0 (generateVisualsFromMetaphor "ocean" (DreamVisuals.construct 1000)))
      (by decide!)).2.2.2.1.1⟩

theorem SceneKept.scene_refl (s : DreamVisuals) : SceneKept s s := ⟨rfl, rfl, rfl, rfl⟩

theorem SceneKept.scene_trans {a b c : DreamVisuals} (h1 : SceneKept a b) (h2 : SceneKept b c) :
    SceneKept a c :=
  ⟨h2.1.trans h1.1, h2.2.1.trans h1.2.1, h2.2.2.1.trans h1.2.2.1, h2.2.2.2.trans h1.2.2.2⟩

theorem SceneKept.scene_invariant {s s' : DreamVisuals} (h : SceneKept s s')
    (hs : SceneInvariant s) : SceneInvariant s' := by
  obtain ⟨h1, h2, h3, h4⟩ := h
  unfold SceneInvariant
  rw [h1, h2, h3, h4]
  exact hs

theorem mem_sceneMeshes (scene : List SceneNode) (id : Nat) :
    id ∈ sceneMeshes scene ↔ SceneNode.mesh id ∈ scene := by
  unfold sceneMeshes
  rw [List.mem_filterMap]
  constructor
  · rintro ⟨node, hnode, hid⟩
    cases node <;> simp at hid
    subst hid
    exact hnode
  · intro h
    exact ⟨SceneNode.mesh id, h, rfl⟩

theorem sceneMeshes_append (a b : List SceneNode) :
    sceneMeshes (a ++ b) = sceneMeshes a ++ sceneMeshes b := by
  simp [sceneMeshes, List.filterMap_append]

theorem sceneMeshes_erase_mesh (scene : List SceneNode) (id : Nat) :
    sceneMeshes (scene.erase (SceneNode.mesh id)) = (sceneMeshes scene).erase id := by
  induction scene with
  | nil => rfl
  | cons node scene ih =>
    by_cases h : node = SceneNode.mesh id
    · subst h
      simp [sceneMeshes]
    · rw [List.erase_cons_tail (by simpa using h)]
      cases node with
      | mesh other =>
        have hne : other ≠ id := fun e => h (by rw [e])
        have e1 : sceneMeshes (SceneNode.mesh other :: scene) = other :: sceneMeshes scene := rfl
        have e2 : sceneMeshes (SceneNode.mesh other :: scene.erase (SceneNode.mesh id)) =
            other :: sceneMeshes (scene.erase (SceneNode.mesh id)) := rfl
        rw [e1, e2, ih, List.erase_cons_tail (by simpa using hne)]
      | ambientLight => exact ih
      | directionalLight => exact ih
      | pointLight1 => exact ih
      | pointLight2 => exact ih
      | points other => exact ih

theorem sceneMeshes_erase_points (scene : List SceneNode) (id : Nat) :
    sceneMeshes (scene.erase (SceneNode.points id)) = sceneMeshes scene := by
  induction scene with
  | nil => rfl
  | cons node scene ih =>
    by_cases h : node = SceneNode.points id
    · subst h
      simp [sceneMeshes]
    · rw [List.erase_cons_tail (by simpa using h)]
      cases node with
      | mesh other =>
        have e1 : sceneMeshes (SceneNode.mesh other :: scene) = other :: sceneMeshes scene := rfl
        have e2 : sceneMeshes (SceneNode.mesh other :: scene.erase (SceneNode.points id)) =
            other :: sceneMeshes (scene.erase (SceneNode.points id)) := rfl
        rw [e1, e2, ih]
      | ambientLight => exact ih
      | directionalLight => exact ih
      | pointLight1 => exact ih
      | pointLight2 => exact ih
      | points other => exact ih

theorem sceneMeshes_clear (objects : List Nat) (scene : List SceneNode)
    (h : sceneMeshes scene = objects) :
    sceneMeshes (objects.foldl (fun scene id => scene.erase (SceneNode.mesh id)) scene) = [] := by
  induction objects generalizing scene with
  | nil => exact h
  | cons id objects ih =>
    simp only [List.foldl_cons]
    apply ih
    rw [sceneMeshes_erase_mesh, h]
    simp

theorem entranceStep_sceneKept (id : Nat) (s : DreamVisuals) :
    SceneKept s (entranceStep id s) := by
  unfold entranceStep
  simp only
  split <;> exact ⟨rfl, rfl, rfl, rfl⟩

theorem createElementVisual_scene (element : Element) (index : Nat) (s : DreamVisuals)
    (hs : SceneInvariant s) : SceneInvariant (createElementVisual element index s) := by
  have h := entranceStep_sceneKept s.heap.length
    (setScale s.heap.length 0.1
      { s with heap := s.heap ++ [{ id := s.heap.length,
                                    geometry := (meshForElement element).geometry,
                                    material := (meshForElement element).material,
                                    light := (meshForElement element).light, slot := index,
                                    element := element, creationTime := s.clock, scale := 1 }],
               scene := s.scene ++ [SceneNode.mesh s.heap.length],
               dreamObjects := s.dreamObjects ++ [s.heap.length] })
  obtain ⟨h1, h2, h3, h4⟩ := h
  obtain ⟨i1, i2, i3⟩ := hs
  unfold createElementVisual animateEntrance
  refine ⟨?_, ?_, ?_⟩
  · simp only
    rw [h1, h2]
    simp only [setScale, sceneMeshes_append, i1]
    rfl
  · simp only
    rw [h3]
    exact i2
  · simp only
    rw [h4]
    exact i3

theorem clearDreamObjects_scene (s : DreamVisuals) (hs : SceneInvariant s) :
    SceneInvariant (clearDreamObjects s) :=
  ⟨sceneMeshes_clear s.dreamObjects s.scene hs.1, hs.2.1, hs.2.2⟩

theorem scheduleCreations_sceneKept (elements : List Element) (s : DreamVisuals) :
    SceneKept s (scheduleCreations elements s) := by
  obtain ⟨-, h2, -, h4, -, -, h7, h8⟩ := scheduleLoop_fields elements.enum s
  exact ⟨h4, h2, h7, h8⟩

theorem ensureParticleSystem_scene (s : DreamVisuals) (hs : SceneInvariant s) :
    SceneInvariant (ensureParticleSystem s) := by
  unfold ensureParticleSystem
  split
  · obtain ⟨i1, i2, i3⟩ := hs
    refine ⟨?_, i2, i3⟩
    simp only [createParticleSystem, sceneMeshes_append, i1]
    simp [sceneMeshes]
  · exact hs

theorem clearTestObjects_scene (s : DreamVisuals) (hs : SceneInvariant s) :
    clearTestObjects s = s := by
  unfold clearTestObjects
  simp only [hs.2.1, hs.2.2]

theorem updateParticleColors_sceneKept (elements : List Element) (s : DreamVisuals) :
    SceneKept s (updateParticleColors elements s) := by
  unfold updateParticleColors
  split <;> exact ⟨rfl, rfl, rfl, rfl⟩

theorem generateVisualsFromMetaphor_scene (metaphor : String) (s : DreamVisuals)
    (hs : SceneInvariant s) : SceneInvariant (generateVisualsFromMetaphor metaphor s) := by
  have h1 : SceneInvariant { clearDreamObjects s with currentMetaphor := some metaphor } :=
    clearDreamObjects_scene s hs
  have h2 := (scheduleCreations_sceneKept (parseMetaphor metaphor) _).scene_invariant h1
  have h3 := ensureParticleSystem_scene _ h2
  have h4 := clearTestObjects_scene _ h3
  unfold generateVisualsFromMetaphor
  simp only
  rw [h4]
  exact (updateParticleColors_sceneKept _ _).scene_invariant h3

theorem stopRenderLoop_sceneKept (s : DreamVisuals) : SceneKept s (stopRenderLoop s) := by
  unfold stopRenderLoop
  split
  · split <;> exact ⟨rfl, rfl, rfl, rfl⟩
  · exact ⟨rfl, rfl, rfl, rfl⟩

theorem disposeParticles_scene (s : DreamVisuals) (hs : SceneInvariant s) :
    SceneInvariant (disposeParticles s) := by
  unfold disposeParticles
  split
  · exact ⟨by simp only [sceneMeshes_erase_points]; exact hs.1, hs.2.1, hs.2.2⟩
  · exact hs

theorem dispose_scene (s : DreamVisuals) (hs : SceneInvariant s) :
    SceneInvariant (dispose s) := by
  have h1 := (stopRenderLoop_sceneKept s).scene_invariant hs
  have h2 := clearDreamObjects_scene _ h1
  have h3 := disposeParticles_scene _ h2
  exact h3

theorem fireLoop_scene (l : List Timer) (s : DreamVisuals) (hs : SceneInvariant s) :
    SceneInvariant (l.foldl fireTimer s) := by
  apply foldl_invariant SceneInvariant
  · intro b t hb
    have hb' : SceneInvariant { b with clock := max b.clock t.due } := hb
    exact createElementVisual_scene t.element t.index _ hb'
  · exact hs

theorem elapse_scene (dt : Nat) (s : DreamVisuals) (hs : SceneInvariant s) :
    SceneInvariant (elapse dt s) := by
  have h0 : SceneInvariant
      { s with timers := s.timers.filter (fun t => ¬ t.due ≤ s.clock + dt) } := hs
  exact fireLoop_scene
    ((s.timers.filter (fun t => t.due ≤ s.clock + dt)).insertionSort (fun a b => a.due ≤ b.due))
    _ h0

theorem animateObject_sceneKept (pulse : Nat → ℚ) (s : DreamVisuals) (index id : Nat) :
    SceneKept s (animateObject pulse s index id) := by
  unfold animateObject
  split
  · split <;> exact ⟨rfl, rfl, rfl, rfl⟩
  · exact ⟨rfl, rfl, rfl, rfl⟩

theorem animate_sceneKept (pulse : Nat → ℚ) (s : DreamVisuals) :
    SceneKept s (animate pulse s) := by
  have hloop : SceneKept s
      (s.dreamObjects.enum.foldl (fun s io => animateObject pulse s io.1 io.2) s) := by
    apply foldl_invariant (fun s' => SceneKept s s')
    · intro b io hb
      exact SceneKept.scene_trans hb (animateObject_sceneKept _ _ _ _)
    · exact SceneKept.scene_refl s
  unfold animate
  simp only
  split
  · exact SceneKept.scene_trans hloop ⟨rfl, rfl, rfl, rfl⟩
  · exact hloop

theorem runFrameCallback_sceneKept (pulse : Nat → ℚ) (cb : FrameCallback) (s : DreamVisuals) :
    SceneKept s (runFrameCallback pulse cb s) := by
  cases cb with
  | render =>
    have h := animate_sceneKept pulse
      { (requestAnimationFrame .render s).2 with
        animationId := some (requestAnimationFrame .render s).1 }
    exact SceneKept.scene_trans ⟨rfl, rfl, rfl, rfl⟩ h
  | entrance id => exact entranceStep_sceneKept id s

theorem animationFrame_sceneKept (pulse : Nat → ℚ) (s : DreamVisuals) :
    SceneKept s (animationFrame pulse s) := by
  have h : ∀ (l : List (Nat × FrameCallback)) (s0 : DreamVisuals),
      SceneKept s0 (l.foldl (fun s f => runFrameCallback pulse f.2 s) s0) := by
    intro l s0
    apply foldl_invariant (fun s' => SceneKept s0 s')
    · intro b f hb
      exact SceneKept.scene_trans hb (runFrameCallback_sceneKept pulse f.2 b)
    · exact SceneKept.scene_refl s0
  exact SceneKept.scene_trans ⟨rfl, rfl, rfl, rfl⟩ (h s.frames { s with frames := [] })

theorem operate_scene (s : DreamVisuals) (operation : Operation) (hs : SceneInvariant s) :
    SceneInvariant (operate s operation) := by
  cases operation with
  | createElementVisual element index => exact createElementVisual_scene element index s hs
  | clearDreamObjects => exact clearDreamObjects_scene s hs
  | generateVisualsFromMetaphor metaphor => exact generateVisualsFromMetaphor_scene metaphor s hs
  | dispose => exact dispose_scene s hs
  | elapse dt => exact elapse_scene dt s hs
  | frame pulse => exact (animationFrame_sceneKept pulse s).scene_invariant hs

/-- Claim C20.  In every state reached from a constructed composer by
`createElementVisual`, `clearDreamObjects`, `generateVisualsFromMetaphor` and
`dispose`, interleaved at will with elapsed time and animation frames, the
generated meshes attached to the scene are exactly the members of
`dreamObjects`, in the same order. -/
theorem scene_meshes_are_dream_objects (now : Nat) (operations : List Operation) :
    sceneMeshes (operateAll operations (DreamVisuals.construct now)).scene =
      (operateAll operations (DreamVisuals.construct now)).dreamObjects ∧
    ∀ id, SceneNode.mesh id ∈ (operateAll operations (DreamVisuals.construct now)).scene ↔
      id ∈ (operateAll operations (DreamVisuals.construct now)).dreamObjects := by
  have hinv : SceneInvariant (operateAll operations (DreamVisuals.construct now)) := by
    unfold operateAll
    apply foldl_invariant SceneInvariant
    · intro b operation hb
      exact operate_scene b operation hb
    · exact ⟨rfl, rfl, rfl⟩
  refine ⟨hinv.1, ?_⟩
  intro id
  rw [← hinv.1, mem_sceneMeshes]

/-- Apart from its colours, the material of the recipe also depends on the
(type, shape) pair only. -/
theorem meshForElement_material_congr (element other : Element)
    (ht : other.get "type" = element.get "type")
    (hs : other.get "shape" = element.get "shape") :
    (meshForElement other).material.family = (meshForElement element).material.family := by
  unfold meshForElement
  rw [ht]
  split
  · simp only [createOrganicShape, hs]
    split
    · rfl
    · split <;> rfl
  · rfl
  · rfl
  · rfl
  · rfl
  · rfl

/-! ## EEG simulator: claims C21 to C24 -/

theorem clamp_unit (x : ℚ) : 0 ≤ max 0 (min 1 x) ∧ max 0 (min 1 x) ≤ 1 :=
  ⟨le_max_left _ _, max_le (by norm_num) (min_le_left _ _)⟩

theorem generateSignals_bounded (sin : ℚ → ℚ) (now : Nat) (r1 r2 : ℚ) (s : EEGSimulator) :
    SignalsBounded (generateSignals sin now r1 r2 s) :=
  ⟨clamp_unit _, clamp_unit _⟩

theorem generateSignals_fields (sin : ℚ → ℚ) (now : Nat) (r1 r2 : ℚ) (s : EEGSimulator) :
    (generateSignals sin now r1 r2 s).isActive = s.isActive ∧
    (generateSignals sin now r1 r2 s).drowsinessThreshold = s.drowsinessThreshold ∧
    (generateSignals sin now r1 r2 s).drowsinessStartTime = s.drowsinessStartTime ∧
    (generateSignals sin now r1 r2 s).simulationInterval = s.simulationInterval :=
  ⟨rfl, rfl, rfl, rfl⟩

theorem checkDrowsiness_fields (now : Nat) (s : EEGSimulator) :
    (checkDrowsiness now s).1.alphaWave = s.alphaWave ∧
    (checkDrowsiness now s).1.thetaWave = s.thetaWave ∧
    (checkDrowsiness now s).1.isActive = s.isActive ∧
    (checkDrowsiness now s).1.drowsinessThreshold = s.drowsinessThreshold ∧
    (checkDrowsiness now s).1.simulationInterval = s.simulationInterval := by
  unfold checkDrowsiness
  simp only []
  split_ifs <;> exact ⟨rfl, rfl, rfl, rfl, rfl⟩

theorem simulateState_fields (state : String) (s : EEGSimulator) :
    (simulateState state s).isActive = s.isActive ∧
    (simulateState state s).drowsinessThreshold = s.drowsinessThreshold ∧
    (simulateState state s).drowsinessStartTime = s.drowsinessStartTime ∧
    (simulateState state s).drowsinessCallbacks = s.drowsinessCallbacks ∧
    (simulateState state s).statusCallbacks = s.statusCallbacks ∧
    (simulateState state s).baseFrequency = s.baseFrequency ∧
    (simulateState state s).noiseLevel = s.noiseLevel ∧
    (simulateState state s).simulationInterval = s.simulationInterval := by
  unfold simulateState
  split_ifs <;> exact ⟨rfl, rfl, rfl, rfl, rfl, rfl, rfl, rfl⟩

theorem simulateState_bounded (state : String) (s : EEGSimulator) (h : SignalsBounded s) :
    SignalsBounded (simulateState state s) := by
  unfold simulateState
  split_ifs
  · exact ⟨⟨by norm_num, by norm_num⟩, ⟨by norm_num, by norm_num⟩⟩
  · exact ⟨⟨by norm_num, by norm_num⟩, ⟨by norm_num, by norm_num⟩⟩
  · exact ⟨⟨by norm_num, by norm_num⟩, ⟨by norm_num, by norm_num⟩⟩
  · exact ⟨⟨by norm_num, by norm_num⟩, ⟨by norm_num, by norm_num⟩⟩
  · exact h

theorem start_fields (handle : Nat) (s : EEGSimulator) :
    (start handle s).1.alphaWave = s.alphaWave ∧
    (start handle s).1.thetaWave = s.thetaWave ∧
    (start handle s).1.drowsinessStartTime = s.drowsinessStartTime ∧
    (start handle s).1.drowsinessThreshold = s.drowsinessThreshold := by
  unfold start
  split_ifs <;> exact ⟨rfl, rfl, rfl, rfl⟩

theorem stop_fields (s : EEGSimulator) :
    (stop s).1.alphaWave = s.alphaWave ∧
    (stop s).1.thetaWave = s.thetaWave ∧
    (stop s).1.drowsinessThreshold = s.drowsinessThreshold := by
  unfold stop
  split_ifs <;> exact ⟨rfl, rfl, rfl⟩

theorem occur_bounded (sin : ℚ → ℚ) (s : EEGSimulator) (e : SimulatorEvent)
    (h : SignalsBounded s) : SignalsBounded (occur sin s e) := by
  cases e with
  | start n =>
    have hf := start_fields (n + 1) s
    show SignalsBounded (start (n + 1) s).1
    unfold SignalsBounded
    rw [hf.1, hf.2.1]
    exact h
  | stop =>
    have hf := stop_fields s
    show SignalsBounded (stop s).1
    unfold SignalsBounded
    rw [hf.1, hf.2.1]
    exact h
  | tick now r1 r2 =>
    show SignalsBounded
      (if s.simulationInterval.isSome then (intervalCallback sin now r1 r2 s).1 else s)
    split_ifs
    · have hf := checkDrowsiness_fields now (generateSignals sin now r1 r2 s)
      have hb := generateSignals_bounded sin now r1 r2 s
      unfold intervalCallback SignalsBounded
      rw [hf.1, hf.2.1]
      exact hb
    · exact h
  | simulateState state => exact simulateState_bounded state s h
  | onDrowsinessDetected callback => exact h
  | onStatusChange callback => exact h

theorem occurAll_bounded (sin : ℚ → ℚ) (events : List SimulatorEvent) (s : EEGSimulator)
    (h : SignalsBounded s) : SignalsBounded (occurAll sin events s) :=
  foldl_invariant SignalsBounded (occur sin) (fun s e hs => occur_bounded sin s e hs) events s h

theorem construct_bounded : SignalsBounded EEGSimulator.construct :=
  ⟨⟨le_refl _, by norm_num [EEGSimulator.construct]⟩,
   ⟨le_refl _, by norm_num [EEGSimulator.construct]⟩⟩

/-- Claim C21.  The signals lie in `[0, 1]` in the constructed simulator and in
every state it reaches through `start`, `stop`, timer ticks, `simulateState`
and listener registration; `generateSignals` leaves both in `[0, 1]` from any
state, for every clock time, every pair of noise draws and whatever `Math.sin`
returns; and `simulateState` with any argument keeps them in `[0, 1]`. -/
theorem signals_always_bounded (sin : ℚ → ℚ) (events : List SimulatorEvent)
    (now : Nat) (r1 r2 : ℚ) (state : String) :
    (EEGSimulator.construct.alphaWave = 0 ∧ EEGSimulator.construct.thetaWave = 0) ∧
    ((0 ≤ (occurAll sin events EEGSimulator.construct).alphaWave ∧
        (occurAll sin events EEGSimulator.construct).alphaWave ≤ 1) ∧
      (0 ≤ (occurAll sin events EEGSimulator.construct).thetaWave ∧
        (occurAll sin events EEGSimulator.construct).thetaWave ≤ 1)) ∧
    (∀ s : EEGSimulator,
      (0 ≤ (generateSignals sin now r1 r2 s).alphaWave ∧
        (generateSignals sin now r1 r2 s).alphaWave ≤ 1) ∧
      (0 ≤ (generateSignals sin now r1 r2 s).thetaWave ∧
        (generateSignals sin now r1 r2 s).thetaWave ≤ 1)) ∧
    (∀ s : EEGSimulator, SignalsBounded s →
      (0 ≤ (simulateState state s).alphaWave ∧ (simulateState state s).alphaWave ≤ 1) ∧
      (0 ≤ (simulateState state s).thetaWave ∧ (simulateState state s).thetaWave ≤ 1)) :=
  ⟨⟨rfl, rfl⟩, occurAll_bounded sin events _ construct_bounded,
   fun s => generateSignals_bounded sin now r1 r2 s,
   fun s h => simulateState_bounded state s h⟩

theorem signals_always_bounded_witness :
    SignalsBounded (generateSignals (fun _ => 1) 1000 0 0 EEGSimulator.construct) ∧
    ((0 ≤ (simulateState "drowsy"
          (generateSignals (fun _ => 1) 1000 0 0 EEGSimulator.construct)).alphaWave ∧
        (simulateState "drowsy"
          (generateSignals (fun _ => 1) 1000 0 0 EEGSimulator.construct)).alphaWave ≤ 1) ∧
      (0 ≤ (simulateState "drowsy"
          (generateSignals (fun _ => 1) 1000 0 0 EEGSimulator.construct)).thetaWave ∧
        (simulateState "drowsy"
          (generateSignals (fun _ => 1) 1000 0 0 EEGSimulator.construct)).thetaWave ≤ 1)) :=
  ⟨by unfold SignalsBounded; decide!,
   (signals_always_bounded (fun _ => 1) [] 1000 0 0 "drowsy").2.2.2
     (generateSignals (fun _ => 1) 1000 0 0 EEGSimulator.construct)
     (by unfold SignalsBounded; decide!)⟩

/-- Claim C22.  When `checkDrowsiness` runs with `(alpha + theta) / 2 <= 0.7`:
if an episode is in progress, its start being a (non-zero) clock reading, the
start is set to null, `updateStatus` is called once, with 'active', so each
status listener is called once and no drowsiness listener is, and no other
field changes; if no episode is in progress, nothing changes and nothing is
emitted. -/
theorem under_threshold_check (now : Nat) (s : EEGSimulator)
    (hthreshold : s.drowsinessThreshold = 0.7)
    (h : (s.alphaWave + s.thetaWave) / 2 ≤ 0.7) :
    (∀ t, s.drowsinessStartTime = some t → t ≠ 0 →
      checkDrowsiness now s =
        ({ s with drowsinessStartTime := none },
         [Effect.updateStatus "active" "EEG Active - Monitoring brainwaves"]) ∧
      (checkDrowsiness now s).2.flatMap (deliver (checkDrowsiness now s).1) =
        s.statusCallbacks.map
          (fun l => Call.status l "active" "EEG Active - Monitoring brainwaves") ∧
      ∀ l, Call.drowsiness l ∉ (checkDrowsiness now s).2.flatMap (deliver (checkDrowsiness now s).1)) ∧
    (s.drowsinessStartTime = none → checkDrowsiness now s = (s, [])) := by
  have hnot : ¬ (s.alphaWave + s.thetaWave) / 2 > s.drowsinessThreshold := by
    rw [hthreshold]
    exact not_lt.mpr h
  constructor
  · intro t ht ht0
    have hset : startTimeSet s.drowsinessStartTime = true := by
      rw [ht]
      simpa [startTimeSet] using ht0
    have hc : checkDrowsiness now s =
        ({ s with drowsinessStartTime := none },
         [Effect.updateStatus "active" "EEG Active - Monitoring brainwaves"]) := by
      unfold checkDrowsiness
      simp only []
      rw [if_neg hnot, if_pos hset]
    rw [hc]
    refine ⟨rfl, ?_, ?_⟩
    · simp [deliver]
    · intro l
      simp [deliver]
  · intro hnone
    unfold checkDrowsiness
    simp only []
    rw [if_neg hnot, hnone]
    rfl

theorem under_threshold_check_witness :
    checkDrowsiness 5000
        { EEGSimulator.construct with
            alphaWave := 0.8, thetaWave := 0.2, drowsinessStartTime := some 1000,
            statusCallbacks := [7], drowsinessCallbacks := [9] } =
      ({ EEGSimulator.construct with
            alphaWave := 0.8, thetaWave := 0.2, drowsinessStartTime := none,
            statusCallbacks := [7], drowsinessCallbacks := [9] },
       [Effect.updateStatus "active" "EEG Active - Monitoring brainwaves"]) :=
  ((under_threshold_check 5000
      { EEGSimulator.construct with
          alphaWave := 0.8, thetaWave := 0.2, drowsinessStartTime := some 1000,
          statusCallbacks := [7], drowsinessCallbacks := [9] }
      (by decide!) (by decide!)).1 1000 rfl (by decide)).1

/-- Claim C23.  The method `simulateState` sets the two signals to (0.8, 0.2)
for 'alert', (0.6, 0.4) for 'relaxed', (0.3, 0.9) for 'drowsy' and (0.2, 0.8)
for 'deep_relaxation' and leaves every other field as it was; for any other
name the simulator is unchanged. -/
theorem simulateState_frame (s : EEGSimulator) :
    simulateState "alert" s = { s with alphaWave := 0.8, thetaWave := 0.2 } ∧
    simulateState "relaxed" s = { s with alphaWave := 0.6, thetaWave := 0.4 } ∧
    simulateState "drowsy" s = { s with alphaWave := 0.3, thetaWave := 0.9 } ∧
    simulateState "deep_relaxation" s = { s with alphaWave := 0.2, thetaWave := 0.8 } ∧
    (∀ name : String,
      (simulateState name s).isActive = s.isActive ∧
      (simulateState name s).drowsinessThreshold = s.drowsinessThreshold ∧
      (simulateState name s).drowsinessStartTime = s.drowsinessStartTime ∧
      (simulateState name s).drowsinessCallbacks = s.drowsinessCallbacks ∧
      (simulateState name s).statusCallbacks = s.statusCallbacks ∧
      (simulateState name s).baseFrequency = s.baseFrequency ∧
      (simulateState name s).noiseLevel = s.noiseLevel ∧
      (simulateState name s).simulationInterval = s.simulationInterval) ∧
    (∀ name : String, name ≠ "alert" → name ≠ "relaxed" → name ≠ "drowsy" →
      name ≠ "deep_relaxation" → simulateState name s = s) := by
  refine ⟨?_, ?_, ?_, ?_, fun name => simulateState_fields name s, ?_⟩
  · simp [simulateState]
  · simp [simulateState]
  · simp [simulateState]
  · simp [simulateState]
  · intro name h1 h2 h3 h4
    unfold simulateState
    rw [if_neg h1, if_neg h2, if_neg h3, if_neg h4]

theorem simulateState_frame_witness :
    simulateState "asleep" (simulateState "drowsy" EEGSimulator.construct) =
      simulateState "drowsy" EEGSimulator.construct :=
  (simulateState_frame (simulateState "drowsy" EEGSimulator.construct)).2.2.2.2.2 "asleep"
    (by decide) (by decide) (by decide) (by decide)

/-- Counterexample to claim C24 as stated.  After `start()`, one timer tick and
`stop()`, the signals are the ones the tick generated (0.65 and 0.35 here), not
0; and a further `start()` on the now inactive simulator leaves them so. -/
theorem start_stop_keep_signals :
    (occurAll (fun _ => 0) [.start 0, .tick 1000 0.5 0.5] EEGSimulator.construct).isActive =
      true ∧
    (stop (occurAll (fun _ => 0) [.start 0, .tick 1000 0.5 0.5] EEGSimulator.construct)).1.alphaWave =
      0.65 ∧
    (stop (occurAll (fun _ => 0) [.start 0, .tick 1000 0.5 0.5] EEGSimulator.construct)).1.thetaWave =
      0.35 ∧
    (occurAll (fun _ => 0) [.start 0, .tick 1000 0.5 0.5, .stop] EEGSimulator.construct).isActive =
      false ∧
    (start 2 (occurAll (fun _ => 0) [.start 0, .tick 1000 0.5 0.5, .stop]
      EEGSimulator.construct)).1.alphaWave = 0.65 ∧
    (start 2 (occurAll (fun _ => 0) [.start 0, .tick 1000 0.5 0.5, .stop]
      EEGSimulator.construct)).1.thetaWave = 0.35 := by
  refine ⟨?_, ?_, ?_, ?_, ?_, ?_⟩ <;> decide!

theorem start_invariant (handle : Nat) (s : EEGSimulator) (hh : handle ≠ 0)
    (h : LifecycleInvariant s) : LifecycleInvariant (start handle s).1 := by
  unfold start
  split_ifs with ha
  · exact h
  · refine ⟨h.1, ?_, ?_⟩
    · intro k hk
      have : handle = k := Option.some.inj hk
      exact this ▸ hh
    · intro hf
      exact absurd hf (by simp)

theorem stop_invariant (s : EEGSimulator) (h : LifecycleInvariant s) :
    LifecycleInvariant (stop s).1 := by
  unfold stop
  split_ifs with ha hs
  · exact h
  · exact ⟨h.1, fun k hk => absurd hk (by simp), fun _ => ⟨rfl, rfl⟩⟩
  · refine ⟨h.1, h.2.1, fun _ => ⟨?_, rfl⟩⟩
    show s.simulationInterval = none
    cases hi : s.simulationInterval with
    | none => rfl
    | some k =>
      have hk := h.2.1 k hi
      rw [hi] at hs
      exact absurd (by simpa [handleSet] using hk) hs

theorem occur_invariant (sin : ℚ → ℚ) (s : EEGSimulator) (e : SimulatorEvent)
    (h : LifecycleInvariant s) : LifecycleInvariant (occur sin s e) := by
  cases e with
  | start n => exact start_invariant (n + 1) s (Nat.succ_ne_zero n) h
  | stop => exact stop_invariant s h
  | tick now r1 r2 =>
    show LifecycleInvariant
      (if s.simulationInterval.isSome then (intervalCallback sin now r1 r2 s).1 else s)
    split_ifs with hi
    · have hf := checkDrowsiness_fields now (generateSignals sin now r1 r2 s)
      have hg := generateSignals_fields sin now r1 r2 s
      unfold intervalCallback LifecycleInvariant
      rw [hf.2.2.2.1, hf.2.2.2.2, hf.2.2.1, hg.1, hg.2.1, hg.2.2.2]
      refine ⟨h.1, h.2.1, fun ha => ?_⟩
      have := (h.2.2 ha).1
      rw [this] at hi
      exact absurd hi (by simp)
    · exact h
  | simulateState state =>
    have hf := simulateState_fields state s
    show LifecycleInvariant (simulateState state s)
    unfold LifecycleInvariant
    rw [hf.1, hf.2.1, hf.2.2.1, hf.2.2.2.2.2.2.2]
    exact h
  | onDrowsinessDetected callback => exact h
  | onStatusChange callback => exact h

theorem occurAll_invariant (sin : ℚ → ℚ) (events : List SimulatorEvent) :
    LifecycleInvariant (occurAll sin events EEGSimulator.construct) :=
  foldl_invariant LifecycleInvariant (occur sin) (fun s e hs => occur_invariant sin s e hs)
    events _ ⟨rfl, fun _ hk => absurd hk (by simp [EEGSimulator.construct]), fun _ => ⟨rfl, rfl⟩⟩

/-- Claim C24, as the code has it.  On an inactive simulator `start()` sets
`isActive`, stores the interval handle and reports the status 'active'; it
leaves `alphaWave`, `thetaWave` and `drowsinessStartTime` as they were.  On an
active simulator `stop()` clears `isActive` and `drowsinessStartTime` and
reports 'inactive'; it leaves `alphaWave` and `thetaWave` as they were.  In
every state reached from the constructor through `start`, `stop`, timer ticks,
`simulateState` and listener registration, an inactive simulator has no
episode start, so `drowsinessStartTime` is null right after `start()` as well,
and `stop()` leaves no interval scheduled. -/
theorem start_stop_frame (s : EEGSimulator) (handle : Nat) (sin : ℚ → ℚ)
    (events : List SimulatorEvent) :
    (s.isActive = false →
      start handle s =
        ({ s with isActive := true, simulationInterval := some handle },
         [Effect.updateStatus "active" "EEG Active - Monitoring brainwaves"]) ∧
      (start handle s).1.alphaWave = s.alphaWave ∧
      (start handle s).1.thetaWave = s.thetaWave ∧
      (start handle s).1.drowsinessStartTime = s.drowsinessStartTime) ∧
    (s.isActive = true →
      (stop s).1.isActive = false ∧
      (stop s).1.drowsinessStartTime = none ∧
      (stop s).1.alphaWave = s.alphaWave ∧
      (stop s).1.thetaWave = s.thetaWave ∧
      (stop s).2 = [Effect.updateStatus "inactive" "EEG Inactive"]) ∧
    ((occurAll sin events EEGSimulator.construct).isActive = false →
      (occurAll sin events EEGSimulator.construct).drowsinessStartTime = none ∧
      (start handle (occurAll sin events EEGSimulator.construct)).1.drowsinessStartTime =
        none) ∧
    (stop (occurAll sin events EEGSimulator.construct)).1.simulationInterval = none := by
  refine ⟨?_, ?_, ?_, ?_⟩
  · intro h
    have hs : start handle s =
        ({ s with isActive := true, simulationInterval := some handle },
         [Effect.updateStatus "active" "EEG Active - Monitoring brainwaves"]) := by
      unfold start
      rw [h]
      rfl
    rw [hs]
    exact ⟨rfl, rfl, rfl, rfl⟩
  · intro h
    unfold stop
    rw [h]
    exact ⟨rfl, rfl, rfl, rfl, rfl⟩
  · intro h
    have hi := (occurAll_invariant sin events).2.2 h
    refine ⟨hi.2, ?_⟩
    rw [(start_fields handle _).2.2.1]
    exact hi.2
  · have hi := stop_invariant _ (occurAll_invariant sin events)
    apply (hi.2.2 _).1
    unfold stop
    split_ifs with ha
    · simpa using ha
    · rfl
    · rfl

theorem start_stop_frame_witness :
    (start 1 (simulateState "drowsy" EEGSimulator.construct)).1.alphaWave = 0.3 ∧
    (stop (start 1 (simulateState "drowsy" EEGSimulator.construct)).1).1.thetaWave = 0.9 :=
  ⟨by
      rw [((start_stop_frame (simulateState "drowsy" EEGSimulator.construct) 1 (fun _ => 0)
        []).1 (by decide!)).2.1]
      decide!,
   by
      rw [((start_stop_frame (start 1 (simulateState "drowsy" EEGSimulator.construct)).1 1
        (fun _ => 0) []).2.1 (by decide!)).2.2.2.1]
      decide!⟩

/-! ## Keyword table: claim C25 -/

theorem unitOrAbsent_spec (o : Option JSValue) (h : unitOrAbsent o = true) (v : JSValue)
    (hv : o = some v) : ∃ q, v = JSValue.num q ∧ 0 ≤ q ∧ q ≤ 1 := by
  subst hv
  cases v with
  | str s => exact absurd h (by simp [unitOrAbsent])
  | num q => exact ⟨q, rfl, by simpa [unitOrAbsent] using h⟩

theorem keywords_checked :
    ∀ e ∈ keywords,
      (unitOrAbsent (e.2.get "intensity") = true ∧
        (e.2.get "intensity" ≠ none →
          e.2.get "type" = some (.str "light") ∨ e.2.get "type" = some (.str "glow"))) ∧
      (unitOrAbsent (e.2.get "opacity") = true ∧
        (e.2.get "opacity" ≠ none → e.2.get "type" = some (.str "atmospheric"))) ∧
      (e.2.get "movement" ≠ none ∨ e.2.get "pattern" ≠ none →
        e.2.get "type" = some (.str "fluid") ∨ e.2.get "type" = some (.str "motion") ∨
          (e.1 = "clouds" ∧ e.2.get "type" = some (.str "soft"))) ∧
      (e.2.get "shape" ≠ none →
        e.2.get "shape" ∈ [some (JSValue.str "leaf"), some (.str "wing"), some (.str "flower"),
          some (.str "tree"), some (.str "peak"), some (.str "crystal")]) := by
  decide!

/-- Counterexample to claim C25 as stated.  The entry `clouds` has the type
'soft', which is neither 'fluid' nor 'motion', and carries a `movement`. -/
theorem clouds_soft_has_movement :
    ownKeyword "clouds" =
      some [("type", .str "soft"), ("movement", .str "drift"), ("color", .num 0xf0f8ff)] ∧
    (∃ attrs, ("clouds", attrs) ∈ keywords ∧
      attrs.get "movement" = some (.str "drift") ∧
      attrs.get "type" = some (.str "soft") ∧
      attrs.get "type" ≠ some (.str "fluid") ∧ attrs.get "type" ≠ some (.str "motion")) := by
  refine ⟨by decide!, [("type", .str "soft"), ("movement", .str "drift"),
    ("color", .num 0xf0f8ff)], ?_, ?_, ?_, ?_, ?_⟩ <;> decide!

/-- Claim C25, as the table has it.  For every entry of the keyword table:
`intensity` is present only on entries of type light or glow and is a number
in `[0, 1]`; `opacity` is present only on entries of type atmospheric and is a
number in `[0, 1]`; `movement` or `pattern` is present only on entries of type
fluid or motion and on the entry `clouds`, of type soft; and every `shape` is
one of leaf, wing, flower, tree, peak, crystal. -/
theorem keyword_attribute_rules (word : String) (attrs : JSObject)
    (h : (word, attrs) ∈ keywords) :
    (∀ v, attrs.get "intensity" = some v →
      (attrs.get "type" = some (.str "light") ∨ attrs.get "type" = some (.str "glow")) ∧
      ∃ q, v = JSValue.num q ∧ 0 ≤ q ∧ q ≤ 1) ∧
    (∀ v, attrs.get "opacity" = some v →
      attrs.get "type" = some (.str "atmospheric") ∧
      ∃ q, v = JSValue.num q ∧ 0 ≤ q ∧ q ≤ 1) ∧
    (attrs.get "movement" ≠ none ∨ attrs.get "pattern" ≠ none →
      attrs.get "type" = some (.str "fluid") ∨ attrs.get "type" = some (.str "motion") ∨
        (word = "clouds" ∧ attrs.get "type" = some (.str "soft"))) ∧
    (∀ v, attrs.get "shape" = some v →
      v ∈ [JSValue.str "leaf", .str "wing", .str "flower", .str "tree", .str "peak",
        .str "crystal"]) := by
  have hc := keywords_checked (word, attrs) h
  refine ⟨?_, ?_, hc.2.2.1, ?_⟩
  · intro v hv
    exact ⟨hc.1.2 (by rw [hv]; exact Option.some_ne_none v), unitOrAbsent_spec _ hc.1.1 v hv⟩
  · intro v hv
    exact ⟨hc.2.1.2 (by rw [hv]; exact Option.some_ne_none v),
      unitOrAbsent_spec _ hc.2.1.1 v hv⟩
  · intro v hv
    have hm := hc.2.2.2 (by rw [hv]; exact Option.some_ne_none v)
    rw [hv] at hm
    simpa using hm

theorem keyword_attribute_rules_witness :
    ("moonlight", [("type", JSValue.str "light"), ("intensity", .num 0.4),
        ("color", .num 0xc0c0ff)]) ∈ keywords ∧
    ∃ q, JSValue.num 0.4 = JSValue.num q ∧ 0 ≤ q ∧ q ≤ 1 :=
  ⟨by decide!,
   ((keyword_attribute_rules "moonlight"
      [("type", .str "light"), ("intensity", .num 0.4), ("color", .num 0xc0c0ff)]
      (by decide!)).1 (.num 0.4) (by decide!)).2⟩

/-! ## Metaphor generator: the cache -/

theorem mapDelete_length_le (map : List (String × String)) (key : String) :
    (mapDelete map key).length ≤ map.length :=
  List.length_filter_le _ _

theorem mapDelete_head_length (first : String × String) (rest : List (String × String)) :
    (mapDelete (first :: rest) first.1).length ≤ rest.length := by
  unfold mapDelete
  rw [List.filter_cons_of_neg (by simp)]
  exact List.length_filter_le _ _

theorem mapSet_length_le (map : List (String × String)) (key value : String) :
    (mapSet map key value).length ≤ map.length + 1 := by
  unfold mapSet
  split_ifs
  · simp
  · simp

theorem mapHas_mapSet (map : List (String × String)) (key value : String) :
    mapHas (mapSet map key value) key = true := by
  unfold mapSet
  split_ifs with h
  · unfold mapHas at h ⊢
    rw [List.any_eq_true] at h ⊢
    obtain ⟨e, he, hk⟩ := h
    exact ⟨(key, value), List.mem_map.mpr ⟨e, he, by rw [if_pos hk]⟩, by simp⟩
  · simp [mapHas]

theorem mapGet_replaced (map : List (String × String)) (key value : String)
    (h : mapHas map key = true) :
    ((map.map (fun e => if e.1 == key then (key, value) else e)).find?
      (fun e => e.1 == key)).map Prod.snd = some value := by
  induction map with
  | nil => simp [mapHas] at h
  | cons e rest ih =>
    by_cases hk : (e.1 == key) = true
    · rw [List.map_cons, if_pos hk, List.find?_cons_of_pos _ (by simp)]
      rfl
    · have hrest : mapHas rest key = true := by
        unfold mapHas at h ⊢
        rw [List.any_cons] at h
        simpa [hk] using h
      have hk' : (e.1 == key) = false := by simpa using hk
      rw [List.map_cons, if_neg hk]
      simp only [List.find?_cons, hk']
      exact ih hrest

theorem mapGet_mapSet (map : List (String × String)) (key value : String) :
    mapGet (mapSet map key value) key = some value := by
  unfold mapSet
  split_ifs with h
  · exact mapGet_replaced map key value h
  · unfold mapGet
    have hnone : map.find? (fun e => e.1 == key) = none := by
      rw [List.find?_eq_none]
      intro e he hk
      apply h
      unfold mapHas
      rw [List.any_eq_true]
      exact ⟨e, he, hk⟩
    rw [List.find?_append, hnone]
    simp

theorem addToCache_fields (topic metaphor : String) (s : MetaphorGenerator) :
    (addToCache topic metaphor s).maxCacheSize = s.maxCacheSize ∧
    (addToCache topic metaphor s).isGenerating = s.isGenerating :=
  ⟨rfl, rfl⟩

theorem addToCache_maps (topic metaphor : String) (s : MetaphorGenerator) :
    mapHas (addToCache topic metaphor s).cache topic = true ∧
    mapGet (addToCache topic metaphor s).cache topic = some metaphor :=
  ⟨mapHas_mapSet _ _ _, mapGet_mapSet _ _ _⟩

theorem addToCache_length (topic metaphor : String) (s : MetaphorGenerator)
    (hpos : 0 < s.maxCacheSize) (h : s.cache.length ≤ s.maxCacheSize) :
    (addToCache topic metaphor s).cache.length ≤ s.maxCacheSize := by
  unfold addToCache
  simp only []
  refine le_trans (mapSet_length_le _ _ _) ?_
  split_ifs with hfull
  · cases hc : s.cache with
    | nil =>
      rw [hc] at hfull
      simp at hfull
      omega
    | cons first rest =>
      have := mapDelete_head_length first rest
      rw [hc] at h
      simp only [List.head?_cons, List.length_cons] at h ⊢
      omega
  · omega

theorem generateMetaphor_state (topic : String) (outcome : FetchOutcome) (r : Draws)
    (s : MetaphorGenerator) :
    (generateMetaphor topic outcome r s).2 = s ∨
    ∃ metaphor, (generateMetaphor topic outcome r s).2 =
      { addToCache topic metaphor { s with isGenerating := true } with isGenerating := false } := by
  unfold generateMetaphor generateMetaphorStart
  split_ifs
  · exact Or.inl rfl
  · exact Or.inl rfl
  · right
    cases outcome with
    | success metaphor => exact ⟨metaphor, rfl⟩
    | networkFailure => exact ⟨clientSideMetaphor topic r, rfl⟩
    | httpError status => exact ⟨clientSideMetaphor topic r, rfl⟩
    | invalidBody => exact ⟨clientSideMetaphor topic r, rfl⟩

theorem applyCall_capacity (s : MetaphorGenerator) (call : CacheCall)
    (h : s.maxCacheSize = 50 ∧ s.cache.length ≤ 50) :
    (applyCall s call).maxCacheSize = 50 ∧ (applyCall s call).cache.length ≤ 50 := by
  have hadd : ∀ (topic metaphor : String) (s : MetaphorGenerator),
      s.maxCacheSize = 50 ∧ s.cache.length ≤ 50 →
      (addToCache topic metaphor s).maxCacheSize = 50 ∧
        (addToCache topic metaphor s).cache.length ≤ 50 := by
    intro topic metaphor s hs
    have hl := addToCache_length topic metaphor s (by rw [hs.1]; decide) (by rw [hs.1]; exact hs.2)
    rw [hs.1] at hl
    exact ⟨hs.1, hl⟩
  cases call with
  | addToCache topic metaphor => exact hadd topic metaphor s h
  | clearCache => exact ⟨h.1, Nat.zero_le _⟩
  | generateMetaphor topic outcome draws =>
    show (generateMetaphor topic outcome draws s).2.maxCacheSize = 50 ∧
      (generateMetaphor topic outcome draws s).2.cache.length ≤ 50
    rcases generateMetaphor_state topic outcome draws s with hs | ⟨metaphor, hs⟩
    · rw [hs]
      exact h
    · rw [hs]
      exact hadd topic metaphor { s with isGenerating := true } h
  | generateClientSideMetaphor topic draws =>
    exact hadd topic (clientSideMetaphor topic draws) s h

theorem applyCalls_capacity (calls : List CacheCall) :
    (applyCalls calls MetaphorGenerator.construct).maxCacheSize = 50 ∧
    (applyCalls calls MetaphorGenerator.construct).cache.length ≤ 50 :=
  foldl_invariant (fun s => s.maxCacheSize = 50 ∧ s.cache.length ≤ 50) applyCall
    applyCall_capacity calls _ ⟨rfl, Nat.zero_le _⟩

/-- Claim C29.  Starting from the constructed generator, whose cache is empty
and whose `maxCacheSize` is 50, after any sequence of calls of `addToCache`,
`clearCache`, `generateMetaphor` and `generateClientSideMetaphor` the cache has
at most 50 entries; and right after `addToCache(t, m)`, in any state, the cache
has the key `t` and maps it to `m`. -/
theorem cache_within_capacity (calls : List CacheCall) (s : MetaphorGenerator)
    (topic metaphor : String) :
    getCacheSize MetaphorGenerator.construct = 0 ∧
    MetaphorGenerator.construct.maxCacheSize = 50 ∧
    getCacheSize (applyCalls calls MetaphorGenerator.construct) ≤ 50 ∧
    getCacheSize (addToCache topic metaphor (applyCalls calls MetaphorGenerator.construct)) ≤
      50 ∧
    mapHas (addToCache topic metaphor s).cache topic = true ∧
    mapGet (addToCache topic metaphor s).cache topic = some metaphor :=
  ⟨rfl, rfl, (applyCalls_capacity calls).2,
   (by
     have h := (applyCalls_capacity (calls ++ [CacheCall.addToCache topic metaphor])).2
     unfold applyCalls at h ⊢
     rw [List.foldl_append] at h
     exact h),
   (addToCache_maps topic metaphor s).1, (addToCache_maps topic metaphor s).2⟩

/-! ## Metaphor generator: claims C26 to C28 -/

/-- In a full cache, the entry `addToCache` evicts for a new topic is the one
at the head of the insertion order, also right after a cache hit on it, which
returns the cached metaphor and changes nothing. -/
theorem addToCache_evicts_head (s : MetaphorGenerator) (key value : String)
    (rest : List (String × String)) (topic metaphor : String) (outcome : FetchOutcome)
    (r : Draws) (hidle : s.isGenerating = false) (hcache : s.cache = (key, value) :: rest)
    (hfull : s.cache.length ≥ s.maxCacheSize) (hnew : topic ≠ key) :
    generateMetaphor key outcome r s = (Except.ok (some value), s) ∧
    mapHas (addToCache topic metaphor (generateMetaphor key outcome r s).2).cache key = false := by
  have hhit : generateMetaphor key outcome r s = (Except.ok (some value), s) := by
    unfold generateMetaphor generateMetaphorStart
    rw [hidle, hcache]
    simp [mapHas, mapGet]
  refine ⟨hhit, ?_⟩
  rw [hhit]
  unfold addToCache
  simp only []
  rw [if_pos hfull, hcache]
  simp only [List.head?_cons]
  have hdel : mapHas (mapDelete ((key, value) :: rest) key) key = false := by
    unfold mapHas mapDelete
    rw [Bool.eq_false_iff]
    intro h
    rw [List.any_eq_true] at h
    obtain ⟨e, he, hk⟩ := h
    have := (List.mem_filter.mp he).2
    simp at this hk
    exact this hk
  unfold mapSet
  split_ifs with hin
  · unfold mapHas at hdel ⊢
    rw [Bool.eq_false_iff] at hdel ⊢
    intro h
    apply hdel
    rw [List.any_eq_true] at h ⊢
    obtain ⟨e, he, hk⟩ := h
    obtain ⟨e', he', rfl⟩ := List.mem_map.mp he
    refine ⟨e', he', ?_⟩
    by_cases ht : (e'.1 == topic) = true
    · rw [if_pos ht] at hk
      simp at hk
      exact absurd hk hnew
    · rw [if_neg ht] at hk
      exact hk
  · unfold mapHas at hdel ⊢
    rw [List.any_append, hdel]
    simpa using hnew

/-- Claim C26, as the code behaves.  Fill the cache with the 50 topics
"topic 0" to "topic 49", in this order; then ask for "topic 0", a cache hit.
The hit returns the cached metaphor and leaves the generator as it was, and the
next `addToCache` of a new topic evicts "topic 0", the entry read last, and
keeps "topic 1".  A least-recently-used cache evicts "topic 1" and keeps
"topic 0". -/
theorem cache_evicts_first_inserted :
    applyCalls ((List.range 50).map
        (fun i => CacheCall.addToCache ("topic " ++ toString i) "metaphor"))
      MetaphorGenerator.construct =
      { MetaphorGenerator.construct with cache := filledCache 50 } ∧
    getCacheSize { MetaphorGenerator.construct with cache := filledCache 50 } = 50 ∧
    generateMetaphor "topic 0" (FetchOutcome.success "another") ⟨0, 0, 0⟩
        { MetaphorGenerator.construct with cache := filledCache 50 } =
      (Except.ok (some "metaphor"),
       { MetaphorGenerator.construct with cache := filledCache 50 }) ∧
    mapHas (addToCache "topic 50" "metaphor"
      { MetaphorGenerator.construct with cache := filledCache 50 }).cache "topic 0" = false ∧
    mapHas (addToCache "topic 50" "metaphor"
      { MetaphorGenerator.construct with cache := filledCache 50 }).cache "topic 1" = true ∧
    mapHas (lruAdd 50 (lruUse (filledCache 50) "topic 0") "topic 50" "metaphor") "topic 0" =
      true ∧
    mapHas (lruAdd 50 (lruUse (filledCache 50) "topic 0") "topic 50" "metaphor") "topic 1" =
      false := by
  refine ⟨by decide!, by decide!, ?_, by decide!, by decide!, by decide!, by decide!⟩
  exact (addToCache_evicts_head { MetaphorGenerator.construct with cache := filledCache 50 }
    "topic 0" "metaphor" (filledCache 50).tail "topic 50" "metaphor"
    (FetchOutcome.success "another") ⟨0, 0, 0⟩ rfl (by decide!) (by decide!) (by decide)).1

theorem codeUnits_sublist {l1 l2 : List Char} (h : l1.Sublist l2) :
    (l1.map (fun c => if c.toNat ≥ 0x10000 then 2 else 1)).sum ≤
      (l2.map (fun c => if c.toNat ≥ 0x10000 then 2 else 1)).sum := by
  induction h with
  | slnil => exact le_refl _
  | cons a _ ih =>
    rw [List.map_cons, List.sum_cons]
    omega
  | cons₂ a _ ih =>
    rw [List.map_cons, List.sum_cons, List.map_cons, List.sum_cons]
    omega

theorem codeUnits_reverse (l : List Char) :
    (l.reverse.map (fun c => if c.toNat ≥ 0x10000 then 2 else 1)).sum =
      (l.map (fun c => if c.toNat ≥ 0x10000 then 2 else 1)).sum := by
  rw [List.map_reverse, List.sum_reverse]

theorem jsLength_trim_le (s : String) : jsLength (trim s) ≤ jsLength s := by
  unfold jsLength trim
  show ((((s.data.dropWhile isWhiteSpace).reverse.dropWhile isWhiteSpace).reverse).map _).sum ≤ _
  rw [codeUnits_reverse]
  refine le_trans (codeUnits_sublist (List.dropWhile_sublist _)) ?_
  rw [codeUnits_reverse]
  exact codeUnits_sublist (List.dropWhile_sublist _)

theorem jsLength_removeAngleBrackets_le (s : String) :
    jsLength (removeAngleBrackets s) ≤ jsLength s := by
  unfold jsLength removeAngleBrackets
  exact codeUnits_sublist (List.filter_sublist _)

theorem removeAngleBrackets_clean (s : String) :
    '<' ∉ (removeAngleBrackets s).data ∧ '>' ∉ (removeAngleBrackets s).data := by
  unfold removeAngleBrackets
  constructor
  · intro h
    have := (List.mem_filter.mp h).2
    simp at this
  · intro h
    have := (List.mem_filter.mp h).2
    simp at this

/-- Claim C27, as the code behaves.  The method `validateTopic` throws 'Topic
must be a non-empty string' for an argument that is not a string or is the
empty string, and 'Topic must be 50 characters or less' for a string of more
than 50 code units; for every other string it returns the string trimmed and
with the characters `<` and `>` removed, which has at most 50 code units and
contains neither `<` nor `>`.  The returned string can be empty: it is for the
topic of three blanks and for the topic `<>`. -/
theorem validateTopic_may_return_empty :
    validateTopic TopicArgument.notString = Except.error "Topic must be a non-empty string" ∧
    validateTopic (TopicArgument.string "") =
      Except.error "Topic must be a non-empty string" ∧
    (∀ topic : String, jsLength topic > 50 →
      validateTopic (TopicArgument.string topic) =
        Except.error "Topic must be 50 characters or less") ∧
    (∀ topic : String, topic ≠ "" → jsLength topic ≤ 50 →
      validateTopic (TopicArgument.string topic) =
        Except.ok (removeAngleBrackets (trim topic)) ∧
      jsLength (removeAngleBrackets (trim topic)) ≤ 50 ∧
      '<' ∉ (removeAngleBrackets (trim topic)).data ∧
      '>' ∉ (removeAngleBrackets (trim topic)).data) ∧
    validateTopic (TopicArgument.string "   ") = Except.ok "" ∧
    validateTopic (TopicArgument.string "<>") = Except.ok "" := by
  refine ⟨rfl, rfl, ?_, ?_, ?_, ?_⟩
  · intro topic h
    have hne : topic ≠ "" := by
      intro he
      rw [he] at h
      exact absurd h (by decide)
    show (if topic = "" then _ else _) = _
    rw [if_neg hne, if_pos h]
  · intro topic hne hlen
    refine ⟨?_, ?_, (removeAngleBrackets_clean _).1, (removeAngleBrackets_clean _).2⟩
    · show (if topic = "" then _ else _) = _
      rw [if_neg hne, if_neg (by omega)]
    · exact le_trans (jsLength_removeAngleBrackets_le _) (le_trans (jsLength_trim_le _) hlen)
  · rfl
  · rfl

theorem validateTopic_may_return_empty_witness :
    validateTopic (TopicArgument.string " <b>ocean</b> ") = Except.ok "bocean/b" ∧
    jsLength "bocean/b" ≤ 50 :=
  ⟨by
      rw [(validateTopic_may_return_empty.2.2.2.1 " <b>ocean</b> " (by decide)
        (by decide)).1]
      rfl,
   by decide⟩

theorem generateMetaphor_idle (topic : String) (outcome : FetchOutcome) (r : Draws)
    (s : MetaphorGenerator) (h : s.isGenerating = false) :
    ∃ metaphor s', generateMetaphor topic outcome r s = (Except.ok metaphor, s') ∧
      s'.isGenerating = false ∧ mapHas s'.cache topic = true ∧
      mapGet s'.cache topic = metaphor := by
  unfold generateMetaphor generateMetaphorStart
  rw [h]
  by_cases hh : mapHas s.cache topic = true
  · rw [if_neg (by simp), if_pos hh]
    exact ⟨_, _, rfl, h, hh, rfl⟩
  · rw [if_neg (by simp), if_neg hh]
    cases outcome with
    | success metaphor =>
      exact ⟨_, _, rfl, rfl, (addToCache_maps topic metaphor _).1,
        (addToCache_maps topic metaphor _).2⟩
    | networkFailure =>
      exact ⟨_, _, rfl, rfl, (addToCache_maps topic _ _).1, (addToCache_maps topic _ _).2⟩
    | httpError status =>
      exact ⟨_, _, rfl, rfl, (addToCache_maps topic _ _).1, (addToCache_maps topic _ _).2⟩
    | invalidBody =>
      exact ⟨_, _, rfl, rfl, (addToCache_maps topic _ _).1, (addToCache_maps topic _ _).2⟩

theorem generateMetaphor_hit (topic : String) (outcome : FetchOutcome) (r : Draws)
    (s : MetaphorGenerator) (h : s.isGenerating = false) (hh : mapHas s.cache topic = true) :
    generateMetaphor topic outcome r s = (Except.ok (mapGet s.cache topic), s) := by
  unfold generateMetaphor generateMetaphorStart
  rw [h, if_neg (by simp), if_pos hh]

theorem generateMultipleStep_length (topic : String) (env : Nat → Round)
    (acc : List (Option String) × MetaphorGenerator) (i : Nat) :
    (generateMultipleStep topic env acc i).1.length = acc.1.length + 1 := by
  unfold generateMultipleStep
  split <;> simp

theorem generateMultiple_loop_length (topic : String) (env : Nat → Round) (l : List Nat)
    (acc : List (Option String) × MetaphorGenerator) :
    (l.foldl (generateMultipleStep topic env) acc).1.length = acc.1.length + l.length := by
  induction l generalizing acc with
  | nil => rfl
  | cons i l ih =>
    rw [List.foldl_cons, ih, generateMultipleStep_length, List.length_cons]
    omega

theorem generateMultipleStep_idle (topic : String) (env : Nat → Round)
    (acc : List (Option String) × MetaphorGenerator) (i : Nat) (metaphor : Option String)
    (s' : MetaphorGenerator)
    (h : generateMetaphor (variedTopic topic i) (env i).outcome (env i).draws acc.2 =
      (Except.ok metaphor, s')) :
    generateMultipleStep topic env acc i = (acc.1 ++ [metaphor], s') := by
  unfold generateMultipleStep
  rw [h]

/-- Claim C28, as the code behaves.  The method `generateMultiple` returns
exactly `count` metaphors whatever the requests do.  The topic is varied in the
same way, to `<topic> essence`, in every iteration after the first; so when no
other call is outstanding and `count` is 3, the third metaphor is the second
one again, read from the cache entry the second iteration wrote: the third
iteration sends no request and leaves the generator as the second left it. -/
theorem generateMultiple_repeats_second (topic : String) (count : Nat) (env : Nat → Round)
    (s : MetaphorGenerator) :
    (generateMultiple topic count env s).1.length = count ∧
    (∀ i j, 0 < i → 0 < j → variedTopic topic i = variedTopic topic j) ∧
    (s.isGenerating = false →
      ∃ first second, (generateMultiple topic 3 env s).1 = [first, second, second] ∧
        (generateMultiple topic 3 env s).2 = (generateMultiple topic 2 env s).2 ∧
        generateMetaphorStart (variedTopic topic 2) (generateMultiple topic 2 env s).2 =
          (Started.cached second, (generateMultiple topic 2 env s).2)) := by
  refine ⟨?_, ?_, ?_⟩
  · unfold generateMultiple
    rw [generateMultiple_loop_length, List.length_range]
    exact Nat.zero_add _
  · intro i j hi hj
    unfold variedTopic
    rw [if_neg (by omega), if_neg (by omega)]
  · intro hidle
    obtain ⟨m0, s1, e0, i1, -, -⟩ :=
      generateMetaphor_idle (variedTopic topic 0) (env 0).outcome (env 0).draws s hidle
    obtain ⟨m1, s2, e1, i2, has2, get2⟩ :=
      generateMetaphor_idle (variedTopic topic 1) (env 1).outcome (env 1).draws s1 i1
    have hv : variedTopic topic 2 = variedTopic topic 1 := rfl
    have e2 : generateMetaphor (variedTopic topic 2) (env 2).outcome (env 2).draws s2 =
        (Except.ok m1, s2) := by
      rw [hv, generateMetaphor_hit _ _ _ s2 i2 has2, get2]
    have step0 := generateMultipleStep_idle topic env ([], s) 0 m0 s1 e0
    have step1 := generateMultipleStep_idle topic env ([] ++ [m0], s1) 1 m1 s2 e1
    have step2 := generateMultipleStep_idle topic env ([] ++ [m0] ++ [m1], s2) 2 m1 s2 e2
    have h2 : generateMultiple topic 2 env s = ([] ++ [m0] ++ [m1], s2) := by
      unfold generateMultiple
      show generateMultipleStep topic env (generateMultipleStep topic env ([], s) 0) 1 = _
      rw [step0, step1]
    have h3 : generateMultiple topic 3 env s = ([] ++ [m0] ++ [m1] ++ [m1], s2) := by
      unfold generateMultiple
      show generateMultipleStep topic env
        (generateMultipleStep topic env (generateMultipleStep topic env ([], s) 0) 1) 2 = _
      rw [step0, step1, step2]
    refine ⟨m0, m1, ?_, ?_, ?_⟩
    · rw [h3]
      rfl
    · rw [h3, h2]
    · rw [h2, hv]
      unfold generateMetaphorStart
      rw [i2, if_neg (by simp), if_pos has2, get2]

theorem generateMultiple_repeats_second_witness :
    (generateMultiple "ocean" 3
        (fun i => ⟨FetchOutcome.success ("metaphor " ++ toString i), ⟨0, 0, 0⟩, ⟨0, 0, 0⟩⟩)
        MetaphorGenerator.construct).1 =
      [some "metaphor 0", some "metaphor 1", some "metaphor 1"] ∧
    ∃ first second,
      (generateMultiple "ocean" 3
        (fun i => ⟨FetchOutcome.success ("metaphor " ++ toString i), ⟨0, 0, 0⟩, ⟨0, 0, 0⟩⟩)
        MetaphorGenerator.construct).1 = [first, second, second] :=
  ⟨by decide!,
   ((generateMultiple_repeats_second "ocean" 3
      (fun i => ⟨FetchOutcome.success ("metaphor " ++ toString i), ⟨0, 0, 0⟩, ⟨0, 0, 0⟩⟩)
      MetaphorGenerator.construct).2.2 rfl).imp
     (fun _ h => h.imp (fun _ h => h.1))⟩

/-! ## Video request: claim C30 -/

theorem get_of_not_key (o : JsonObject) (key : String) (h : key ∉ JsonObject.keys o) :
    JsonObject.get o key = JsonValue.undefined := by
  unfold JsonObject.get
  have hnone : o.find? (fun p => p.1 == key) = none := by
    rw [List.find?_eq_none]
    intro p hp hk
    apply h
    unfold JsonObject.keys
    exact List.mem_map.mpr ⟨p, hp, by simpa using hk⟩
  rw [hnone]
  rfl

theorem keys_set (o : JsonObject) (key : String) (value : JsonValue) (k : String)
    (h : k ∈ JsonObject.keys (JsonObject.set o key value)) :
    k ∈ JsonObject.keys o ∨ k = key := by
  unfold JsonObject.set at h
  unfold JsonObject.keys at h ⊢
  split_ifs at h
  · obtain ⟨p, hp, rfl⟩ := List.mem_map.mp h
    obtain ⟨q, hq, rfl⟩ := List.mem_map.mp hp
    by_cases hk : (q.1 == key) = true
    · rw [if_pos hk]
      exact Or.inr rfl
    · rw [if_neg hk]
      exact Or.inl (List.mem_map.mpr ⟨q, hq, rfl⟩)
  · rw [List.map_append, List.mem_append] at h
    rcases h with h | h
    · exact Or.inl h
    · right
      simpa using h

theorem keys_spread (source : JsonObject) (target : JsonObject) (k : String)
    (h : k ∈ JsonObject.keys (source.foldl (fun o p => JsonObject.set o p.1 p.2) target)) :
    k ∈ JsonObject.keys target ∨ k ∈ JsonObject.keys source := by
  induction source generalizing target with
  | nil => exact Or.inl h
  | cons p rest ih =>
    rw [List.foldl_cons] at h
    rcases ih _ h with h1 | h1
    · rcases keys_set _ _ _ _ h1 with h2 | h2
      · exact Or.inl h2
      · right
        unfold JsonObject.keys
        rw [h2]
        exact List.mem_map.mpr ⟨p, List.mem_cons_self _ _, rfl⟩
    · right
      unfold JsonObject.keys at h1 ⊢
      rw [List.map_cons]
      exact List.mem_cons_of_mem _ h1

theorem keys_respond (status : Nat) (body : JsonObject) (k : String)
    (h : k ∈ JsonObject.keys (respond status body).body) : k ∈ JsonObject.keys body := by
  unfold respond JsonObject.keys at h
  unfold JsonObject.keys
  obtain ⟨p, hp, rfl⟩ := List.mem_map.mp h
  exact List.mem_map.mpr ⟨p, (List.mem_filter.mp hp).1, rfl⟩

theorem keys_videoBody (videoResult : JsonObject) (topic prompt : String) (k : String)
    (h : k ∈ JsonObject.keys (videoBody videoResult topic prompt)) :
    k ∈ JsonObject.keys videoResult ∨ k = "topic" ∨ k = "prompt" := by
  unfold videoBody at h
  rcases keys_set _ _ _ _ h with h | h
  · rcases keys_set _ _ _ _ h with h | h
    · rcases keys_spread _ _ _ h with h | h
      · exact absurd h (by simp [JsonObject.keys])
      · exact Or.inl h
    · exact Or.inr (Or.inl h)
  · exact Or.inr (Or.inr h)

theorem provider_result_keys (api : VideoApi) (video : JsonObject) :
    (generateRunwayVideo api = Except.ok video → "success" ∉ JsonObject.keys video) ∧
    (generatePikaVideo api = Except.ok video → "success" ∉ JsonObject.keys video) ∧
    (generateStableVideo api = Except.ok video → "success" ∉ JsonObject.keys video) := by
  cases api with
  | error e =>
    refine ⟨fun h => ?_, fun h => ?_, fun h => ?_⟩ <;> cases h
  | ok data =>
    refine ⟨fun h => ?_, fun h => ?_, fun h => ?_⟩
    · have hv : video = [("status", .str "success"), ("videoUrl", data.1), ("taskId", data.2),
          ("provider", .str "runway")] := (Except.ok.inj h).symm
      rw [hv]
      simp [JsonObject.keys]
    · have hv : video = [("status", .str "success"), ("videoUrl", data.1), ("taskId", data.2),
          ("provider", .str "pika")] := (Except.ok.inj h).symm
      rw [hv]
      simp [JsonObject.keys]
    · have hv : video = [("status", .str "success"), ("videoUrl", data.1),
          ("provider", .str "stable-video"), ("format", .str "mp4")] := (Except.ok.inj h).symm
      rw [hv]
      simp [JsonObject.keys]

theorem tryVideoProvider_keys (name : VideoProvider) (configured : Bool)
    (result : Except String JsonObject) (p : VideoProgress)
    (hresult : ∀ video, result = Except.ok video → "success" ∉ JsonObject.keys video)
    (hp : ∀ video, p.videoResult = some video → "success" ∉ JsonObject.keys video) :
    ∀ video, (tryVideoProvider name configured result p).videoResult = some video →
      "success" ∉ JsonObject.keys video := by
  intro video h
  unfold tryVideoProvider at h
  split_ifs at h
  · cases result with
    | ok v =>
      have : v = video := Option.some.inj h
      exact this ▸ hresult v rfl
    | error e => exact hp video h
  · exact hp video h

theorem postGenerateVideo_keys (env : VideoEnv) (body : RequestBody) :
    "success" ∉ JsonObject.keys (postGenerateVideo env body).1.body := by
  intro h
  unfold postGenerateVideo at h
  split_ifs at h
  · exact absurd (keys_respond _ _ _ h) (by decide)
  · have hk := keys_videoBody _ _ _ _ (keys_respond _ _ _ h)
    rcases hk with hk | hk | hk
    · revert hk
      have hprogress := tryVideoProvider_keys .stableVideo env.huggingFace.configured
        (generateStableVideo env.huggingFace.api)
        (tryVideoProvider .pika env.pika.configured (generatePikaVideo env.pika.api)
          (tryVideoProvider .runway env.runway.configured
            (generateRunwayVideo env.runway.api) { videoResult := none, calls := [] }))
        (fun video => (provider_result_keys _ video).2.2)
        (tryVideoProvider_keys .pika env.pika.configured (generatePikaVideo env.pika.api) _
          (fun video => (provider_result_keys _ video).2.1)
          (tryVideoProvider_keys .runway env.runway.configured
            (generateRunwayVideo env.runway.api) _
            (fun video => (provider_result_keys _ video).1)
            (fun video hv => absurd hv (by simp))))
      split
      · rename_i video hv
        exact hprogress video hv
      · simp [JsonObject.keys]
    · exact absurd hk (by decide)
    · exact absurd hk (by decide)

theorem branch_without_success (data : JsonObject)
    (h : "success" ∉ JsonObject.keys data) :
    JsonObject.get data "success" = JsonValue.undefined ∧
    generateDreamVideoBranch data =
      VideoDisplay.failed (if (JsonObject.get data "error").truthy then JsonObject.get data "error"
        else .str "Failed to generate video") := by
  have hs := get_of_not_key data "success" h
  refine ⟨hs, ?_⟩
  unfold generateDreamVideoBranch
  rw [hs]
  rfl

theorem runway_success_body (env : VideoEnv) (topic url : String) (task : JsonValue)
    (metaphor : Option String) (htopic : topic ≠ "")
    (hconfigured : env.runway.configured = true)
    (hapi : env.runway.api = Except.ok (JsonValue.str url, task)) :
    (postGenerateVideo env ⟨some topic, metaphor⟩).1.body =
      [("status", JsonValue.str "success"), ("videoUrl", JsonValue.str url)] ++
      (if task = JsonValue.undefined then [] else [("taskId", task)]) ++
      [("provider", JsonValue.str "runway"), ("topic", JsonValue.str topic),
       ("prompt", JsonValue.str (videoPrompt topic metaphor))] := by
  have hb : isBlank (some topic) = false := by simp [isBlank, htopic]
  unfold postGenerateVideo
  simp only [hb, Bool.false_eq_true, if_false, Option.getD_some]
  simp only [tryVideoProvider, generateRunwayVideo, hconfigured, hapi, Except.map]
  by_cases ht : task = JsonValue.undefined
  · simp [videoBody, JsonObject.set, respond, ht]
  · simp [videoBody, JsonObject.set, respond, ht]

/-- Claim C30.  No body the `/generate-video` handler sends, with status 400 or
200 or from its `catch` block with status 500, has a property `success`; so the
test `data.success && data.videoUrl` of `generateDreamVideo` fails for every
response of the server and `displayVideo` is not called.  This is so even when
Runway returned a video URL: the body then carries `status: 'success'` and the
URL, and the page reports 'Failed to generate video'. -/
theorem video_never_displayed (env : VideoEnv) (body : RequestBody) :
    JsonObject.get (postGenerateVideo env body).1.body "success" = JsonValue.undefined ∧
    (JsonObject.get (postGenerateVideo env body).1.body "success").truthy = false ∧
    (∀ videoUrl, generateDreamVideoBranch (postGenerateVideo env body).1.body ≠
      VideoDisplay.displayVideo videoUrl) ∧
    JsonObject.get videoHandlerFailure.body "success" = JsonValue.undefined ∧
    generateDreamVideoBranch videoHandlerFailure.body =
      VideoDisplay.failed (.str "Video generation failed") ∧
    (∀ (topic url : String) (task : JsonValue), topic ≠ "" → url ≠ "" →
      body.topic = some topic → env.runway.configured = true →
      env.runway.api = Except.ok (JsonValue.str url, task) →
      JsonObject.get (postGenerateVideo env body).1.body "status" = .str "success" ∧
      JsonObject.get (postGenerateVideo env body).1.body "videoUrl" = .str url ∧
      (JsonObject.get (postGenerateVideo env body).1.body "videoUrl").truthy = true ∧
      generateDreamVideoBranch (postGenerateVideo env body).1.body =
        VideoDisplay.failed (.str "Failed to generate video")) := by
  have hkeys := postGenerateVideo_keys env body
  have hbranch := branch_without_success _ hkeys
  refine ⟨hbranch.1, by rw [hbranch.1]; rfl, ?_, by decide!, by decide!, ?_⟩
  · intro videoUrl h
    rw [hbranch.2] at h
    cases h
  · intro topic url task htopic hurl hbody hconfigured hapi
    have hb : body = ⟨some topic, body.metaphor⟩ := by
      cases body
      simp only [RequestBody.mk.injEq, and_true]
      exact hbody
    have hresponse := runway_success_body env topic url task body.metaphor htopic hconfigured hapi
    rw [← hb] at hresponse
    have hstatus : JsonObject.get (postGenerateVideo env body).1.body "status" =
        .str "success" := by
      rw [hresponse]
      rfl
    have hurl' : JsonObject.get (postGenerateVideo env body).1.body "videoUrl" = .str url := by
      rw [hresponse]
      rfl
    have herror : JsonObject.get (postGenerateVideo env body).1.body "error" =
        JsonValue.undefined := by
      rw [hresponse]
      by_cases ht : task = JsonValue.undefined
      · rw [if_pos ht]
        rfl
      · rw [if_neg ht]
        rfl
    refine ⟨hstatus, hurl', ?_, ?_⟩
    · rw [hurl']
      simpa [JsonValue.truthy] using hurl
    · rw [hbranch.2, herror]
      rfl

theorem video_never_displayed_witness :
    JsonObject.get (postGenerateVideo
      { runway := { configured := true,
                    api := Except.ok (JsonValue.str "https://example.org/v.mp4",
                      JsonValue.str "task-1") },
        pika := { configured := false, api := Except.error "unused" },
        huggingFace := { configured := false, api := Except.error "unused" } }
      ⟨some "ocean", some "waves of light"⟩).1.body "videoUrl" =
        JsonValue.str "https://example.org/v.mp4" ∧
    generateDreamVideoBranch (postGenerateVideo
      { runway := { configured := true,
                    api := Except.ok (JsonValue.str "https://example.org/v.mp4",
                      JsonValue.str "task-1") },
        pika := { configured := false, api := Except.error "unused" },
        huggingFace := { configured := false, api := Except.error "unused" } }
      ⟨some "ocean", some "waves of light"⟩).1.body =
        VideoDisplay.failed (.str "Failed to generate video") :=
  ⟨((video_never_displayed _ _).2.2.2.2.2 "ocean" "https://example.org/v.mp4"
      (JsonValue.str "task-1") (by decide) (by decide) rfl rfl rfl).2.1,
   ((video_never_displayed _ _).2.2.2.2.2 "ocean" "https://example.org/v.mp4"
      (JsonValue.str "task-1") (by decide) (by decide) rfl rfl rfl).2.2.2⟩

end DreamFrame
